import Mathlib

/-!
# Cheetah-Software: floating-base model state and the dynamics simulator step

A shallow embedding of `common/include/FloatingBaseModel.h` and
`common/src/Dynamics/DynamicsSimulator.cpp`, followed by the robot program
(`SimulationBridge.cpp`, `HardwareBridge.cpp`, `main.cpp`, `SimulatorMessage.h`) and the trot
controllers (`WBICTrotTest.cpp`, `WBLC_TwoContactTransCtrl.cpp`).

* Scalars (`T = float` / `double` in the sources) are elements of a field `α`;
  all arithmetic is exact.
* Fixed-size Eigen vectors and matrices are functions on `Fin n`; the dynamic
  vectors `DVec<T>` are lists, and Eigen's size assertion on `a += b` is a
  failure (`none`).
* Code that the simulator calls but whose body is not part of the sources at
  hand (the contact resolvers, the dynamics solve, forward kinematics, the
  orientation helpers, `<cmath>`) is a parameter: the structures `CMath` and
  `Collaborators`.
* `integrateQuat` and the composite-inertia algorithm behind `massMatrix`, whose
  bodies are not part of the sources either, are modelled from their
  description.
-/

namespace Cheetah

/-! ## Numeric types (`cppTypes.h`) -/

/-- `Vec3<T>`: 3x1 vector. -/
abbrev Vec3 (α : Type) := Fin 3 → α

/-- `SVec<T>`: 6x1 spatial vector, angular part first. -/
abbrev SVec (α : Type) := Fin 6 → α

/-- `Quat<T>`: 4x1 vector holding a quaternion, scalar part first. -/
abbrev Quat (α : Type) := Fin 4 → α

/-- `Mat3<T>`: 3x3 matrix. -/
abbrev Mat3 (α : Type) := Matrix (Fin 3) (Fin 3) α

/-- `RotMat<T>`: 3x3 rotation matrix. -/
abbrev RotMat (α : Type) := Mat3 α

/-- `Mat6<T>`: 6x6 matrix. -/
abbrev Mat6 (α : Type) := Matrix (Fin 6) (Fin 6) α

/-- `DVec<T>`: vector whose size is only known at run time. -/
abbrev DVec (α : Type) := List α

/-- `DMat<T>`, `D6Mat<T>`, `D3Mat<T>`: matrices with a run-time size, stored by rows. -/
abbrev DMat (α : Type) := List (List α)

/-- `JointType`: an enumeration declared in `spatial.h`, carried by its integer tag. -/
abbrev JointType := Nat

/-- `CoordinateAxis`: an enumeration declared in `orientation_tools.h`, carried by its integer
tag. -/
abbrev CoordinateAxis := Nat

/-- Modelled from the spec: `SpatialInertia<T>` (declared in `SpatialInertia.h`), "a 6×6
representation of a rigid body's mass, center of mass, and rotational inertia". -/
structure SpatialInertia (α : Type) where
  _inertia : Mat6 α

/-- `Vec3<T>::Zero()`: the zero vector. -/
def Vec3.Zero {α : Type} [Field α] : Vec3 α := fun _ => 0

/-- `SVec<T>::Zero()`: the zero spatial vector. -/
def SVec.Zero {α : Type} [Field α] : SVec α := fun _ => 0

/-- `Quat<T>::Zero()`: the 4x1 vector whose four entries are zero. -/
def Quat.Zero {α : Type} [Field α] : Quat α := fun _ => 0

/-- `size_t` subtraction `a - b`: unsigned 64-bit arithmetic wraps around. -/
def size_t_sub (a b : Nat) : Nat := (a + 2 ^ 64 - b % 2 ^ 64) % 2 ^ 64

/-- `DVec<T>::Zero(size)`: the zero vector with `size` entries. -/
def DVec.Zero {α : Type} [Field α] (size : Nat) : DVec α := List.replicate size 0

/-- `v * dt` for a dynamic vector: every entry is multiplied by the scalar. -/
def DVec.scale {α : Type} [Mul α] (v : DVec α) (dt : α) : DVec α := v.map (fun x => x * dt)

/-- `a += b` for dynamic vectors. Eigen does not resize the destination of a compound
assignment: it asserts that both sides have the same size, and the assertion failing is `none`. -/
def DVec.addAssign {α : Type} [Add α] (a b : DVec α) : Option (DVec α) :=
  if a.length = b.length then some (List.zipWith (fun x y => x + y) a b) else none

/-- `v * dt` for a fixed-size vector. -/
def vscale {n : Nat} {α : Type} [Mul α] (v : Fin n → α) (dt : α) : Fin n → α := fun i => v i * dt

/-- `v.template block<3, 1>(0, 0)`: the first three entries of a spatial vector. -/
def block3_0 {α : Type} (v : SVec α) : Vec3 α := fun i => v ⟨i.val, by omega⟩

/-- `v.template block<3, 1>(3, 0)`: the last three entries of a spatial vector. -/
def block3_3 {α : Type} (v : SVec α) : Vec3 α := fun i => v ⟨i.val + 3, by omega⟩

/-! ## `FloatingBaseModel.h` -/

/-- The state of a floating base model (base and joints): `FBModelState<T>`. -/
structure FBModelState (α : Type) where
  bodyOrientation : Quat α
  bodyPosition : Vec3 α
  bodyVelocity : SVec α
  q : DVec α
  qd : DVec α

/-- The result of running the articulated body algorithm: `FBModelStateDerivative<T>`. -/
structure FBModelStateDerivative (α : Type) where
  dQuat : Quat α
  dBodyPosition : Vec3 α
  dBodyVelocity : SVec α
  qdd : DVec α

/-- The data members of `FloatingBaseModel<T>`, in the order of the header. -/
structure FloatingBaseModel (α : Type) where
  _nDof : Nat
  _gravity : Vec3 α
  _parents : List Int
  _gearRatios : List α
  _jointTypes : List JointType
  _jointAxes : List CoordinateAxis
  _Xtree : List (Mat6 α)
  _Xrot : List (Mat6 α)
  _Ibody : List (SpatialInertia α)
  _Irot : List (SpatialInertia α)
  _bodyNames : List String
  _nGroundContact : Nat
  _gcParent : List Nat
  _gcLocation : List (Vec3 α)
  _footIndicesGC : List Nat
  _pGC : List (Vec3 α)
  _vGC : List (Vec3 α)
  _compute_contact_info : List Bool
  _state : FBModelState α
  _v : List (SVec α)
  _vrot : List (SVec α)
  _a : List (SVec α)
  _arot : List (SVec α)
  _avp : List (SVec α)
  _avprot : List (SVec α)
  _c : List (SVec α)
  _crot : List (SVec α)
  _S : List (SVec α)
  _Srot : List (SVec α)
  _fvp : List (SVec α)
  _fvprot : List (SVec α)
  _ag : List (SVec α)
  _agrot : List (SVec α)
  _f : List (SVec α)
  _frot : List (SVec α)
  _IC : List (SpatialInertia α)
  _Xup : List (Mat6 α)
  _Xa : List (Mat6 α)
  _Xuprot : List (Mat6 α)
  _H : DMat α
  _C : DMat α
  _Cqd : DVec α
  _G : DVec α
  _J : List (DMat α)
  _Jdqd : List (SVec α)
  _Jc : List (DMat α)
  _Jcdqd : List (Vec3 α)
  _kinematicsUpToDate : Bool
  _biasAccelerationsUpToDate : Bool
  _compositeInertiasUpToDate : Bool

/-- `FloatingBaseModel::setState`: store the state and mark every cached quantity stale. -/
def FloatingBaseModel.setState {α : Type} (m : FloatingBaseModel α) (state : FBModelState α) :
    FloatingBaseModel α :=
  { m with
    _state := state
    _kinematicsUpToDate := false
    _biasAccelerationsUpToDate := false
    _compositeInertiasUpToDate := false }

/-- `FloatingBaseModel::FloatingBaseModel()`: default gravity, no bodies, no contact points,
every cache empty and stale. The fixed-size members of `_state` are not initialised by the
constructor; `mem` stands for their indeterminate contents. -/
def FloatingBaseModel.new {α : Type} [Field α] (mem : FBModelState α) : FloatingBaseModel α :=
  { _nDof := 0
    _gravity := ![0, 0, -(981 / 100)]
    _parents := []
    _gearRatios := []
    _jointTypes := []
    _jointAxes := []
    _Xtree := []
    _Xrot := []
    _Ibody := []
    _Irot := []
    _bodyNames := []
    _nGroundContact := 0
    _gcParent := []
    _gcLocation := []
    _footIndicesGC := []
    _pGC := []
    _vGC := []
    _compute_contact_info := []
    _state := { mem with q := [], qd := [] }
    _v := []
    _vrot := []
    _a := []
    _arot := []
    _avp := []
    _avprot := []
    _c := []
    _crot := []
    _S := []
    _Srot := []
    _fvp := []
    _fvprot := []
    _ag := []
    _agrot := []
    _f := []
    _frot := []
    _IC := []
    _Xup := []
    _Xa := []
    _Xuprot := []
    _H := []
    _C := []
    _Cqd := []
    _G := []
    _J := []
    _Jdqd := []
    _Jc := []
    _Jcdqd := []
    _kinematicsUpToDate := false
    _biasAccelerationsUpToDate := false
    _compositeInertiasUpToDate := false }

/-! ## Orientation helpers (`orientation_tools.h`) -/

/-- The `<cmath>` functions used by the orientation helpers. -/
structure CMath (α : Type) where
  sqrt : α → α
  sin : α → α
  cos : α → α

/-- Squared Euclidean norm of a quaternion seen as a 4x1 vector. -/
def quatNormSq {α : Type} [Field α] (q : Quat α) : α :=
  q 0 * q 0 + q 1 * q 1 + q 2 * q 2 + q 3 * q 3

/-- Euclidean norm of a quaternion (`quat.norm()`). -/
def quatNorm {α : Type} [Field α] (M : CMath α) (q : Quat α) : α := M.sqrt (quatNormSq q)

/-- Squared Euclidean norm of a 3x1 vector. -/
def vec3NormSq {α : Type} [Field α] (v : Vec3 α) : α := v 0 * v 0 + v 1 * v 1 + v 2 * v 2

/-- Hamilton product of two quaternions, scalar part first. -/
def quatProduct {α : Type} [Field α] (a b : Quat α) : Quat α :=
  ![a 0 * b 0 - a 1 * b 1 - a 2 * b 2 - a 3 * b 3,
    a 0 * b 1 + a 1 * b 0 + a 2 * b 3 - a 3 * b 2,
    a 0 * b 2 - a 1 * b 3 + a 2 * b 0 + a 3 * b 1,
    a 0 * b 3 + a 1 * b 2 - a 2 * b 1 + a 3 * b 0]

/-- Quaternion exponential of the pure quaternion with vector part `v`:
`(cos |v|, sin |v| * v / |v|)`, and the identity quaternion for `v = 0`. -/
def quatExp {α : Type} [Field α] [DecidableEq α] (M : CMath α) (v : Vec3 α) : Quat α :=
  let ang := M.sqrt (vec3NormSq v)
  if ang = 0 then ![1, 0, 0, 0]
  else ![M.cos ang, M.sin ang / ang * v 0, M.sin ang / ang * v 1, M.sin ang / ang * v 2]

/-- Modelled from the spec: `integrateQuat(quat, omega, dt)` of `orientation_tools.h`, whose
body is not among the sources: "integrate orientation by composing the current quaternion
with the exponential of half the angular velocity times the timestep, then renormalize". -/
def integrateQuat {α : Type} [Field α] [DecidableEq α] (M : CMath α)
    (quat : Quat α) (omega : Vec3 α) (dt : α) : Quat α :=
  let quatD := quatExp M (fun i => omega i / 2 * dt)
  let quatNew := quatProduct quatD quat
  fun i => quatNew i / quatNorm M quatNew

/-! ## `DynamicsSimulator.cpp` -/

/-- The two classes an object behind `_contact_constr` can have. -/
inductive ContactKind where
  | ContactSpringDamper
  | ContactImpulse
  deriving DecidableEq, Repr

/-- The object `_contact_constr` points to: its class, fixed when it is created with `new`,
and its data members, of a type `μ` that the simulator never looks into. -/
structure ContactConstraint (μ : Type) where
  kind : ContactKind
  data : μ

/-- The calls issued by `step` and `updateCollisions`, with their arguments. -/
inductive Call (α : Type) where
  | forwardKinematics
  | model_forwardKinematics
  | UpdateExternalForces (kp kd dt : α)
  | runABA (tau : DVec α)
  | integrate (dt : α)
  | setState
  | resetExternalForces
  | resetCalculationFlags

/-- Whether a call is a forward-kinematics pass (the simulator's or the model's). -/
def Call.isForwardKinematics {α : Type} : Call α → Bool
  | Call.forwardKinematics => true
  | Call.model_forwardKinematics => true
  | _ => false

/-- The functions `DynamicsSimulator.cpp` calls and whose bodies are not among the sources.
Each acts on the objects it can reach: the model's member functions on the model, a contact
resolver (which holds a pointer to the model) on its own members and the model, the dynamics
solve on the model and the state derivative. None of them but `UpdateQdot` is handed the
simulator's state to change ("State is mutated every simulation step exclusively by the
Integrator"), and none can change the class of the resolver or the flag `_useSpringDamper`. -/
structure Collaborators (α μ : Type) where
  /-- `std::sqrt`, `std::sin`, `std::cos` -/
  cmath : CMath α
  /-- `ori::quaternionToRotationMatrix` -/
  quaternionToRotationMatrix : Quat α → RotMat α
  /-- `spatial::createSXform` -/
  createSXform : RotMat α → Vec3 α → Mat6 α
  /-- `spatial::rotationFromSXform` -/
  rotationFromSXform : Mat6 α → RotMat α
  /-- `ContactSpringDamper<T>::ContactSpringDamper(&_model)` -/
  newContactSpringDamper : FloatingBaseModel α → μ
  /-- `ContactImpulse<T>::ContactImpulse(&_model)` -/
  newContactImpulse : FloatingBaseModel α → μ
  /-- `DynamicsSimulator::forwardKinematics()` -/
  forwardKinematics : FloatingBaseModel α → FloatingBaseModel α
  /-- `FloatingBaseModel::forwardKinematics()` -/
  model_forwardKinematics : FloatingBaseModel α → FloatingBaseModel α
  /-- `ContactConstraint::UpdateExternalForces(kp, kd, dt)`, virtual -/
  UpdateExternalForces : ContactKind → α → α → α → μ × FloatingBaseModel α →
    μ × FloatingBaseModel α
  /-- `DynamicsSimulator::runABA(tau)`: reads `_state`, writes `_dstate` -/
  runABA : DVec α → FloatingBaseModel α → FBModelState α → FBModelStateDerivative α →
    FloatingBaseModel α × FBModelStateDerivative α
  /-- `ContactConstraint::UpdateQdot(state)`, virtual -/
  UpdateQdot : ContactKind → μ × FloatingBaseModel α → FBModelState α →
    (μ × FloatingBaseModel α) × FBModelState α
  /-- `FloatingBaseModel::resetExternalForces()` -/
  resetExternalForces : FloatingBaseModel α → FloatingBaseModel α
  /-- `FloatingBaseModel::resetCalculationFlags()` -/
  resetCalculationFlags : FloatingBaseModel α → FloatingBaseModel α

/-- The data members of `DynamicsSimulator<T>` used in `DynamicsSimulator.cpp`, and the
record `calls` of the calls issued so far by `step` (a ghost member, never read). -/
structure DynamicsSimulator (α μ : Type) where
  _model : FloatingBaseModel α
  _useSpringDamper : Bool
  _contact_constr : ContactConstraint μ
  _state : FBModelState α
  _dstate : FBModelStateDerivative α
  calls : List (Call α)

/-- `DynamicsSimulator::DynamicsSimulator(model, useSpringDamper)`. The constructor does not
initialise `_dstate`; `dmem` stands for the indeterminate contents of its fixed-size members,
its dynamic vector `qdd` is empty. -/
def DynamicsSimulator.new {α μ : Type} [Field α] (E : Collaborators α μ)
    (model : FloatingBaseModel α) (useSpringDamper : Bool) (dmem : FBModelStateDerivative α) :
    DynamicsSimulator α μ :=
  { _model := model
    _useSpringDamper := useSpringDamper
    _contact_constr :=
      if useSpringDamper then
        { kind := ContactKind.ContactSpringDamper, data := E.newContactSpringDamper model }
      else
        { kind := ContactKind.ContactImpulse, data := E.newContactImpulse model }
    _state :=
      { bodyVelocity := SVec.Zero
        bodyPosition := Vec3.Zero
        bodyOrientation := Quat.Zero
        q := DVec.Zero (size_t_sub model._nDof 6)
        qd := DVec.Zero (size_t_sub model._nDof 6) }
    _dstate := { dmem with qdd := [] }
    calls := [] }

/-- `DynamicsSimulator::forwardKinematics()`. -/
def DynamicsSimulator.forwardKinematics {α μ : Type} (E : Collaborators α μ)
    (sim : DynamicsSimulator α μ) : DynamicsSimulator α μ :=
  { sim with
    _model := E.forwardKinematics sim._model
    calls := sim.calls ++ [Call.forwardKinematics] }

/-- `DynamicsSimulator::updateCollisions(dt, kp, kd)`. -/
def DynamicsSimulator.updateCollisions {α μ : Type} (E : Collaborators α μ)
    (sim : DynamicsSimulator α μ) (dt kp kd : α) : DynamicsSimulator α μ :=
  let model1 := E.model_forwardKinematics sim._model
  let r := E.UpdateExternalForces sim._contact_constr.kind kp kd dt
    (sim._contact_constr.data, model1)
  { sim with
    _model := r.2
    _contact_constr := { sim._contact_constr with data := r.1 }
    calls := sim.calls ++ [Call.model_forwardKinematics, Call.UpdateExternalForces kp kd dt] }

/-- `DynamicsSimulator::runABA(tau)`. -/
def DynamicsSimulator.runABA {α μ : Type} (E : Collaborators α μ)
    (sim : DynamicsSimulator α μ) (tau : DVec α) : DynamicsSimulator α μ :=
  let r := E.runABA tau sim._model sim._state sim._dstate
  { sim with
    _model := r.1
    _dstate := r.2
    calls := sim.calls ++ [Call.runABA tau] }

/-- `DynamicsSimulator::integrate(dt)`: integrate the floating base state. -/
def DynamicsSimulator.integrate {α μ : Type} [Field α] [DecidableEq α] (E : Collaborators α μ)
    (sim : DynamicsSimulator α μ) (dt : α) : Option (DynamicsSimulator α μ) :=
  if sim._useSpringDamper then
    let omegaBody := block3_0 sim._state.bodyVelocity
    let X := E.createSXform (E.quaternionToRotationMatrix sim._state.bodyOrientation)
      sim._state.bodyPosition
    let R := E.rotationFromSXform X
    let omega0 := Matrix.mulVec R.transpose omegaBody
    -- actual integration
    (DVec.addAssign sim._state.qd (DVec.scale sim._dstate.qdd dt)).bind fun qd =>
    (DVec.addAssign sim._state.q (DVec.scale qd dt)).map fun q =>
    { sim with
      _state :=
        { qd := qd
          q := q
          bodyVelocity := sim._state.bodyVelocity + vscale sim._dstate.dBodyVelocity dt
          bodyPosition := sim._state.bodyPosition + vscale sim._dstate.dBodyPosition dt
          bodyOrientation := integrateQuat E.cmath sim._state.bodyOrientation omega0 dt } }
  else
    -- Velocity Update by integrating acceleration
    (DVec.addAssign sim._state.qd (DVec.scale sim._dstate.qdd dt)).bind fun qd =>
    let state1 : FBModelState α :=
      { sim._state with
        qd := qd
        bodyVelocity := sim._state.bodyVelocity + vscale sim._dstate.dBodyVelocity dt }
    -- Contact Constraint Velocity Updated
    let r := E.UpdateQdot sim._contact_constr.kind (sim._contact_constr.data, sim._model) state1
    let state2 := r.2
    -- Prepare body velocity integration
    let R_body := E.quaternionToRotationMatrix state2.bodyOrientation
    let dBodyPosition := Matrix.mulVec R_body.transpose (block3_3 state2.bodyVelocity)
    let omegaBody := block3_0 state2.bodyVelocity
    let omega0 := Matrix.mulVec R_body.transpose omegaBody
    -- Position Update
    (DVec.addAssign state2.q (DVec.scale state2.qd dt)).map fun q =>
    { sim with
      _model := r.1.2
      _contact_constr := { sim._contact_constr with data := r.1.1 }
      _dstate := { sim._dstate with dBodyPosition := dBodyPosition }
      _state :=
        { state2 with
          q := q
          bodyPosition := state2.bodyPosition + vscale dBodyPosition dt
          bodyOrientation := integrateQuat E.cmath state2.bodyOrientation omega0 dt } }

/-- `DynamicsSimulator::step(dt, tau, kp, kd)`: take one simulation step. The result is
`none` when an Eigen size assertion fails inside `integrate`. -/
def DynamicsSimulator.step {α μ : Type} [Field α] [DecidableEq α] (E : Collaborators α μ)
    (sim : DynamicsSimulator α μ) (dt : α) (tau : DVec α) (kp kd : α) :
    Option (DynamicsSimulator α μ) :=
  let sim1 := sim.forwardKinematics E
  let sim2 := sim1.updateCollisions E dt kp kd
  let sim3 := sim2.runABA E tau
  (DynamicsSimulator.integrate E { sim3 with calls := sim3.calls ++ [Call.integrate dt] } dt).map
    fun sim4 =>
    { sim4 with
      _model := E.resetCalculationFlags (E.resetExternalForces (sim4._model.setState sim4._state))
      calls := sim4.calls ++
        [Call.setState, Call.resetExternalForces, Call.resetCalculationFlags] }

/-! ## The per-step call sequences -/

/-- The calls of one step as the code issues them: `step` calls the simulator's
`forwardKinematics`, and `updateCollisions` calls the model's `forwardKinematics` once more
before `UpdateExternalForces`. -/
def stepCalls {α : Type} (dt : α) (tau : DVec α) (kp kd : α) : List (Call α) :=
  [Call.forwardKinematics, Call.model_forwardKinematics, Call.UpdateExternalForces kp kd dt,
    Call.runABA tau, Call.integrate dt, Call.setState, Call.resetExternalForces,
    Call.resetCalculationFlags]

/-- The calls of one step with forward kinematics performed exactly once, by the call `fk`. -/
def singlePassCalls {α : Type} (fk : Call α) (dt : α) (tau : DVec α) (kp kd : α) :
    List (Call α) :=
  [fk, Call.UpdateExternalForces kp kd dt, Call.runABA tau, Call.integrate dt, Call.setState,
    Call.resetExternalForces, Call.resetCalculationFlags]

/-! ## A concrete set of collaborators

A free-flying mechanism: no contact is ever found, no force acts, and every joint has unit
inertia, so that the joint acceleration is the joint torque. -/

/-- Rotation matrix of a quaternion, scalar part first. -/
def freeFlight.quaternionToRotationMatrix {α : Type} [Field α] (q : Quat α) : RotMat α :=
  !![1 - 2 * (q 2 * q 2 + q 3 * q 3), 2 * (q 1 * q 2 + q 0 * q 3), 2 * (q 1 * q 3 - q 0 * q 2);
     2 * (q 1 * q 2 - q 0 * q 3), 1 - 2 * (q 1 * q 1 + q 3 * q 3), 2 * (q 2 * q 3 + q 0 * q 1);
     2 * (q 1 * q 3 + q 0 * q 2), 2 * (q 2 * q 3 - q 0 * q 1), 1 - 2 * (q 1 * q 1 + q 2 * q 2)]

/-- A 6x6 transform holding the rotation in its two diagonal blocks. -/
def freeFlight.createSXform {α : Type} [Field α] (R : RotMat α) (_r : Vec3 α) : Mat6 α :=
  fun i j =>
    if h : i.val < 3 ∧ j.val < 3 then R ⟨i.val, h.1⟩ ⟨j.val, h.2⟩
    else if h3 : 3 ≤ i.val ∧ 3 ≤ j.val then R ⟨i.val - 3, by omega⟩ ⟨j.val - 3, by omega⟩
    else 0

/-- The top left 3x3 block of a 6x6 transform. -/
def freeFlight.rotationFromSXform {α : Type} (X : Mat6 α) : RotMat α :=
  fun i j => X ⟨i.val, by omega⟩ ⟨j.val, by omega⟩

/-- The collaborators of a free-flying mechanism. -/
def freeFlight {α : Type} [Field α] (M : CMath α) : Collaborators α Unit :=
  { cmath := M
    quaternionToRotationMatrix := freeFlight.quaternionToRotationMatrix
    createSXform := freeFlight.createSXform
    rotationFromSXform := freeFlight.rotationFromSXform
    newContactSpringDamper := fun _ => ()
    newContactImpulse := fun _ => ()
    forwardKinematics := fun m => { m with _kinematicsUpToDate := true }
    model_forwardKinematics := fun m => { m with _kinematicsUpToDate := true }
    UpdateExternalForces := fun _ _ _ _ x => x
    runABA := fun tau m s _ =>
      (m, { dQuat := Quat.Zero
            dBodyPosition := Matrix.mulVec
              (freeFlight.quaternionToRotationMatrix s.bodyOrientation).transpose
              (block3_3 s.bodyVelocity)
            dBodyVelocity := SVec.Zero
            qdd := tau })
    UpdateQdot := fun _ x s => (x, s)
    resetExternalForces := fun m => m
    resetCalculationFlags := fun m =>
      { m with
        _kinematicsUpToDate := false
        _biasAccelerationsUpToDate := false
        _compositeInertiasUpToDate := false } }

/-- A state at rest at the origin with the identity orientation and joint vectors `q`, `qd`. -/
def restState {α : Type} [Field α] (q qd : DVec α) : FBModelState α :=
  { bodyOrientation := ![1, 0, 0, 0]
    bodyPosition := Vec3.Zero
    bodyVelocity := SVec.Zero
    q := q
    qd := qd }

/-- A zero state derivative with joint accelerations `qdd`. -/
def restDerivative {α : Type} [Field α] (qdd : DVec α) : FBModelStateDerivative α :=
  { dQuat := Quat.Zero
    dBodyPosition := Vec3.Zero
    dBodyVelocity := SVec.Zero
    qdd := qdd }

/-- A model with `nDof` degrees of freedom that holds the state `s`. -/
def modelWith {α : Type} [Field α] (nDof : Nat) (s : FBModelState α) : FloatingBaseModel α :=
  { FloatingBaseModel.new s with _nDof := nDof, _state := s }

/-- A free-flying simulator over a model with `nDof` degrees of freedom, into which the
state `s` has been injected. -/
def simWith {α : Type} [Field α] (M : CMath α) (nDof : Nat) (useSpringDamper : Bool)
    (s : FBModelState α) (d : FBModelStateDerivative α) : DynamicsSimulator α Unit :=
  { DynamicsSimulator.new (freeFlight M) (modelWith nDof s) useSpringDamper d with
    _state := s
    _dstate := d }

/-! ## Conditions on the state and on the collaborators -/

/-- Modelled from the spec: the impulse resolver's velocity update, whose body is not among
the sources, "mutates generalized velocity directly": it leaves the base orientation, the base
position and the joint positions of the state as they are, and the joint-velocity vector
keeps its size. -/
def MutatesVelocityOnly {α μ : Type} (E : Collaborators α μ) : Prop :=
  ∀ (k : ContactKind) (x : μ × FloatingBaseModel α) (s : FBModelState α),
    (E.UpdateQdot k x s).2.bodyOrientation = s.bodyOrientation ∧
    (E.UpdateQdot k x s).2.bodyPosition = s.bodyPosition ∧
    (E.UpdateQdot k x s).2.q = s.q ∧
    (E.UpdateQdot k x s).2.qd.length = s.qd.length

/-- The joint vectors that `integrate` adds to each other have one common size: Eigen's
size assertions hold. -/
def JointSizesAgree {α μ : Type} (sim : DynamicsSimulator α μ) : Prop :=
  sim._state.qd.length = sim._dstate.qdd.length ∧ sim._state.q.length = sim._state.qd.length

/-- The simulator as `integrate` finds it inside `step`: after forward kinematics, the
collision update and the dynamics solve. -/
def DynamicsSimulator.beforeIntegrate {α μ : Type} (E : Collaborators α μ)
    (sim : DynamicsSimulator α μ) (dt : α) (tau : DVec α) (kp kd : α) : DynamicsSimulator α μ :=
  let sim3 := ((sim.forwardKinematics E).updateCollisions E dt kp kd).runABA E tau
  { sim3 with calls := sim3.calls ++ [Call.integrate dt] }

/-- What `step` does after `integrate` has returned: commit the state to the model, then
reset the external forces and the calculation flags. -/
def DynamicsSimulator.afterIntegrate {α μ : Type} (E : Collaborators α μ)
    (sim4 : DynamicsSimulator α μ) : DynamicsSimulator α μ :=
  { sim4 with
    _model := E.resetCalculationFlags (E.resetExternalForces (sim4._model.setState sim4._state))
    calls := sim4.calls ++
      [Call.setState, Call.resetExternalForces, Call.resetCalculationFlags] }

/-- The state after the velocity update of the impulse branch: `qd += qdd * dt` (given as
`qd1`) and `bodyVelocity += dBodyVelocity * dt`, followed by the resolver's `UpdateQdot`. -/
def DynamicsSimulator.afterImpulse {α μ : Type} [Field α] (E : Collaborators α μ)
    (sim : DynamicsSimulator α μ) (dt : α) (qd1 : DVec α) : FBModelState α :=
  (E.UpdateQdot sim._contact_constr.kind (sim._contact_constr.data, sim._model)
    { sim._state with
      qd := qd1
      bodyVelocity := sim._state.bodyVelocity + vscale sim._dstate.dBodyVelocity dt }).2

/-- The helpers of `spatial.h` fit together: `rotationFromSXform` returns the rotation that
`createSXform` was given. -/
def RotationRecovered {α μ : Type} (E : Collaborators α μ) : Prop :=
  ∀ (R : RotMat α) (p : Vec3 α), E.rotationFromSXform (E.createSXform R p) = R

/-- A free-flying simulator over a seven-DOF model (base and one joint), joint at position 0
with velocity 1 and acceleration 2, the base turning about its x axis and moving along y. -/
def spinningSim {α : Type} [Field α] (M : CMath α) (useSpringDamper : Bool) :
    DynamicsSimulator α Unit :=
  simWith M 7 useSpringDamper
    { restState [0] [1] with bodyVelocity := ![1, 0, 0, 0, 1, 0] }
    { restDerivative [2] with dBodyVelocity := ![1, 0, 0, 0, 0, 0] }

/-- Exact arithmetic for the `<cmath>` functions: `sqrt` is the non-negative square root of
every non-negative number, and `sin`, `cos` satisfy the Pythagorean identity. -/
def CMath.Exact {α : Type} [LinearOrderedField α] (M : CMath α) : Prop :=
  (∀ x, 0 ≤ x → 0 ≤ M.sqrt x ∧ M.sqrt x * M.sqrt x = x) ∧
  (∀ x, M.sin x * M.sin x + M.cos x * M.cos x = 1)

/-- A run: successive calls of `step`, one for each `(dt, tau, kp, kd)` of the list; it stops
at the first step that fails. -/
def DynamicsSimulator.steps {α μ : Type} [Field α] [DecidableEq α] (E : Collaborators α μ) :
    DynamicsSimulator α μ → List (α × DVec α × α × α) → Option (DynamicsSimulator α μ)
  | sim, [] => some sim
  | sim, (dt, tau, kp, kd) :: rest =>
    (DynamicsSimulator.step E sim dt tau kp kd).bind fun sim1 =>
      DynamicsSimulator.steps E sim1 rest

/-! ## The mass matrix (composite-inertia algorithm)

`massMatrix` and `compositeInertias` are declared in `FloatingBaseModel.h`; their bodies are
not among the sources. They are modelled from the description of the algorithm, over the
model's own members: the body arrays `_parents`, `_Ibody`, `_Irot`, `_gearRatios` and the
per-body quantities `_Xup`, `_Xuprot`, `_S` that forward kinematics caches from the state.
Body 5 is the floating base (as the header says of `addGroundContactPoint`), body `i` for
`6 <= i < _nDof` hangs on joint `i`, and the matrix has `_nDof` rows and columns: six for the
base and one for each joint. -/

/-- `FloatingBaseModel::setGravity(g)`: set the gravity. -/
def FloatingBaseModel.setGravity {α : Type} (m : FloatingBaseModel α) (g : Vec3 α) :
    FloatingBaseModel α :=
  { m with _gravity := g }

/-- Modelled from the spec: `FloatingBaseModel::addBase(inertia)`, declared in the header
("Add floating base. Must be the first body added, and there can only be one") with its body
not among the sources: "must be called first and exactly once, fails otherwise". The floating
base takes the six indices 0 to 5, one for each of its degrees of freedom, and is itself
body 5 (as the header says of `addGroundContactPoint`); its rotor is inert. -/
def FloatingBaseModel.addBase {α : Type} [Field α] (m : FloatingBaseModel α)
    (inertia : SpatialInertia α) : Option (FloatingBaseModel α) :=
  if m._nDof = 0 then
    some
      { m with
        _nDof := 6
        _parents := m._parents ++ List.replicate 6 0
        _gearRatios := m._gearRatios ++ List.replicate 6 0
        _jointTypes := m._jointTypes ++ List.replicate 6 0
        _jointAxes := m._jointAxes ++ List.replicate 6 0
        _Xtree := m._Xtree ++ List.replicate 6 1
        _Xrot := m._Xrot ++ List.replicate 6 1
        _Ibody := m._Ibody ++ List.replicate 5 ⟨0⟩ ++ [inertia]
        _Irot := m._Irot ++ List.replicate 6 ⟨0⟩
        _bodyNames := m._bodyNames ++ List.replicate 6 "" }
  else none

/-- Modelled from the spec: `FloatingBaseModel::addBody(inertia, rotorInertia, gearRatio,
parent, jointType, jointAxis, Xtree, Xrot)`, declared in the header with its body not among
the sources: it returns the `bodyId` and "fails if `parentId` does not refer to an
already-added body". The bodies added so far are those with an index from 0 to `_nDof - 1`;
the new body is appended to every per-body array and gets the next index, which is
returned. -/
def FloatingBaseModel.addBody {α : Type} (m : FloatingBaseModel α)
    (inertia rotorInertia : SpatialInertia α) (gearRatio : α) (parent : Int)
    (jointType : JointType) (jointAxis : CoordinateAxis) (Xtree Xrot : Mat6 α) :
    Option (FloatingBaseModel α × Int) :=
  if 0 ≤ parent ∧ parent < (m._nDof : Int) then
    some
      ({ m with
          _nDof := m._nDof + 1
          _parents := m._parents ++ [parent]
          _gearRatios := m._gearRatios ++ [gearRatio]
          _jointTypes := m._jointTypes ++ [jointType]
          _jointAxes := m._jointAxes ++ [jointAxis]
          _Xtree := m._Xtree ++ [Xtree]
          _Xrot := m._Xrot ++ [Xrot]
          _Ibody := m._Ibody ++ [inertia]
          _Irot := m._Irot ++ [rotorInertia]
          _bodyNames := m._bodyNames ++ [""] },
        (m._nDof : Int))
  else none

/-- The models built through `addBase` and `addBody`: a default-constructed model to which
the base has been added, and then any number of bodies, every call having succeeded. -/
inductive Built {α : Type} [Field α] : FloatingBaseModel α → Prop where
  | base (mem : FBModelState α) (inertia : SpatialInertia α) (m : FloatingBaseModel α) :
      (FloatingBaseModel.new mem).addBase inertia = some m → Built m
  | body (m m1 : FloatingBaseModel α) (inertia rotorInertia : SpatialInertia α) (gearRatio : α)
      (parent : Int) (jointType : JointType) (jointAxis : CoordinateAxis) (Xtree Xrot : Mat6 α)
      (id : Int) :
      Built m →
      m.addBody inertia rotorInertia gearRatio parent jointType jointAxis Xtree Xrot
        = some (m1, id) →
      Built m1

/-- The parent index of every body hanging on a joint is a body index smaller than the
body's own. -/
def ParentsBelow {α : Type} (m : FloatingBaseModel α) : Prop :=
  ∀ i, 6 ≤ i → i < m._nDof →
    0 ≤ m._parents.getD i 0 ∧ m._parents.getD i 0 < (i : Int)

/-- A default-constructed model to which a base with unit spatial inertia is added. -/
def exampleBase {α : Type} [Field α] : Option (FloatingBaseModel α) :=
  (FloatingBaseModel.new (restState [] [])).addBase ⟨1⟩

/-! ## Control parameter requests (`ControlParameterInterface.h`)

The types of `ControlParameters.h` (`ControlParameter`, `ControlParameterValue`,
`ControlParameterValueKind`, the collection) are not among the sources. A control parameter
is an object of a type `P`, a value one of a type `V`; the member functions the bridges call
on a parameter are the fields of `ControlParameterOps`. -/

/-- `ControlParameterRequestKind`. -/
inductive ControlParameterRequestKind where
  | GET_PARAM_BY_NAME
  | SET_PARAM_BY_NAME
  deriving DecidableEq, Repr

/-- `ControlParameterValueKind`: an enumeration declared in `ControlParameters.h`, carried by
its integer tag. -/
abbrev ControlParameterValueKind := Nat

/-- `UINT64_MAX`. -/
def UINT64_MAX : Nat := 2 ^ 64 - 1

/-- `u64` subtraction `a - b`: unsigned 64-bit arithmetic wraps around. -/
def u64_sub (a b : Nat) : Nat := (a + 2 ^ 64 - b % 2 ^ 64) % 2 ^ 64

/-- `ControlParameterRequest`; the character array `name` is the string it holds. -/
structure ControlParameterRequest (V : Type) where
  name : String
  requestNumber : Nat
  value : V
  parameterKind : ControlParameterValueKind
  requestKind : ControlParameterRequestKind

/-- `ControlParameterResponse`. -/
structure ControlParameterResponse (V : Type) where
  name : String
  requestNumber : Nat
  nParameters : Nat
  value : V
  parameterKind : ControlParameterValueKind
  requestKind : ControlParameterRequestKind

/-- `ControlParameterResponse::isResponseTo(request)`. -/
def ControlParameterResponse.isResponseTo {V : Type} (r : ControlParameterResponse V)
    (request : ControlParameterRequest V) : Bool :=
  r.requestNumber == request.requestNumber &&
    r.requestKind == request.requestKind &&
    r.name == request.name

/-- The member functions of `ControlParameter` that the bridges use: the member `_kind`,
`set(value, kind)` and `get(kind)`. -/
structure ControlParameterOps (P V : Type) where
  _kind : P → ControlParameterValueKind
  set : P → V → ControlParameterValueKind → P
  get : P → ControlParameterValueKind → V

/-- `ControlParameterCollection`: the map `_map` from names to the registered parameters. -/
structure ControlParameterCollection (P : Type) where
  _map : List (String × P)

/-- `ControlParameterCollection::lookup(name)`: the registered parameter of that name, if
there is one. -/
def ControlParameterCollection.lookup {P : Type} (c : ControlParameterCollection P)
    (name : String) : Option P :=
  List.lookup name c._map

/-- The collection after the parameter registered under `name`, to which `lookup` returns a
reference, has become `p`. -/
def ControlParameterCollection.assign {P : Type} (c : ControlParameterCollection P)
    (name : String) (p : P) : ControlParameterCollection P :=
  { _map := c._map.map fun e => if e.1 = name then (e.1, p) else e }

/-- `RobotControlParameters`: the robot's control parameters. -/
structure RobotControlParameters (P : Type) where
  collection : ControlParameterCollection P

/-- How a call ends: it returns, it throws a `std::runtime_error` (the named parameter is
not registered, or its kind is not the kind of the request), or an `assert` fails. -/
inductive Outcome where
  | returned
  | parameter_not_found
  | type_mismatch
  | assertion_failed
  deriving DecidableEq, Repr

/-! ## The shared simulator message (`SimulatorMessage.h`) -/

/-- `RobotType`, with the two robots named in `main.cpp`. -/
inductive RobotType where
  | CHEETAH_3
  | MINI_CHEETAH
  deriving DecidableEq, Repr

/-- `SimulatorMode`: the three modes of the header and `DO_NOTHING`, which
`SimulationBridge.cpp` handles as well. -/
inductive SimulatorMode where
  | RUN_CONTROL_PARAMETERS
  | RUN_CONTROLLER
  | DO_NOTHING
  | EXIT
  deriving DecidableEq, Repr

/-- `SpiCommand`: the member `flags` that the bridge writes. -/
structure SpiCommand where
  flags : Fin 4 → Int

/-- `SimulatorToRobotMessage`: a plain message from the simulator to the robot. The sensor
and joystick members, which none of the functions embedded here reads, are left out. -/
structure SimulatorToRobotMessage (V : Type) where
  robotType : RobotType
  controlParameterRequest : ControlParameterRequest V
  mode : SimulatorMode

/-- `RobotToSimulatorMessage`: a plain message from the robot to the simulator. -/
structure RobotToSimulatorMessage (V : Type) where
  robotType : RobotType
  spiCommand : SpiCommand
  controlParameterResponse : ControlParameterResponse V

/-- `SimulatorMessage`: all the data shared between the robot and the simulator. -/
structure SimulatorMessage (V : Type) where
  robotToSim : RobotToSimulatorMessage V
  simToRobot : SimulatorToRobotMessage V

/-- `SharedMemorySemaphore` (`SharedMemory.h`, not among the sources): a counting semaphore,
given by its count. -/
structure SharedMemorySemaphore where
  count : Nat
  deriving DecidableEq, Repr

/-- `SharedMemorySemaphore::init(value)`. -/
def SharedMemorySemaphore.init (_s : SharedMemorySemaphore) (value : Nat) :
    SharedMemorySemaphore :=
  { count := value }

/-- `SharedMemorySemaphore::increment()`: add one to the count. -/
def SharedMemorySemaphore.increment (s : SharedMemorySemaphore) : SharedMemorySemaphore :=
  { count := s.count + 1 }

/-- `SharedMemorySemaphore::decrement()`: take one from the count; while the count is zero
the caller waits, which is `none`. -/
def SharedMemorySemaphore.decrement (s : SharedMemorySemaphore) : Option SharedMemorySemaphore :=
  if 0 < s.count then some { count := s.count - 1 } else none

/-- `SimulatorSyncronizedMessage`: the message stored in shared memory, with the two
semaphores by which the simulator and the robot take turns. -/
structure SimulatorSyncronizedMessage (V : Type) extends SimulatorMessage V where
  robotToSimSemaphore : SharedMemorySemaphore
  simToRobotSemaphore : SharedMemorySemaphore

/-- `SimulatorSyncronizedMessage::init()`. -/
def SimulatorSyncronizedMessage.init {V : Type} (m : SimulatorSyncronizedMessage V) :
    SimulatorSyncronizedMessage V :=
  { m with
    robotToSimSemaphore := m.robotToSimSemaphore.init 0
    simToRobotSemaphore := m.simToRobotSemaphore.init 0 }

/-- `SimulatorSyncronizedMessage::waitForSimulator()`. -/
def SimulatorSyncronizedMessage.waitForSimulator {V : Type} (m : SimulatorSyncronizedMessage V) :
    Option (SimulatorSyncronizedMessage V) :=
  m.simToRobotSemaphore.decrement.map fun s => { m with simToRobotSemaphore := s }

/-- `SimulatorSyncronizedMessage::simulatorIsDone()`. -/
def SimulatorSyncronizedMessage.simulatorIsDone {V : Type} (m : SimulatorSyncronizedMessage V) :
    SimulatorSyncronizedMessage V :=
  { m with simToRobotSemaphore := m.simToRobotSemaphore.increment }

/-- `SimulatorSyncronizedMessage::waitForRobot()`. -/
def SimulatorSyncronizedMessage.waitForRobot {V : Type} (m : SimulatorSyncronizedMessage V) :
    Option (SimulatorSyncronizedMessage V) :=
  m.robotToSimSemaphore.decrement.map fun s => { m with robotToSimSemaphore := s }

/-- `SimulatorSyncronizedMessage::robotIsDone()`. -/
def SimulatorSyncronizedMessage.robotIsDone {V : Type} (m : SimulatorSyncronizedMessage V) :
    SimulatorSyncronizedMessage V :=
  { m with robotToSimSemaphore := m.robotToSimSemaphore.increment }

/-! ## `SimulationBridge.cpp` -/

/-- The data members of `SimulationBridge` that `run` and `handleControlParameters` use. -/
structure SimulationBridge (P V : Type) where
  _sharedMemory : SimulatorSyncronizedMessage V
  _robotParams : RobotControlParameters P
  _robot : RobotType
  _simMode : SimulatorMode
  _iterations : Nat
  _firstControllerRun : Bool

/-- The request in shared memory: `_sharedMemory().simToRobot.controlParameterRequest`. -/
def SimulationBridge.request {P V : Type} (b : SimulationBridge P V) :
    ControlParameterRequest V :=
  b._sharedMemory.simToRobot.controlParameterRequest

/-- The response in shared memory: `_sharedMemory().robotToSim.controlParameterResponse`. -/
def SimulationBridge.response {P V : Type} (b : SimulationBridge P V) :
    ControlParameterResponse V :=
  b._sharedMemory.robotToSim.controlParameterResponse

/-- The bridge after the response in shared memory has been written. -/
def SimulationBridge.withResponse {P V : Type} (b : SimulationBridge P V)
    (r : ControlParameterResponse V) : SimulationBridge P V :=
  { b with
    _sharedMemory :=
      { b._sharedMemory with
        robotToSim := { b._sharedMemory.robotToSim with controlParameterResponse := r } } }

/-- The bridge after the parameter registered under `name` has become `p`. -/
def SimulationBridge.withParameter {P V : Type} (b : SimulationBridge P V) (name : String)
    (p : P) : SimulationBridge P V :=
  { b with _robotParams := { collection := b._robotParams.collection.assign name p } }

/-- `SimulationBridge::handleControlParameters()`: handle a control parameter message from
the simulator. The result is the bridge as the call leaves it and how the call ends. -/
def SimulationBridge.handleControlParameters {P V : Type} (ops : ControlParameterOps P V)
    (b : SimulationBridge P V) : SimulationBridge P V × Outcome :=
  let request := b.request
  let response := b.response
  if request.requestNumber ≤ response.requestNumber then
    -- nothing to do!
    (b, Outcome.returned)
  else
    -- sanity check
    let nRequests := u64_sub request.requestNumber response.requestNumber
    if nRequests ≠ 1 then (b, Outcome.assertion_failed)
    else
      let response1 := { response with nParameters := b._robotParams.collection._map.length }
      let b1 := b.withResponse response1
      match request.requestKind with
      | ControlParameterRequestKind.SET_PARAM_BY_NAME =>
        match b._robotParams.collection.lookup request.name with
        | none => (b1, Outcome.parameter_not_found)
        | some param =>
          -- type check
          if ops._kind param ≠ request.parameterKind then (b1, Outcome.type_mismatch)
          else
            -- do the actual set
            let b2 := b1.withParameter request.name
              (ops.set param request.value request.parameterKind)
            -- respond
            (b2.withResponse
              { response1 with
                requestNumber := request.requestNumber
                parameterKind := request.parameterKind
                value := request.value
                name := request.name
                requestKind := request.requestKind }, Outcome.returned)
      | ControlParameterRequestKind.GET_PARAM_BY_NAME =>
        match b._robotParams.collection.lookup request.name with
        | none => (b1, Outcome.parameter_not_found)
        | some param =>
          -- type check
          if ops._kind param ≠ request.parameterKind then (b1, Outcome.type_mismatch)
          else
            -- respond
            (b1.withResponse
              { response1 with
                value := ops.get param request.parameterKind
                requestNumber := request.requestNumber
                parameterKind := request.parameterKind
                name := request.name
                requestKind := request.requestKind }, Outcome.returned)

/-- A control parameter that holds its kind and one integer value. -/
def plainParameter : ControlParameterOps (ControlParameterValueKind × Int) Int where
  _kind := fun p => p.1
  set := fun p v _ => (p.1, v)
  get := fun p _ => p.2

/-- A bridge with the parameters `kp` (kind 0, value 10) and `kd` (kind 1, value 3), the
given request in shared memory, and a response that acknowledges request `acknowledged`. -/
def bridgeWith (request : ControlParameterRequest Int) (acknowledged : Nat) :
    SimulationBridge (ControlParameterValueKind × Int) Int where
  _sharedMemory :=
    { robotToSim :=
        { robotType := RobotType.MINI_CHEETAH
          spiCommand := { flags := fun _ => 0 }
          controlParameterResponse :=
            { name := ""
              requestNumber := acknowledged
              nParameters := 0
              value := 0
              parameterKind := 0
              requestKind := ControlParameterRequestKind.GET_PARAM_BY_NAME } }
      simToRobot :=
        { robotType := RobotType.MINI_CHEETAH
          controlParameterRequest := request
          mode := SimulatorMode.RUN_CONTROL_PARAMETERS }
      robotToSimSemaphore := { count := 0 }
      simToRobotSemaphore := { count := 0 } }
  _robotParams := { collection := { _map := [("kp", (0, 10)), ("kd", (1, 3))] } }
  _robot := RobotType.MINI_CHEETAH
  _simMode := SimulatorMode.RUN_CONTROL_PARAMETERS
  _iterations := 0
  _firstControllerRun := true

/-- A request to set the parameter `name`, of kind `kind`, to `value`. -/
def setRequest (name : String) (number : Nat) (kind : ControlParameterValueKind)
    (value : Int) : ControlParameterRequest Int where
  name := name
  requestNumber := number
  value := value
  parameterKind := kind
  requestKind := ControlParameterRequestKind.SET_PARAM_BY_NAME

/-! ## `HardwareBridge.cpp`

The LCM message types `control_parameter_request_lcmt` and `control_parameter_respones_lcmt`
are generated headers that are not among the sources; their members are the ones
`handleControlParameter` reads and writes. The 64-byte array `value` is an object of a type
`W`, and copying the first `sizeof(ControlParameterValue)` bytes out of it is a function
`W → V`. -/

/-- `(s8)` of a `ControlParameterRequestKind`: enumerators count from zero. -/
def ControlParameterRequestKind.toS8 : ControlParameterRequestKind → Int
  | ControlParameterRequestKind.GET_PARAM_BY_NAME => 0
  | ControlParameterRequestKind.SET_PARAM_BY_NAME => 1

/-- `control_parameter_request_lcmt`. -/
structure control_parameter_request_lcmt (W : Type) where
  requestNumber : Int
  requestKind : Int
  parameterKind : Int
  name : String
  value : W

/-- `control_parameter_respones_lcmt`. -/
structure control_parameter_respones_lcmt (W : Type) where
  requestNumber : Int
  requestKind : Int
  parameterKind : Int
  name : String
  value : W

/-- The data members of `HardwareBridge` that `handleControlParameter` uses; `published`
lists the messages passed to `_interfaceLCM.publish` on the channel `interface-response`,
latest first. -/
structure HardwareBridge (P W : Type) where
  _parameter_response_lcmt : control_parameter_respones_lcmt W
  _robotParams : RobotControlParameters P
  published : List (control_parameter_respones_lcmt W)

/-- `_interfaceLCM.publish("interface-response", &_parameter_response_lcmt)`. -/
def HardwareBridge.publish {P W : Type} (h : HardwareBridge P W) : HardwareBridge P W :=
  { h with published := h._parameter_response_lcmt :: h.published }

/-- `HardwareBridge::handleControlParameter(rbuf, chan, msg)`. The test of
`msg->requestNumber <= _parameter_response_lcmt.requestNumber` and the count `nRequests`
guard only `printf` calls (the `return` of the first is commented out), so neither decides
what the function does to the bridge. -/
def HardwareBridge.handleControlParameter {P V W : Type} (ops : ControlParameterOps P V)
    (valueOf : W → V) (h : HardwareBridge P W) (msg : control_parameter_request_lcmt W) :
    HardwareBridge P W × Outcome :=
  if msg.requestKind = ControlParameterRequestKind.SET_PARAM_BY_NAME.toS8 then
    match h._robotParams.collection.lookup msg.name with
    | none => (h, Outcome.parameter_not_found)
    | some param =>
      -- type check
      if (ops._kind param : Int) ≠ msg.parameterKind then (h, Outcome.type_mismatch)
      else
        -- do the actual set
        let v := valueOf msg.value
        let h1 : HardwareBridge P W :=
          { h with
            _robotParams :=
              { collection :=
                  h._robotParams.collection.assign msg.name
                    (ops.set param v msg.parameterKind.toNat) } }
        -- respond
        let h2 : HardwareBridge P W :=
          { h1 with
            _parameter_response_lcmt :=
              { requestNumber := msg.requestNumber
                parameterKind := msg.parameterKind
                value := msg.value
                name := msg.name
                requestKind := msg.requestKind } }
        (h2.publish, Outcome.returned)
  else
    -- GET_PARAM_BY_NAME only prints an error; no other request kind has a case
    (h.publish, Outcome.returned)

/-- A hardware bridge with the parameters `kp` (kind 0, value 10) and `kd` (kind 1, value 3)
whose response acknowledges request `acknowledged`. -/
def hardwareWith (acknowledged : Int) : HardwareBridge (ControlParameterValueKind × Int) Int where
  _parameter_response_lcmt :=
    { requestNumber := acknowledged
      requestKind := 1
      parameterKind := 0
      name := "kp"
      value := 10 }
  _robotParams := { collection := { _map := [("kp", (0, 10)), ("kd", (1, 3))] } }
  published := []

/-- An LCM request to set the parameter `name`, of kind `kind`, to `value`. -/
def setRequestLcm (name : String) (number : Int) (kind : Int) (value : Int) :
    control_parameter_request_lcmt Int where
  requestNumber := number
  requestKind := 1
  parameterKind := kind
  name := name
  value := value

/-! ## `main.cpp` -/

/-- `MasterConfig` (`main.h`, not among the sources): the two members that `main` writes. -/
structure MasterConfig where
  _robot : RobotType
  simulated : Bool
  deriving DecidableEq, Repr

/-- `EXIT_FAILURE`. -/
def EXIT_FAILURE : Int := 1

/-- How `main` ends: it returns a status without having started a driver, it constructs the
`SimulationBridge` for a robot and calls its `run()` (returning 0 when `run` returns), or it
reaches `assert(false)`. -/
inductive MainEnd where
  | returns (status : Int)
  | runsSimulationBridge (robot : RobotType)
  | assertion_failed
  deriving DecidableEq, Repr

/-- What `main` has done when it ends: the global `gMasterConfig`, the number of calls of
`printUsage`, and how it ends. -/
structure MainResult where
  gMasterConfig : MasterConfig
  usagePrinted : Nat
  ending : MainEnd
  deriving DecidableEq, Repr

/-- `argv[i][0]`: the first character of the argument, the terminating NUL for the empty
string. -/
def firstChar (argv : List String) (i : Nat) : Char :=
  (argv.getD i "").data.headD (Char.ofNat 0)

/-- `main(argc, argv)`, with `argc` the length of `argv` and `gMasterConfig` the global as it
is when `main` starts. -/
def main (gMasterConfig : MasterConfig) (argv : List String) : MainResult :=
  if argv.length ≠ 3 then
    { gMasterConfig := gMasterConfig, usagePrinted := 1, ending := MainEnd.returns EXIT_FAILURE }
  else
    let robot : Option RobotType :=
      if firstChar argv 1 = '3' then some RobotType.CHEETAH_3
      else if firstChar argv 1 = 'm' then some RobotType.MINI_CHEETAH
      else none
    match robot with
    | none =>
      { gMasterConfig := gMasterConfig, usagePrinted := 1,
        ending := MainEnd.returns EXIT_FAILURE }
    | some r =>
      let config1 : MasterConfig := { gMasterConfig with _robot := r }
      let simulated : Option Bool :=
        if firstChar argv 2 = 's' then some true
        else if firstChar argv 2 = 'r' then some false
        else none
      match simulated with
      | none =>
        { gMasterConfig := config1, usagePrinted := 1, ending := MainEnd.returns EXIT_FAILURE }
      | some sim =>
        let config2 : MasterConfig := { config1 with simulated := sim }
        -- dispatch the appropriate driver
        if config2.simulated then
          if config2._robot = RobotType.MINI_CHEETAH then
            { gMasterConfig := config2, usagePrinted := 0,
              ending := MainEnd.runsSimulationBridge config2._robot }
          else
            { gMasterConfig := config2, usagePrinted := 0, ending := MainEnd.assertion_failed }
        else
          { gMasterConfig := config2, usagePrinted := 0, ending := MainEnd.assertion_failed }

/-- The arguments are rejected: there are not three of them, or the robot id starts with
neither `3` nor `m`, or the sim-or-robot argument starts with neither `s` nor `r`. -/
def BadArguments (argv : List String) : Prop :=
  argv.length ≠ 3 ∨
    (firstChar argv 1 ≠ '3' ∧ firstChar argv 1 ≠ 'm') ∨
    (firstChar argv 2 ≠ 's' ∧ firstChar argv 2 ≠ 'r')

instance (argv : List String) : Decidable (BadArguments argv) := by
  unfold BadArguments
  infer_instance

/-! ## The turn-taking of the robot and the simulator

The robot is the loop of `SimulationBridge::run`: `waitForSimulator()`, one pass of the
controller, `robotIsDone()`. The simulator follows the sequence documented at
`SimulatorSyncronizedMessage`: it simulates, calls `simulatorIsDone()`, then `waitForRobot()`.
The two run interleaved, one semaphore operation at a time. -/

/-- The two sides that share the message. -/
inductive Side where
  | robot
  | simulator
  deriving DecidableEq, Repr

/-- Where the robot is in its loop: about to call `waitForSimulator()`, or running the
controller (it then reads and writes the message). -/
inductive RobotPhase where
  | atWaitForSimulator
  | runsController
  deriving DecidableEq, Repr

/-- Where the simulator is in its loop: simulating the robot (it then reads and writes the
message), or past `simulatorIsDone()` and about to call `waitForRobot()`. -/
inductive SimulatorPhase where
  | simulates
  | atWaitForRobot
  deriving DecidableEq, Repr

/-- The shared message, where each side is, and the sides in the order they were given
access to the message, latest first. -/
structure Handshake (V : Type) where
  message : SimulatorSyncronizedMessage V
  robot : RobotPhase
  simulator : SimulatorPhase
  accesses : List Side

/-- The start: `init()` has run, the robot is about to wait and the simulator simulates. -/
def Handshake.start {V : Type} (m : SimulatorSyncronizedMessage V) : Handshake V where
  message := m.init
  robot := RobotPhase.atWaitForSimulator
  simulator := SimulatorPhase.simulates
  accesses := [Side.simulator]

/-- The side has access to the message. -/
def Handshake.hasAccess {V : Type} (h : Handshake V) : Side → Bool
  | Side.robot => h.robot = RobotPhase.runsController
  | Side.simulator => h.simulator = SimulatorPhase.simulates

/-- One side performs its next operation; `none` when that operation is a wait on a
semaphore whose count is zero, so that the side stays where it is. -/
def Handshake.step {V : Type} (h : Handshake V) : Side → Option (Handshake V)
  | Side.robot =>
    match h.robot with
    | RobotPhase.atWaitForSimulator =>
      h.message.waitForSimulator.map fun m =>
        { h with message := m, robot := RobotPhase.runsController,
                 accesses := Side.robot :: h.accesses }
    | RobotPhase.runsController =>
      some { h with message := h.message.robotIsDone, robot := RobotPhase.atWaitForSimulator }
  | Side.simulator =>
    match h.simulator with
    | SimulatorPhase.simulates =>
      some { h with message := h.message.simulatorIsDone,
                    simulator := SimulatorPhase.atWaitForRobot }
    | SimulatorPhase.atWaitForRobot =>
      h.message.waitForRobot.map fun m =>
        { h with message := m, simulator := SimulatorPhase.simulates,
                 accesses := Side.simulator :: h.accesses }

/-- The sides perform their operations in the order of the schedule; `none` when the schedule
picks a side that is waiting. -/
def Handshake.run {V : Type} (h : Handshake V) : List Side → Option (Handshake V)
  | [] => some h
  | who :: rest => (h.step who).bind fun h1 => h1.run rest

/-- The four situations of one round of turn-taking, with the counts of the two semaphores
and the side that was given access last. -/
def Handshake.InTurn {V : Type} (h : Handshake V) : Prop :=
  List.Chain' (fun a b => a ≠ b) h.accesses ∧
  ((h.robot = RobotPhase.atWaitForSimulator ∧ h.simulator = SimulatorPhase.simulates ∧
      h.message.robotToSimSemaphore.count = 0 ∧ h.message.simToRobotSemaphore.count = 0 ∧
      h.accesses.head? = some Side.simulator) ∨
    (h.robot = RobotPhase.atWaitForSimulator ∧ h.simulator = SimulatorPhase.atWaitForRobot ∧
      h.message.robotToSimSemaphore.count = 0 ∧ h.message.simToRobotSemaphore.count = 1 ∧
      h.accesses.head? = some Side.simulator) ∨
    (h.robot = RobotPhase.runsController ∧ h.simulator = SimulatorPhase.atWaitForRobot ∧
      h.message.robotToSimSemaphore.count = 0 ∧ h.message.simToRobotSemaphore.count = 0 ∧
      h.accesses.head? = some Side.robot) ∨
    (h.robot = RobotPhase.atWaitForSimulator ∧ h.simulator = SimulatorPhase.atWaitForRobot ∧
      h.message.robotToSimSemaphore.count = 1 ∧ h.message.simToRobotSemaphore.count = 0 ∧
      h.accesses.head? = some Side.robot))

/-- A shared message for the examples: no request, both semaphores with stale counts. -/
def staleMessage : SimulatorSyncronizedMessage Int :=
  { (bridgeWith (setRequest "kp" 0 0 0) 0)._sharedMemory with
    robotToSimSemaphore := { count := 3 }
    simToRobotSemaphore := { count := 7 } }

/-! ## `WBICTrotTest.cpp`

`WBICTrotTest.hpp`, `StateProvider.hpp`, `Quadruped.h` and the filter and controller classes
are not among the sources. The phase constants of `WBICTrotPhase` and the link ids of `linkID`
are parameters; a controller is the address that `new` returned for it; a low-pass filter is
an object of a type `F` with the member functions `input` and `output`. -/

/-- `WBICTrotPhase`: the phase constants. -/
structure WBICTrotPhase where
  lift_up : Int
  full_contact_1 : Int
  frhl_swing_start_trans : Int
  frhl_swing : Int
  frhl_swing_end_trans : Int
  full_contact_2 : Int
  flhr_swing_start_trans : Int
  flhr_swing : Int
  flhr_swing_end_trans : Int
  NUM_TROT_PHASE : Int
  deriving DecidableEq, Repr

/-- The phases numbered in the order in which the constructor fills `_state_list`, the list
that is indexed by the phase. -/
def trotPhases : WBICTrotPhase where
  lift_up := 0
  full_contact_1 := 1
  frhl_swing_start_trans := 2
  frhl_swing := 3
  frhl_swing_end_trans := 4
  full_contact_2 := 5
  flhr_swing_start_trans := 6
  flhr_swing := 7
  flhr_swing_end_trans := 8
  NUM_TROT_PHASE := 9

/-- `linkID`: the link ids of the four feet. -/
structure LinkID where
  FR : Nat
  FL : Nat
  HR : Nat
  HL : Nat
  deriving DecidableEq, Repr

/-- Four distinct link ids for the examples. -/
def footLinks : LinkID where
  FR := 9
  FL := 11
  HR := 13
  HL := 15

/-- `INT_MAX` for the 32-bit `int`. -/
def INT_MAX : Int := 2 ^ 31 - 1

/-- The members of `StateProvider<T>` that `WBICTrotTest` reads and writes; the array
`_contact_pt` is given by its entries. -/
structure StateProvider (α : Type) where
  _contact_pt : Nat → Nat
  _num_contact : Nat
  _local_frame_global_pos : Vec3 α
  _ori_command : Fin 3 → α
  _dir_command : Fin 2 → α
  _curr_time : α

/-- The functions that `_UpdateTestOneStep` calls: `rpyToRotMat` and the member functions
`input` and `output` of `digital_lp_filter<T>`. -/
structure TrotCollaborators (α F : Type) where
  rpyToRotMat : Vec3 α → Mat3 α
  input : F → α → F
  output : F → α

/-- The objects allocated with `new`: the addresses in use and the next address. -/
structure Heap where
  live : List Nat
  next : Nat
  deriving DecidableEq, Repr

/-- `new`: a fresh object; its address and the heap that holds it. -/
def Heap.new (h : Heap) : Nat × Heap :=
  (h.next, { live := h.next :: h.live, next := h.next + 1 })

/-- `delete p`: the object is released; deleting an address that is not in use (a second
`delete` of the same object) is undefined, which is `none`. -/
def Heap.delete (h : Heap) (p : Nat) : Option Heap :=
  if p ∈ h.live then some { h with live := h.live.erase p } else none

/-- The data members of `WBICTrotTest<T>` that the functions embedded here use, those of the
base class `Test<T>` first. The state provider `_sp` points to is held in place. -/
structure WBICTrotTest (α F : Type) where
  _phase : Int
  _state_list : List Nat
  dt : α
  _b_save_file : Bool
  body_up_ctrl_ : Nat
  body_ctrl_ : Nat
  frhl_swing_start_trans_ctrl_ : Nat
  frhl_swing_ctrl_ : Nat
  frhl_swing_end_trans_ctrl_ : Nat
  flhr_swing_start_trans_ctrl_ : Nat
  flhr_swing_ctrl_ : Nat
  flhr_swing_end_trans_ctrl_ : Nat
  _body_pos : Vec3 α
  _body_vel : Vec3 α
  _body_acc : Vec3 α
  _body_ori_rpy : Vec3 α
  _body_ang_vel : Vec3 α
  _input_vel : Vec3 α
  _target_body_height : α
  _filtered_input_vel : List F
  _sp : StateProvider α

/-- `WBICTrotTest<T>::WBICTrotTest(robot, type)`. The values that `_SettingParameter` reads
from the configuration file (`body_height`, `save_file`), the time step `Test<T>::dt`, the
two filters that the constructor creates and the state provider are arguments. -/
def WBICTrotTest.new {α F : Type} [Field α] (c : WBICTrotPhase) (body_height : α)
    (save_file : Bool) (dt : α) (filter0 filter1 : F) (sp : StateProvider α) (heap : Heap) :
    WBICTrotTest α F × Heap :=
  let (body_up_ctrl_, heap) := heap.new
  let (body_ctrl_, heap) := heap.new
  let (frhl_swing_start_trans_ctrl_, heap) := heap.new
  let (frhl_swing_ctrl_, heap) := heap.new
  let (frhl_swing_end_trans_ctrl_, heap) := heap.new
  let (flhr_swing_start_trans_ctrl_, heap) := heap.new
  let (flhr_swing_ctrl_, heap) := heap.new
  let (flhr_swing_end_trans_ctrl_, heap) := heap.new
  ({ _phase := c.lift_up
     _state_list :=
       [body_up_ctrl_, body_ctrl_,
        frhl_swing_start_trans_ctrl_, frhl_swing_ctrl_, frhl_swing_end_trans_ctrl_,
        body_ctrl_,
        flhr_swing_start_trans_ctrl_, flhr_swing_ctrl_, flhr_swing_end_trans_ctrl_]
     dt := dt
     _b_save_file := save_file
     body_up_ctrl_ := body_up_ctrl_
     body_ctrl_ := body_ctrl_
     frhl_swing_start_trans_ctrl_ := frhl_swing_start_trans_ctrl_
     frhl_swing_ctrl_ := frhl_swing_ctrl_
     frhl_swing_end_trans_ctrl_ := frhl_swing_end_trans_ctrl_
     flhr_swing_start_trans_ctrl_ := flhr_swing_start_trans_ctrl_
     flhr_swing_ctrl_ := flhr_swing_ctrl_
     flhr_swing_end_trans_ctrl_ := flhr_swing_end_trans_ctrl_
     _body_pos := Function.update Vec3.Zero 2 body_height
     _body_vel := Vec3.Zero
     _body_acc := Vec3.Zero
     _body_ori_rpy := Vec3.Zero
     _body_ang_vel := Vec3.Zero
     _input_vel := Vec3.Zero
     _target_body_height := body_height
     _filtered_input_vel := [filter0, filter1]
     _sp := sp }, heap)

/-- The loop of the destructor: `delete` every entry of the list, in order. -/
def deleteAll : List Nat → Heap → Option Heap
  | [], heap => some heap
  | p :: rest, heap => (heap.delete p).bind (deleteAll rest)

/-- `WBICTrotTest<T>::~WBICTrotTest()`: deletes `_state_list[i]` for every `i`. -/
def WBICTrotTest.destroy {α F : Type} (t : WBICTrotTest α F) (heap : Heap) : Option Heap :=
  deleteAll t._state_list heap

/-- `WBICTrotTest<T>::_NextPhase(phase)`: the test after the call and the returned phase.
`phase + 1` is `int` addition, whose overflow is undefined (`none`). The local
`landing_loc_ave` is computed from `_robot->_pGC` and never read, so it is left out. -/
def WBICTrotTest._NextPhase {α F : Type} [Field α] (c : WBICTrotPhase) (l : LinkID)
    (t : WBICTrotTest α F) (phase : Int) : Option (WBICTrotTest α F × Int) :=
  if INT_MAX ≤ phase then none
  else
    let next_phase :=
      if phase + 1 = c.NUM_TROT_PHASE then c.full_contact_1 else phase + 1
    -- Check whether Cheetah must stop or step
    let t1 : WBICTrotTest α F :=
      if next_phase = c.flhr_swing_start_trans then
        { t with
          _body_pos := Function.update Vec3.Zero 2 t._target_body_height
          _sp :=
            { t._sp with
              _contact_pt := Function.update (Function.update t._sp._contact_pt 0 l.FR) 1 l.HL
              _num_contact := 2
              _local_frame_global_pos := Vec3.Zero } }
      else t
    let t2 : WBICTrotTest α F :=
      if next_phase = c.frhl_swing_start_trans then
        { t1 with
          _body_pos := Function.update Vec3.Zero 2 t1._target_body_height
          _sp :=
            { t1._sp with
              _contact_pt := Function.update (Function.update t1._sp._contact_pt 0 l.FL) 1 l.HR
              _num_contact := 2
              _local_frame_global_pos := Vec3.Zero } }
      else t1
    some (t2, next_phase)

/-- The phase is advanced `n` times with `_NextPhase`. -/
def WBICTrotTest.advance {α F : Type} [Field α] (c : WBICTrotPhase) (l : LinkID) :
    Nat → WBICTrotTest α F × Int → Option (WBICTrotTest α F × Int)
  | 0, s => some s
  | n + 1, s => (s.1._NextPhase c l s.2).bind (WBICTrotTest.advance c l n)

/-- `WBICTrotTest<T>::_UpdateTestOneStep()`. Reading `_filtered_input_vel[0]` and `[1]` needs
a list of at least two filters (`none` otherwise). -/
def WBICTrotTest._UpdateTestOneStep {α F : Type} [LinearOrderedField α]
    (E : TrotCollaborators α F) (t : WBICTrotTest α F) : Option (WBICTrotTest α F) :=
  let scale : α := 1
  let ang0 := Function.update t._body_ang_vel 2 (t._sp._ori_command 2)
  -- Command Truncation
  let ang := if |ang0 2| < 1 / 10 then Function.update ang0 2 0 else ang0
  let dir0 := t._sp._dir_command
  let dir1 := if |dir0 0| < 1 / 10 then Function.update dir0 0 0 else dir0
  let dir := if |dir1 1| < 1 / 10 then Function.update dir1 1 0 else dir1
  let rpy := Function.update t._body_ori_rpy 2 (t._body_ori_rpy 2 + ang 2 * t.dt)
  match t._filtered_input_vel with
  | f0 :: f1 :: rest =>
    let f0 := E.input f0 (scale * dir 0)
    let f1 := E.input f1 (scale * dir 1)
    let input_vel :=
      Function.update (Function.update t._input_vel 0 (E.output f0)) 1 (E.output f1)
    let Rot := E.rpyToRotMat rpy
    let body_vel := Matrix.mulVec (Matrix.transpose Rot) input_vel
    some
      { t with
        _body_ang_vel := ang
        _sp := { t._sp with _dir_command := dir }
        _body_ori_rpy := rpy
        _filtered_input_vel := f0 :: f1 :: rest
        _input_vel := input_vel
        _body_vel := body_vel
        _body_pos := fun i => t._body_pos i + vscale body_vel t.dt i }
  | _ => none

/-- Collaborators for the examples: the filter passes its input through and every
orientation has the identity as rotation matrix. -/
def passThrough {α : Type} [Field α] : TrotCollaborators α α where
  rpyToRotMat := fun _ => 1
  input := fun _ x => x
  output := fun f => f

/-- A state provider for the examples: no contact, a yaw command of 1/20 and the direction
commands 1/2 and -1/50. -/
def idleProvider : StateProvider ℚ where
  _contact_pt := fun _ => 0
  _num_contact := 0
  _local_frame_global_pos := Vec3.Zero
  _ori_command := ![0, 0, 1 / 20]
  _dir_command := ![1 / 2, -(1 / 50)]
  _curr_time := 0

/-- The test as the constructor leaves it on an empty heap, over the rationals. -/
def trotTest : WBICTrotTest ℚ ℚ :=
  (WBICTrotTest.new trotPhases (3 / 10) false (1 / 500) 0 0 idleProvider
    { live := [], next := 0 }).1

/-- The heap as the constructor of `trotTest` leaves it. -/
def trotHeap : Heap :=
  (WBICTrotTest.new trotPhases (3 / 10 : ℚ) false (1 / 500) (0 : ℚ) 0 idleProvider
    { live := [], next := 0 }).2

/-! ## `WBLC_TwoContactTransCtrl.cpp`

The contact classes (`ContactSpec`, `SingleContact`) and `WBLC_ExtraData` are not among the
sources: a contact is an object of a type `C` with the member functions `setMaxFz` and
`UpdateContactSpec`, and the extra data is given by the weight vectors the controller writes. -/

/-- `Weight::tan_big` (`Controller.hpp`). -/
def Weight.tan_big {α : Type} [Field α] : α := 5

/-- `Weight::tan_small`. -/
def Weight.tan_small {α : Type} [Field α] : α := 1

/-- `Weight::nor_big`. -/
def Weight.nor_big {α : Type} [Field α] : α := 5 / 10

/-- `Weight::nor_small`. -/
def Weight.nor_small {α : Type} [Field α] : α := 1 / 100

/-- `Weight::foot_big`. -/
def Weight.foot_big {α : Type} [Field α] : α := 100

/-- `Weight::foot_small`. -/
def Weight.foot_small {α : Type} [Field α] : α := 1 / 100

/-- `Weight::qddot_relax`. -/
def Weight.qddot_relax {α : Type} [Field α] : α := 30

/-- `Weight::qddot_relax_virtual`. -/
def Weight.qddot_relax_virtual {α : Type} [Field α] : α := 1 / 1000

/-- The member functions of a contact that `_contact_setup` calls: `setMaxFz(upper_lim)` of
`SingleContact<T>` and `UpdateContactSpec()` of `ContactSpec<T>`. -/
structure ContactOps (α C : Type) where
  setMaxFz : C → α → C
  UpdateContactSpec : C → C

/-- `WBLC_ExtraData<T>`: the weight and limit vectors that the controller sets. -/
structure WBLC_ExtraData (α : Type) where
  W_qddot_ : DVec α
  W_rf_ : DVec α
  W_xddot_ : DVec α
  tau_min_ : DVec α
  tau_max_ : DVec α

/-- `v[i] = x` for a dynamic vector: Eigen asserts that the index is within the vector, and
the assertion failing is `none`. -/
def DVec.setAt {α : Type} (v : DVec α) (i : Nat) (x : α) : Option (DVec α) :=
  if i < v.length then some (v.set i x) else none

/-- The data members of `WBLC_TwoContactTransCtrl<T>` that `_contact_setup` uses, those of the
base class `Controller<T>` first; the extra data `wblc_data_` points to is held in place. -/
structure WBLC_TwoContactTransCtrl (α C : Type) where
  _contact_list : List C
  _state_machine_time : α
  _cp1 : Nat
  _cp2 : Nat
  _transit_dir : Int
  end_time_ : α
  max_rf_z_ : α
  min_rf_z_ : α
  wblc_data_ : WBLC_ExtraData α

/-- The blend factor `alpha` of `_contact_setup`:
`0.5 * (1-cos(M_PI * Ctrl::_state_machine_time/end_time_))`. -/
def WBLC_TwoContactTransCtrl.alpha {α C : Type} [Field α] (M : CMath α) (M_PI : α)
    (ctrl : WBLC_TwoContactTransCtrl α C) : α :=
  5 / 10 * (1 - M.cos (M_PI * ctrl._state_machine_time / ctrl.end_time_))

/-- The locals `(upper_lim, rf_weight, rf_weight_z, foot_weight)` of `_contact_setup` after
the branch on `_transit_dir`, for the blend factor `alpha`. -/
def WBLC_TwoContactTransCtrl.limits {α C : Type} [Field α]
    (ctrl : WBLC_TwoContactTransCtrl α C) (alpha : α) : α × α × α × α :=
  if ctrl._transit_dir > 0 then
    -- Decrease reaction force & Increase full acceleration
    (ctrl.max_rf_z_ + alpha * (ctrl.min_rf_z_ - ctrl.max_rf_z_),
     (1 - alpha) * Weight.tan_small + alpha * Weight.tan_big,
     (1 - alpha) * Weight.nor_small + alpha * Weight.nor_big,
     (1 - alpha) * Weight.foot_big + alpha * Weight.foot_small)
  else
    (ctrl.min_rf_z_ + alpha * (ctrl.max_rf_z_ - ctrl.min_rf_z_),
     (1 - alpha) * Weight.tan_big + alpha * Weight.tan_small,
     (1 - alpha) * Weight.nor_big + alpha * Weight.nor_small,
     (1 - alpha) * Weight.foot_small + alpha * Weight.foot_big)

/-- `WBLC_TwoContactTransCtrl<T>::_SetContact(cp_idx, upper_lim, rf_weight, rf_weight_z,
foot_weight)`; `none` when `cp_idx` is not an index of `_contact_list` or a weight vector is
too short. -/
def WBLC_TwoContactTransCtrl._SetContact {α C : Type} (ops : ContactOps α C)
    (ctrl : WBLC_TwoContactTransCtrl α C) (cp_idx : Nat)
    (upper_lim rf_weight rf_weight_z foot_weight : α) :
    Option (WBLC_TwoContactTransCtrl α C) :=
  match ctrl._contact_list[cp_idx]? with
  | none => none
  | some contact =>
    let contacts := ctrl._contact_list.set cp_idx (ops.setMaxFz contact upper_lim)
    (ctrl.wblc_data_.W_rf_.setAt (0 + 3 * cp_idx) rf_weight).bind fun W_rf =>
    (ctrl.wblc_data_.W_xddot_.setAt (0 + 3 * cp_idx) foot_weight).bind fun W_xddot =>
    (W_rf.setAt (1 + 3 * cp_idx) rf_weight).bind fun W_rf =>
    (W_xddot.setAt (1 + 3 * cp_idx) foot_weight).bind fun W_xddot =>
    (W_rf.setAt (2 + 3 * cp_idx) rf_weight).bind fun W_rf =>
    (W_xddot.setAt (2 + 3 * cp_idx) foot_weight).bind fun W_xddot =>
    (W_rf.setAt (2 + 3 * cp_idx) rf_weight_z).bind fun W_rf =>
    some
      { ctrl with
        _contact_list := contacts
        wblc_data_ := { ctrl.wblc_data_ with W_rf_ := W_rf, W_xddot_ := W_xddot } }

/-- `WBLC_TwoContactTransCtrl<T>::_contact_setup()`. -/
def WBLC_TwoContactTransCtrl._contact_setup {α C : Type} [Field α] (M : CMath α) (M_PI : α)
    (ops : ContactOps α C) (l : LinkID) (ctrl : WBLC_TwoContactTransCtrl α C) :
    Option (WBLC_TwoContactTransCtrl α C) :=
  let alpha := ctrl.alpha M M_PI
  let (upper_lim, rf_weight, rf_weight_z, foot_weight) := ctrl.limits alpha
  let cp1 := ctrl._cp1
  let cp2 := ctrl._cp2
  (if cp1 = l.FR ∨ cp2 = l.FR then
      ctrl._SetContact ops 0 upper_lim rf_weight rf_weight_z foot_weight
    else some ctrl).bind fun ctrl =>
  (if cp1 = l.FL ∨ cp2 = l.FL then
      ctrl._SetContact ops 1 upper_lim rf_weight rf_weight_z foot_weight
    else some ctrl).bind fun ctrl =>
  (if cp1 = l.HR ∨ cp2 = l.HR then
      ctrl._SetContact ops 2 upper_lim rf_weight rf_weight_z foot_weight
    else some ctrl).bind fun ctrl =>
  (if cp1 = l.HL ∨ cp2 = l.HL then
      ctrl._SetContact ops 3 upper_lim rf_weight rf_weight_z foot_weight
    else some ctrl).bind fun ctrl =>
  some { ctrl with _contact_list := ctrl._contact_list.map ops.UpdateContactSpec }

/-- The feet in the order of the contact list that the constructor builds: FR, FL, HR, HL. -/
def LinkID.feet (l : LinkID) : List Nat := [l.FR, l.FL, l.HR, l.HL]

/-- A contact for the examples: its force limit and the number of updates. -/
def plainContact {α : Type} : ContactOps α (α × Nat) where
  setMaxFz := fun c x => (x, c.2)
  UpdateContactSpec := fun c => (c.1, c.2 + 1)

/-- A transition controller for the legs FR and HL as its constructor leaves it (four
contacts, weight vectors of size 12), with the force limits 5 and 200, at the start of a
transition of length 1. -/
def transitionCtrl {α : Type} [Field α] (transit_dir : Int) :
    WBLC_TwoContactTransCtrl α (α × Nat) where
  _contact_list := List.replicate 4 (0, 0)
  _state_machine_time := 0
  _cp1 := footLinks.FR
  _cp2 := footLinks.HL
  _transit_dir := transit_dir
  end_time_ := 1
  max_rf_z_ := 200
  min_rf_z_ := 5
  wblc_data_ :=
    { W_qddot_ := List.replicate 18 Weight.qddot_relax
      W_rf_ := List.replicate 12 Weight.tan_small
      W_xddot_ := List.replicate 12 Weight.foot_big
      tau_min_ := List.replicate 12 (-150)
      tau_max_ := List.replicate 12 150 }

/-! ## `SimulationBridge::run` and `SimulationBridge::runRobotControl`

`RobotController` and `SharedMemoryObject` are not among the sources. A controller is given
by the robot type it is told and a state of a type `S`; what `new RobotController`,
`initialize()` (here `initializeController`) and `step()` do, and
`RobotControlParameters::isFullyInitialized()`, are parameters. The pointers into shared
memory that the bridge hands to the controller are the message and the parameters passed to
`initialize` and `step`; `step` leaves its command in `spiCommand`. -/

/-- `RobotController`: the robot type set by the bridge and the controller's own state. -/
structure RobotController (S : Type) where
  robotType : RobotType
  state : S

/-- The functions that `runRobotControl` calls. -/
structure BridgeCollaborators (P V S : Type) where
  isFullyInitialized : RobotControlParameters P → Bool
  newController : S
  initializeController : RobotController S → SimulatorMessage V →
    RobotControlParameters P →
    RobotController S
  step : RobotController S → SimulatorMessage V → RobotControlParameters P →
    RobotController S × SpiCommand

/-- The calls that `run` and `runRobotControl` make, in a form that can be listed; `step`
carries the four `spiCommand` flags as they are when the controller is stepped. -/
inductive BridgeCall where
  | attach
  | init
  | waitForSimulator
  | handleControlParameters
  | runRobotControl
  | newRobotController
  | initializeController
  | step (flags : List Int)
  | robotIsDone
  deriving DecidableEq, Repr

/-- What `run` or `runRobotControl` throws: the `std::runtime_error`s `robot mismatch!` and
`not all parameters initialized when going into RUN_CONTROLLER`, what
`handleControlParameters` ends with when it does not return, and the use of a
`_robotController` that was never created. -/
inductive Thrown where
  | robot_mismatch
  | not_initialized
  | control_parameters (o : Outcome)
  | null_controller
  deriving DecidableEq, Repr

/-- How `run` ends: it returns, it throws, or it waits in `waitForSimulator()` for a signal
that does not come. -/
inductive RunEnd where
  | returned
  | threw (t : Thrown)
  | waits
  deriving DecidableEq, Repr

/-- A `SimulationBridge` with its member `_robotController` (`none` is the null pointer) and
the calls made so far, in order. -/
structure RunningBridge (P V S : Type) where
  bridge : SimulationBridge P V
  _robotController : Option (RobotController S)
  calls : List BridgeCall

/-- The call is added to the list of calls. -/
def RunningBridge.call {P V S : Type} (r : RunningBridge P V S) (c : BridgeCall) :
    RunningBridge P V S :=
  { r with calls := r.calls ++ [c] }

/-- `SimulationBridge::runRobotControl()`: the bridge after the call and what the call
throws, if it throws. -/
def SimulationBridge.runRobotControl {P V S : Type} (E : BridgeCollaborators P V S)
    (r : RunningBridge P V S) : RunningBridge P V S × Option Thrown :=
  let first : RunningBridge P V S × Option Thrown :=
    if r.bridge._firstControllerRun then
      if E.isFullyInitialized r.bridge._robotParams then
        let b1 := { r.bridge with _simMode := SimulatorMode.RUN_CONTROLLER }
        let controller : RobotController S :=
          { robotType := b1._robot, state := E.newController }
        let r1 := { r with bridge := b1 }.call BridgeCall.newRobotController
        let controller :=
          E.initializeController controller b1._sharedMemory.toSimulatorMessage
            b1._robotParams
        ({ r1 with
            bridge := { b1 with _firstControllerRun := false }
            _robotController := some controller }.call
          BridgeCall.initializeController, none)
      else (r, some Thrown.not_initialized)
    else (r, none)
  match first with
  | (r2, some t) => (r2, some t)
  | (r2, none) =>
    match r2._robotController with
    | none => (r2, some Thrown.null_controller)
    | some controller =>
      let memory := r2.bridge._sharedMemory
      let memory : SimulatorSyncronizedMessage V :=
        { memory with
          robotToSim :=
            { memory.robotToSim with spiCommand := { flags := fun _ => 1 } } }
      let stepped := E.step controller memory.toSimulatorMessage r2.bridge._robotParams
      let r3 := r2.call (BridgeCall.step (List.ofFn memory.robotToSim.spiCommand.flags))
      ({ r3 with
          bridge :=
            { r2.bridge with
              _sharedMemory :=
                { memory with
                  robotToSim := { memory.robotToSim with spiCommand := stepped.2 } } }
          _robotController := some stepped.1 }, none)

/-- One pass through the body of the loop of `run`, for a bridge whose shared memory is as the
simulator has left it: the bridge afterwards and, when the loop is left, how. The four modes
of `SimulatorMode` are the cases of the `switch`. -/
def SimulationBridge.iteration {P V S : Type} (E : BridgeCollaborators P V S)
    (ops : ControlParameterOps P V) (firstRun : Bool) (r : RunningBridge P V S) :
    RunningBridge P V S × Option RunEnd :=
  -- wait for our turn to access the shared memory
  match r.bridge._sharedMemory.waitForSimulator with
  | none => (r, some RunEnd.waits)
  | some memory =>
    let r1 := { r with bridge := { r.bridge with _sharedMemory := memory } }.call
      BridgeCall.waitForSimulator
    -- check that the robot type is correct
    if firstRun = true ∧ r1.bridge._robot ≠ memory.simToRobot.robotType then
      (r1, some (RunEnd.threw Thrown.robot_mismatch))
    else
      -- the simulator tells us which mode to run in
      let r2 := { r1 with bridge := { r1.bridge with _simMode := memory.simToRobot.mode } }
      let handled : RunningBridge P V S × Option RunEnd :=
        match r2.bridge._simMode with
        | SimulatorMode.RUN_CONTROL_PARAMETERS =>
          let r3 := r2.call BridgeCall.handleControlParameters
          match SimulationBridge.handleControlParameters ops r3.bridge with
          | (b, Outcome.returned) => ({ r3 with bridge := b }, none)
          | (b, o) =>
            ({ r3 with bridge := b }, some (RunEnd.threw (Thrown.control_parameters o)))
        | SimulatorMode.RUN_CONTROLLER =>
          let r3 :=
            { r2 with bridge := { r2.bridge with _iterations := r2.bridge._iterations + 1 } }.call
              BridgeCall.runRobotControl
          match SimulationBridge.runRobotControl E r3 with
          | (r4, none) => (r4, none)
          | (r4, some t) => (r4, some (RunEnd.threw t))
        | SimulatorMode.DO_NOTHING => (r2, none)
        | SimulatorMode.EXIT => (r2, some RunEnd.returned)
      match handled with
      | (r5, some e) => (r5, some e)
      | (r5, none) =>
        -- tell the simulator we are done
        ({ r5 with
            bridge := { r5.bridge with _sharedMemory := r5.bridge._sharedMemory.robotIsDone } }.call
          BridgeCall.robotIsDone, none)

/-- The simulator's turn while the robot waits: it has waited for the robot when the robot has
signalled, writes its message and calls `simulatorIsDone()`. -/
def simulatorTurn {V : Type} (message : SimulatorToRobotMessage V)
    (memory : SimulatorSyncronizedMessage V) : SimulatorSyncronizedMessage V :=
  let memory := memory.waitForRobot.getD memory
  { memory with simToRobot := message }.simulatorIsDone

/-- The bridge after the simulator has taken a turn on the shared memory. -/
def RunningBridge.afterSimulator {P V S : Type} (r : RunningBridge P V S)
    (message : SimulatorToRobotMessage V) : RunningBridge P V S :=
  { r with
    bridge :=
      { r.bridge with _sharedMemory := simulatorTurn message r.bridge._sharedMemory } }

/-- The loop of `run`, against a simulator that takes its turns with the given messages and
then stays silent. -/
def SimulationBridge.loop {P V S : Type} (E : BridgeCollaborators P V S)
    (ops : ControlParameterOps P V) :
    List (SimulatorToRobotMessage V) → Bool → RunningBridge P V S →
      RunningBridge P V S × RunEnd
  | [], _, r => (r, RunEnd.waits)
  | message :: rest, firstRun, r =>
    match SimulationBridge.iteration E ops firstRun (r.afterSimulator message) with
    | (r2, some e) => (r2, e)
    | (r2, none) => SimulationBridge.loop E ops rest false r2

/-- `SimulationBridge::run()`. -/
def SimulationBridge.run {P V S : Type} (E : BridgeCollaborators P V S)
    (ops : ControlParameterOps P V) (messages : List (SimulatorToRobotMessage V))
    (r : RunningBridge P V S) : RunningBridge P V S × RunEnd :=
  -- init shared memory
  let r1 := r.call BridgeCall.attach
  let r2 :=
    { r1 with bridge := { r1.bridge with _sharedMemory := r1.bridge._sharedMemory.init } }.call
      BridgeCall.init
  SimulationBridge.loop E ops messages true r2

/-- Collaborators for the examples: the parameters count as initialised when `kp` is
registered, the controller counts its steps and leaves the flags as they are. -/
def countingController :
    BridgeCollaborators (ControlParameterValueKind × Int) Int Nat where
  isFullyInitialized := fun params => (params.collection.lookup "kp").isSome
  newController := 0
  initializeController := fun c _ _ => c
  step := fun c m _ => ({ c with state := c.state + 1 }, m.robotToSim.spiCommand)

/-- A message of the simulator with the given robot type and mode and the request to set `kp`
that carries the given number. -/
def simulatorSays (robot : RobotType) (mode : SimulatorMode) (number : Nat) :
    SimulatorToRobotMessage Int where
  robotType := robot
  controlParameterRequest := setRequest "kp" number 0 42
  mode := mode

/-- A bridge for the Mini Cheetah before `run`: no controller yet, no call made. -/
def freshBridge : RunningBridge (ControlParameterValueKind × Int) Int Nat where
  bridge := bridgeWith (setRequest "kp" 0 0 0) 0
  _robotController := none
  calls := []

/-! ## Theorems -/

/-- `integrate` issues no call of its own: the record of calls is unchanged. -/
theorem integrate_calls {α μ : Type} [Field α] [DecidableEq α] (E : Collaborators α μ)
    (sim sim1 : DynamicsSimulator α μ) (dt : α)
    (h : DynamicsSimulator.integrate E sim dt = some sim1) : sim1.calls = sim.calls := by
  unfold DynamicsSimulator.integrate at h
  split at h
  · simp only [Option.bind_eq_some, Option.map_eq_some'] at h
    obtain ⟨qd, -, q, -, rfl⟩ := h
    rfl
  · simp only [Option.bind_eq_some, Option.map_eq_some'] at h
    obtain ⟨qd, -, q, -, rfl⟩ := h
    rfl

/-- `a += b` succeeds exactly when the sizes agree, and then adds entry by entry. -/
theorem DVec.addAssign_eq_some_iff {α : Type} [Add α] (a b c : DVec α) :
    DVec.addAssign a b = some c ↔
      a.length = b.length ∧ c = List.zipWith (fun x y => x + y) a b := by
  unfold DVec.addAssign
  split <;> simp_all [eq_comm]

/-- The sum keeps the common size. -/
theorem DVec.addAssign_length {α : Type} [Add α] (a b c : DVec α)
    (h : DVec.addAssign a b = some c) : c.length = a.length := by
  obtain ⟨hl, rfl⟩ := (DVec.addAssign_eq_some_iff a b c).1 h
  simp [hl]

/-- Scaling keeps the size. -/
theorem DVec.scale_length {α : Type} [Mul α] (v : DVec α) (dt : α) :
    (DVec.scale v dt).length = v.length := by
  simp [DVec.scale]

/-- `a += b` succeeds when the sizes agree. -/
theorem DVec.addAssign_of_length {α : Type} [Add α] (a b : DVec α) (h : a.length = b.length) :
    DVec.addAssign a b = some (List.zipWith (fun x y => x + y) a b) := by
  simp [DVec.addAssign, h]

/-- The compliant branch of `integrate`, when it returns. -/
theorem integrate_springDamper_some {α μ : Type} [Field α] [DecidableEq α]
    (E : Collaborators α μ) (sim sim1 : DynamicsSimulator α μ) (dt : α)
    (hf : sim._useSpringDamper = true)
    (h : DynamicsSimulator.integrate E sim dt = some sim1) :
    ∃ qd1 q1, DVec.addAssign sim._state.qd (DVec.scale sim._dstate.qdd dt) = some qd1 ∧
      DVec.addAssign sim._state.q (DVec.scale qd1 dt) = some q1 ∧
      sim1 = { sim with
        _state :=
          { qd := qd1
            q := q1
            bodyVelocity := sim._state.bodyVelocity + vscale sim._dstate.dBodyVelocity dt
            bodyPosition := sim._state.bodyPosition + vscale sim._dstate.dBodyPosition dt
            bodyOrientation := integrateQuat E.cmath sim._state.bodyOrientation
              (Matrix.mulVec
                (E.rotationFromSXform (E.createSXform
                  (E.quaternionToRotationMatrix sim._state.bodyOrientation)
                  sim._state.bodyPosition)).transpose
                (block3_0 sim._state.bodyVelocity)) dt } } := by
  unfold DynamicsSimulator.integrate at h
  rw [if_pos hf] at h
  simp only [Option.bind_eq_some, Option.map_eq_some'] at h
  obtain ⟨qd1, h1, q1, h2, rfl⟩ := h
  exact ⟨qd1, q1, h1, h2, rfl⟩

/-- The impulse branch of `integrate`, when it returns. -/
theorem integrate_impulse_some {α μ : Type} [Field α] [DecidableEq α]
    (E : Collaborators α μ) (sim sim1 : DynamicsSimulator α μ) (dt : α)
    (hf : sim._useSpringDamper = false)
    (h : DynamicsSimulator.integrate E sim dt = some sim1) :
    ∃ qd1 q1, DVec.addAssign sim._state.qd (DVec.scale sim._dstate.qdd dt) = some qd1 ∧
      DVec.addAssign (sim.afterImpulse E dt qd1).q
        (DVec.scale (sim.afterImpulse E dt qd1).qd dt) = some q1 ∧
      sim1._useSpringDamper = sim._useSpringDamper ∧
      sim1._contact_constr.kind = sim._contact_constr.kind ∧
      sim1._dstate =
        { sim._dstate with
          dBodyPosition := Matrix.mulVec
            (E.quaternionToRotationMatrix (sim.afterImpulse E dt qd1).bodyOrientation).transpose
            (block3_3 (sim.afterImpulse E dt qd1).bodyVelocity) } ∧
      sim1._state =
        { sim.afterImpulse E dt qd1 with
          q := q1
          bodyPosition := (sim.afterImpulse E dt qd1).bodyPosition +
            vscale (Matrix.mulVec
              (E.quaternionToRotationMatrix
                (sim.afterImpulse E dt qd1).bodyOrientation).transpose
              (block3_3 (sim.afterImpulse E dt qd1).bodyVelocity)) dt
          bodyOrientation := integrateQuat E.cmath (sim.afterImpulse E dt qd1).bodyOrientation
            (Matrix.mulVec
              (E.quaternionToRotationMatrix
                (sim.afterImpulse E dt qd1).bodyOrientation).transpose
              (block3_0 (sim.afterImpulse E dt qd1).bodyVelocity)) dt } := by
  unfold DynamicsSimulator.integrate at h
  rw [if_neg (by simp [hf])] at h
  simp only [Option.bind_eq_some, Option.map_eq_some'] at h
  obtain ⟨qd1, h1, q1, h2, rfl⟩ := h
  exact ⟨qd1, q1, h1, h2, rfl, rfl, rfl, rfl⟩

/-- `integrate` returns when the joint vectors have one common size and the resolver's
velocity update keeps the sizes. -/
theorem integrate_isSome {α μ : Type} [Field α] [DecidableEq α]
    (E : Collaborators α μ) (sim : DynamicsSimulator α μ) (dt : α)
    (hs : JointSizesAgree sim) (hU : MutatesVelocityOnly E) :
    ∃ sim1, DynamicsSimulator.integrate E sim dt = some sim1 := by
  obtain ⟨h1, h2⟩ := hs
  have e1 := DVec.addAssign_of_length sim._state.qd (DVec.scale sim._dstate.qdd dt)
    (by rw [DVec.scale_length]; exact h1)
  unfold DynamicsSimulator.integrate
  split
  · rw [e1]
    simp only [Option.some_bind]
    rw [DVec.addAssign_of_length _ _ (by simp [DVec.scale_length, h2, h1])]
    exact ⟨_, rfl⟩
  · rw [e1]
    simp only [Option.some_bind]
    obtain ⟨-, -, hq, hqd⟩ := hU sim._contact_constr.kind (sim._contact_constr.data, sim._model)
      { sim._state with
        qd := List.zipWith (fun x y => x + y) sim._state.qd (DVec.scale sim._dstate.qdd dt)
        bodyVelocity := sim._state.bodyVelocity + vscale sim._dstate.dBodyVelocity dt }
    rw [DVec.addAssign_of_length _ _ (by
      rw [DVec.scale_length, hq, hqd]
      simp [DVec.scale_length, h2, h1])]
    exact ⟨_, rfl⟩

/-- `step` is `integrate` between the three calls before it and the three after it. -/
theorem step_eq {α μ : Type} [Field α] [DecidableEq α] (E : Collaborators α μ)
    (sim : DynamicsSimulator α μ) (dt : α) (tau : DVec α) (kp kd : α) :
    DynamicsSimulator.step E sim dt tau kp kd =
      (DynamicsSimulator.integrate E (sim.beforeIntegrate E dt tau kp kd) dt).map
        (DynamicsSimulator.afterIntegrate E) := rfl

/-- The calls recorded by a step that returns. -/
theorem step_calls_of_some {α μ : Type} [Field α] [DecidableEq α] (E : Collaborators α μ)
    (sim sim1 : DynamicsSimulator α μ) (dt : α) (tau : DVec α) (kp kd : α)
    (h : DynamicsSimulator.step E sim dt tau kp kd = some sim1) :
    sim1.calls = sim.calls ++ stepCalls dt tau kp kd := by
  rw [step_eq, Option.map_eq_some'] at h
  obtain ⟨sim4, h4, rfl⟩ := h
  have hc := integrate_calls E _ _ dt h4
  simp [DynamicsSimulator.afterIntegrate, hc, DynamicsSimulator.beforeIntegrate,
    DynamicsSimulator.runABA, DynamicsSimulator.updateCollisions,
    DynamicsSimulator.forwardKinematics, stepCalls]

/-- The free-flight resolver does not touch the state at all. -/
theorem freeFlight_mutatesVelocityOnly {α : Type} [Field α] (M : CMath α) :
    MutatesVelocityOnly (freeFlight M) := by
  intro k x s
  exact ⟨rfl, rfl, rfl, rfl⟩

/-- In free flight the dynamics solve returns the torque as joint acceleration, so the sizes
agree inside `step` when `q`, `qd` and `tau` have one common size. -/
theorem freeFlight_sizes {α : Type} [Field α] (M : CMath α) (nDof : Nat) (b : Bool)
    (s : FBModelState α) (d : FBModelStateDerivative α) (dt : α) (tau : DVec α) (kp kd : α)
    (h1 : s.qd.length = tau.length) (h2 : s.q.length = s.qd.length) :
    JointSizesAgree ((simWith M nDof b s d).beforeIntegrate (freeFlight M) dt tau kp kd) :=
  ⟨h1, h2⟩

/-- C1 (amended): for every timestep, torque vector and gains, a step that returns has
issued, in this order and nothing else: the simulator's forward kinematics, the model's
forward kinematics (a second pass, made by `updateCollisions`), the resolver's
`UpdateExternalForces(kp, kd, dt)`, `runABA(tau)`, `integrate(dt)`, `setState`,
`resetExternalForces` and `resetCalculationFlags`. The data follow that order: the resolver is
handed `kp`, `kd`, `dt` in these roles together with the model left by the model's pass
applied to the result of the simulator's pass; `runABA` is handed `tau`, the model left by the
resolver and the simulator's untouched state; `integrate(dt)` runs on what `runABA` left; the
state it produces is the simulator's new state and is committed with `setState` to the model
it left, on which the external forces are reset first and the calculation flags last. The
step returns whenever the joint vectors met by `integrate` have one common size. -/
theorem step_call_sequence {α μ : Type} [Field α] [DecidableEq α] (E : Collaborators α μ)
    (sim : DynamicsSimulator α μ) (dt : α) (tau : DVec α) (kp kd : α) :
    (∀ sim1, DynamicsSimulator.step E sim dt tau kp kd = some sim1 →
      sim1.calls = sim.calls ++ stepCalls dt tau kp kd ∧
      ∃ sim3 sim4,
        sim3._contact_constr.kind = sim._contact_constr.kind ∧
        sim3._contact_constr.data =
          (E.UpdateExternalForces sim._contact_constr.kind kp kd dt
            (sim._contact_constr.data,
              E.model_forwardKinematics (E.forwardKinematics sim._model))).1 ∧
        sim3._model =
          (E.runABA tau
            (E.UpdateExternalForces sim._contact_constr.kind kp kd dt
              (sim._contact_constr.data,
                E.model_forwardKinematics (E.forwardKinematics sim._model))).2
            sim._state sim._dstate).1 ∧
        sim3._dstate =
          (E.runABA tau
            (E.UpdateExternalForces sim._contact_constr.kind kp kd dt
              (sim._contact_constr.data,
                E.model_forwardKinematics (E.forwardKinematics sim._model))).2
            sim._state sim._dstate).2 ∧
        sim3._state = sim._state ∧
        sim3._useSpringDamper = sim._useSpringDamper ∧
        DynamicsSimulator.integrate E sim3 dt = some sim4 ∧
        sim1._state = sim4._state ∧
        sim1._dstate = sim4._dstate ∧
        sim1._contact_constr = sim4._contact_constr ∧
        sim1._useSpringDamper = sim4._useSpringDamper ∧
        sim1._model =
          E.resetCalculationFlags
            (E.resetExternalForces
              { sim4._model with
                _state := sim4._state
                _kinematicsUpToDate := false
                _biasAccelerationsUpToDate := false
                _compositeInertiasUpToDate := false })) ∧
    (sim._state.qd.length =
        (E.runABA tau
          (E.UpdateExternalForces sim._contact_constr.kind kp kd dt
            (sim._contact_constr.data,
              E.model_forwardKinematics (E.forwardKinematics sim._model))).2
          sim._state sim._dstate).2.qdd.length →
      sim._state.q.length = sim._state.qd.length → MutatesVelocityOnly E →
      ∃ sim1, DynamicsSimulator.step E sim dt tau kp kd = some sim1) := by
  refine ⟨fun sim1 h => ⟨step_calls_of_some E sim sim1 dt tau kp kd h, ?_⟩,
    fun h1 h2 hU => ?_⟩
  · rw [step_eq, Option.map_eq_some'] at h
    obtain ⟨sim4, h4, rfl⟩ := h
    exact ⟨sim.beforeIntegrate E dt tau kp kd, sim4, rfl, rfl, rfl, rfl, rfl, rfl, h4, rfl, rfl,
      rfl, rfl, rfl⟩
  · obtain ⟨sim4, h4⟩ := integrate_isSome E (sim.beforeIntegrate E dt tau kp kd) dt ⟨h1, h2⟩ hU
    exact ⟨sim4.afterIntegrate E, by rw [step_eq, h4]; rfl⟩

/-- C1, witness: a free-flying base-only simulator at rest takes a step of one millisecond,
records the eight calls, and ends with a model that holds the new state and whose kinematics
flag, set by the two forward-kinematics passes, has been reset. -/
theorem step_call_sequence_witness :
    ∃ sim1,
      DynamicsSimulator.step (freeFlight (CMath.mk Real.sqrt Real.sin Real.cos))
        (simWith (CMath.mk Real.sqrt Real.sin Real.cos) 6 true (restState [] [])
          (restDerivative [])) (1 / 1000) [] 0 0 = some sim1 ∧
      sim1.calls = stepCalls (1 / 1000) [] 0 0 ∧
      sim1._model._state = sim1._state ∧
      sim1._model._kinematicsUpToDate = false := by
  obtain ⟨sim1, h⟩ := (step_call_sequence (freeFlight (CMath.mk Real.sqrt Real.sin Real.cos))
    (simWith (CMath.mk Real.sqrt Real.sin Real.cos) 6 true (restState [] [])
      (restDerivative [])) (1 / 1000) [] 0 0).2 rfl rfl (freeFlight_mutatesVelocityOnly _)
  obtain ⟨hc, sim3, sim4, -, -, -, -, -, -, -, hs, -, -, -, hm⟩ :=
    (step_call_sequence _ _ _ _ _ _).1 sim1 h
  refine ⟨sim1, h, hc, ?_, ?_⟩
  · rw [hm, hs]
    rfl
  · rw [hm]
    rfl

/-- C1, counterexample: in a step of a free-flying base-only simulator forward kinematics
is called twice, not exactly once: the recorded calls are not the sequence with a single
forward-kinematics pass, whichever of the two calls that pass is taken to be. -/
theorem step_forward_kinematics_twice :
    ∃ sim1,
      DynamicsSimulator.step (freeFlight (CMath.mk Real.sqrt Real.sin Real.cos))
        (simWith (CMath.mk Real.sqrt Real.sin Real.cos) 6 true (restState [] [])
          (restDerivative [])) (1 / 1000) [] 0 0 = some sim1 ∧
      (sim1.calls.filter Call.isForwardKinematics).length = 2 ∧
      ∀ fk, sim1.calls ≠ singlePassCalls fk (1 / 1000) [] 0 0 := by
  obtain ⟨sim4, h4⟩ := integrate_isSome (freeFlight (CMath.mk Real.sqrt Real.sin Real.cos))
    ((simWith (CMath.mk Real.sqrt Real.sin Real.cos) 6 true (restState [] [])
      (restDerivative [])).beforeIntegrate _ (1 / 1000) [] 0 0) (1 / 1000)
    (freeFlight_sizes _ 6 true _ _ _ [] 0 0 rfl rfl) (freeFlight_mutatesVelocityOnly _)
  have hstep : DynamicsSimulator.step (freeFlight (CMath.mk Real.sqrt Real.sin Real.cos))
      (simWith (CMath.mk Real.sqrt Real.sin Real.cos) 6 true (restState [] [])
        (restDerivative [])) (1 / 1000) [] 0 0 = some (sim4.afterIntegrate
          (freeFlight (CMath.mk Real.sqrt Real.sin Real.cos))) := by
    rw [step_eq, h4]; rfl
  have hc := step_calls_of_some _ _ _ _ _ _ _ hstep
  have hc2 : (sim4.afterIntegrate
      (freeFlight (CMath.mk Real.sqrt Real.sin Real.cos))).calls =
      stepCalls (1 / 1000) [] 0 0 := by
    rw [hc]; rfl
  refine ⟨_, hstep, ?_, ?_⟩
  · rw [hc2]; rfl
  · intro fk hfk
    rw [hc2] at hfk
    have := congrArg List.length hfk
    simp [stepCalls, singlePassCalls] at this

/-- The free-flight transform helpers fit together. -/
theorem freeFlight_rotationRecovered {α : Type} [Field α] (M : CMath α) :
    RotationRecovered (freeFlight M) := by
  intro R p
  funext i j
  have hi := i.isLt
  have hj := j.isLt
  simp [freeFlight, freeFlight.rotationFromSXform, freeFlight.createSXform, hi, hj]

/-- C3: when `integrate` runs (the joint vectors have one common size), the new orientation
is `integrateQuat` of the orientation before the step with the world-frame angular velocity
`R^T * omega`, where `R` is the rotation of the orientation before the step in both modes; in
compliant mode `omega` is the angular part of the base velocity before the step, in impulse
mode it is the angular part of the base velocity after `bodyVelocity += dBodyVelocity * dt`
and after the resolver's `UpdateQdot`, which is the base velocity stored by the step. -/
theorem integrate_orientation_angular_velocity {α μ : Type} [Field α] [DecidableEq α]
    (E : Collaborators α μ) (sim : DynamicsSimulator α μ) (dt : α)
    (hs : JointSizesAgree sim) (hX : RotationRecovered E) (hU : MutatesVelocityOnly E) :
    ∃ sim1, DynamicsSimulator.integrate E sim dt = some sim1 ∧
      (sim._useSpringDamper = true →
        sim1._state.bodyOrientation =
          integrateQuat E.cmath sim._state.bodyOrientation
            (Matrix.mulVec (E.quaternionToRotationMatrix sim._state.bodyOrientation).transpose
              (block3_0 sim._state.bodyVelocity)) dt) ∧
      (sim._useSpringDamper = false →
        sim1._state.bodyVelocity =
          (E.UpdateQdot sim._contact_constr.kind (sim._contact_constr.data, sim._model)
            { sim._state with
              qd := List.zipWith (fun x y => x + y) sim._state.qd
                (DVec.scale sim._dstate.qdd dt)
              bodyVelocity := sim._state.bodyVelocity +
                vscale sim._dstate.dBodyVelocity dt }).2.bodyVelocity ∧
        sim1._state.bodyOrientation =
          integrateQuat E.cmath sim._state.bodyOrientation
            (Matrix.mulVec (E.quaternionToRotationMatrix sim._state.bodyOrientation).transpose
              (block3_0 sim1._state.bodyVelocity)) dt) := by
  obtain ⟨sim1, h⟩ := integrate_isSome E sim dt hs hU
  refine ⟨sim1, h, fun hf => ?_, fun hf => ?_⟩
  · obtain ⟨qd1, q1, -, -, rfl⟩ := integrate_springDamper_some E sim sim1 dt hf h
    simp only [hX _ _]
  · obtain ⟨qd1, q1, h1, -, -, -, -, hst⟩ := integrate_impulse_some E sim sim1 dt hf h
    obtain ⟨-, rfl⟩ := (DVec.addAssign_eq_some_iff _ _ _).1 h1
    obtain ⟨ho, -, -, -⟩ := hU sim._contact_constr.kind (sim._contact_constr.data, sim._model)
      { sim._state with
        qd := List.zipWith (fun x y => x + y) sim._state.qd (DVec.scale sim._dstate.qdd dt)
        bodyVelocity := sim._state.bodyVelocity + vscale sim._dstate.dBodyVelocity dt }
    rw [hst]
    refine ⟨rfl, ?_⟩
    show integrateQuat E.cmath (sim.afterImpulse E dt _).bodyOrientation _ dt = _
    simp only [DynamicsSimulator.afterImpulse]
    rw [ho]

/-- C3, witness: the spinning free-flying simulator in impulse mode. -/
theorem integrate_orientation_angular_velocity_witness :
    JointSizesAgree (spinningSim (CMath.mk Real.sqrt Real.sin Real.cos) false) ∧
    RotationRecovered (freeFlight (CMath.mk Real.sqrt Real.sin Real.cos)) ∧
    MutatesVelocityOnly (freeFlight (CMath.mk Real.sqrt Real.sin Real.cos)) ∧
    ∃ sim1, DynamicsSimulator.integrate (freeFlight (CMath.mk Real.sqrt Real.sin Real.cos))
        (spinningSim (CMath.mk Real.sqrt Real.sin Real.cos) false) (1 / 1000) = some sim1 ∧
      sim1._state.bodyOrientation =
        integrateQuat (CMath.mk Real.sqrt Real.sin Real.cos) ![1, 0, 0, 0]
          (Matrix.mulVec (freeFlight.quaternionToRotationMatrix ![1, 0, 0, 0]).transpose
            (block3_0 sim1._state.bodyVelocity)) (1 / 1000) := by
  refine ⟨⟨rfl, rfl⟩, freeFlight_rotationRecovered _, freeFlight_mutatesVelocityOnly _, ?_⟩
  obtain ⟨sim1, h, -, h2⟩ := integrate_orientation_angular_velocity
    (freeFlight (CMath.mk Real.sqrt Real.sin Real.cos))
    (spinningSim (CMath.mk Real.sqrt Real.sin Real.cos) false) (1 / 1000)
    ⟨rfl, rfl⟩ (freeFlight_rotationRecovered _) (freeFlight_mutatesVelocityOnly _)
  exact ⟨sim1, h, (h2 rfl).2⟩

/-- C4: in impulse mode, when `integrate` runs, the velocities are first advanced by
`acceleration * dt`, then handed to the resolver's `UpdateQdot`; the velocities it returns
are the ones stored. The base position rate is then overwritten by `R^T` times the linear
part of that updated base velocity (`R` the rotation of the orientation), whatever rate the
dynamics solve had produced, the new base position is the old one plus that rate times `dt`,
and the new joint position is the old one plus the updated joint velocity times `dt`. -/
theorem integrate_impulse_order {α μ : Type} [Field α] [DecidableEq α]
    (E : Collaborators α μ) (sim : DynamicsSimulator α μ) (dt : α)
    (hf : sim._useSpringDamper = false)
    (hs : JointSizesAgree sim) (hU : MutatesVelocityOnly E) :
    ∃ sim1 updated, DynamicsSimulator.integrate E sim dt = some sim1 ∧
      updated =
        (E.UpdateQdot sim._contact_constr.kind (sim._contact_constr.data, sim._model)
          { sim._state with
            qd := List.zipWith (fun x y => x + y) sim._state.qd (DVec.scale sim._dstate.qdd dt)
            bodyVelocity := sim._state.bodyVelocity + vscale sim._dstate.dBodyVelocity dt }).2 ∧
      sim1._state.qd = updated.qd ∧
      sim1._state.bodyVelocity = updated.bodyVelocity ∧
      sim1._dstate.dBodyPosition =
        Matrix.mulVec (E.quaternionToRotationMatrix sim._state.bodyOrientation).transpose
          (block3_3 updated.bodyVelocity) ∧
      sim1._dstate.dBodyVelocity = sim._dstate.dBodyVelocity ∧
      sim1._dstate.qdd = sim._dstate.qdd ∧
      sim1._state.bodyPosition = sim._state.bodyPosition +
        vscale (Matrix.mulVec (E.quaternionToRotationMatrix sim._state.bodyOrientation).transpose
          (block3_3 updated.bodyVelocity)) dt ∧
      sim1._state.q = List.zipWith (fun x y => x + y) sim._state.q (DVec.scale updated.qd dt) := by
  obtain ⟨sim1, h⟩ := integrate_isSome E sim dt hs hU
  obtain ⟨qd1, q1, h1, h2, -, -, hd, hst⟩ := integrate_impulse_some E sim sim1 dt hf h
  obtain ⟨-, rfl⟩ := (DVec.addAssign_eq_some_iff _ _ _).1 h1
  obtain ⟨-, rfl⟩ := (DVec.addAssign_eq_some_iff _ _ _).1 h2
  obtain ⟨ho, hp, hq, -⟩ := hU sim._contact_constr.kind (sim._contact_constr.data, sim._model)
    { sim._state with
      qd := List.zipWith (fun x y => x + y) sim._state.qd (DVec.scale sim._dstate.qdd dt)
      bodyVelocity := sim._state.bodyVelocity + vscale sim._dstate.dBodyVelocity dt }
  refine ⟨sim1, _, h, rfl, ?_, ?_, ?_, ?_, ?_, ?_, ?_⟩
  · rw [hst]; rfl
  · rw [hst]; rfl
  · rw [hd]; simp only [DynamicsSimulator.afterImpulse]; rw [ho]
  · rw [hd]
  · rw [hd]
  · rw [hst]; simp only [DynamicsSimulator.afterImpulse]; rw [ho, hp]
  · rw [hst]; simp only [DynamicsSimulator.afterImpulse]; rw [hq]

/-- C4, witness: the spinning free-flying simulator in impulse mode; the joint moves from 0
to `(1 + 2 * dt) * dt`, with the velocity already advanced by the acceleration. -/
theorem integrate_impulse_order_witness :
    (spinningSim (CMath.mk Real.sqrt Real.sin Real.cos) false)._useSpringDamper = false ∧
    JointSizesAgree (spinningSim (CMath.mk Real.sqrt Real.sin Real.cos) false) ∧
    MutatesVelocityOnly (freeFlight (CMath.mk Real.sqrt Real.sin Real.cos)) ∧
    ∃ sim1, DynamicsSimulator.integrate (freeFlight (CMath.mk Real.sqrt Real.sin Real.cos))
        (spinningSim (CMath.mk Real.sqrt Real.sin Real.cos) false) (1 / 1000) = some sim1 ∧
      sim1._state.qd = [1 + 2 * (1 / 1000)] ∧
      sim1._state.q = [0 + (1 + 2 * (1 / 1000)) * (1 / 1000)] := by
  refine ⟨rfl, ⟨rfl, rfl⟩, freeFlight_mutatesVelocityOnly _, ?_⟩
  obtain ⟨sim1, updated, h, hu, hqd, -, -, -, -, -, hq⟩ := integrate_impulse_order
    (freeFlight (CMath.mk Real.sqrt Real.sin Real.cos))
    (spinningSim (CMath.mk Real.sqrt Real.sin Real.cos) false) (1 / 1000)
    rfl ⟨rfl, rfl⟩ (freeFlight_mutatesVelocityOnly _)
  subst hu
  exact ⟨sim1, h, hqd, hq⟩

/-- A sum of four squares is non-negative. -/
theorem quatNormSq_nonneg {α : Type} [LinearOrderedField α] (q : Quat α) : 0 ≤ quatNormSq q := by
  unfold quatNormSq
  have h0 := mul_self_nonneg (q 0)
  have h1 := mul_self_nonneg (q 1)
  have h2 := mul_self_nonneg (q 2)
  have h3 := mul_self_nonneg (q 3)
  linarith

/-- A sum of three squares is non-negative. -/
theorem vec3NormSq_nonneg {α : Type} [LinearOrderedField α] (v : Vec3 α) : 0 ≤ vec3NormSq v := by
  unfold vec3NormSq
  have h0 := mul_self_nonneg (v 0)
  have h1 := mul_self_nonneg (v 1)
  have h2 := mul_self_nonneg (v 2)
  linarith

/-- The exact square root of 1 is 1. -/
theorem CMath.Exact.sqrt_one {α : Type} [LinearOrderedField α] {M : CMath α} (hM : M.Exact) :
    M.sqrt 1 = 1 := by
  obtain ⟨h0, h1⟩ := hM.1 1 zero_le_one
  have : (M.sqrt 1 - 1) * (M.sqrt 1 + 1) = 0 := by ring_nf; linear_combination h1
  rcases mul_eq_zero.1 this with h | h
  · linarith
  · linarith

/-- A quaternion of norm 1 has squared norm 1. -/
theorem quatNormSq_of_norm_one {α : Type} [LinearOrderedField α] {M : CMath α} (hM : M.Exact)
    (q : Quat α) (h : quatNorm M q = 1) : quatNormSq q = 1 := by
  have := (hM.1 _ (quatNormSq_nonneg q)).2
  unfold quatNorm at h
  rw [h] at this
  linarith

/-- The squared norm is multiplicative (the four-square identity). -/
theorem quatNormSq_product {α : Type} [Field α] (a b : Quat α) :
    quatNormSq (quatProduct a b) = quatNormSq a * quatNormSq b := by
  simp [quatNormSq, quatProduct]
  ring

/-- The quaternion exponential of a pure quaternion has squared norm 1. -/
theorem quatNormSq_exp {α : Type} [LinearOrderedField α] [DecidableEq α] {M : CMath α}
    (hM : M.Exact) (v : Vec3 α) : quatNormSq (quatExp M v) = 1 := by
  unfold quatExp
  simp only
  split
  · simp [quatNormSq]
  · rename_i hne
    have hsq := (hM.1 _ (vec3NormSq_nonneg v)).2
    have hsc := hM.2 (M.sqrt (vec3NormSq v))
    generalize M.sqrt (vec3NormSq v) = a at *
    simp only [quatNormSq, Matrix.cons_val_zero, Matrix.cons_val_one, Matrix.head_cons,
      Matrix.cons_val_two, Matrix.tail_cons, Matrix.cons_val_three]
    have hv : v 0 * v 0 + v 1 * v 1 + v 2 * v 2 = a * a := by
      rw [hsq]; rfl
    have : M.cos a * M.cos a + M.sin a / a * v 0 * (M.sin a / a * v 0) +
        M.sin a / a * v 1 * (M.sin a / a * v 1) + M.sin a / a * v 2 * (M.sin a / a * v 2) =
        M.cos a * M.cos a + (M.sin a / a) * (M.sin a / a) * (v 0 * v 0 + v 1 * v 1 + v 2 * v 2) := by
      ring
    have e : M.sin a / a * (M.sin a / a) * (a * a) = M.sin a * M.sin a := by
      field_simp
    rw [this, hv, e]
    linarith

/-- `integrateQuat` maps unit quaternions to unit quaternions. -/
theorem integrateQuat_norm {α : Type} [LinearOrderedField α] [DecidableEq α] {M : CMath α}
    (hM : M.Exact) (q : Quat α) (omega : Vec3 α) (dt : α) (h : quatNorm M q = 1) :
    quatNorm M (integrateQuat M q omega dt) = 1 := by
  have hq := quatNormSq_of_norm_one hM q h
  have hp : quatNormSq (quatProduct (quatExp M (fun i => omega i / 2 * dt)) q) = 1 := by
    rw [quatNormSq_product, quatNormSq_exp hM, hq, mul_one]
  have hn : quatNorm M (quatProduct (quatExp M (fun i => omega i / 2 * dt)) q) = 1 := by
    unfold quatNorm; rw [hp, hM.sqrt_one]
  have he : integrateQuat M q omega dt = quatProduct (quatExp M (fun i => omega i / 2 * dt)) q := by
    funext i
    simp only [integrateQuat]
    rw [hn, div_one]
  rw [he, hn]

/-- The real square root, sine and cosine are exact. -/
theorem real_exact : CMath.Exact (CMath.mk Real.sqrt Real.sin Real.cos) := by
  refine ⟨fun x hx => ⟨Real.sqrt_nonneg x, Real.mul_self_sqrt hx⟩, fun x => ?_⟩
  have := Real.sin_sq_add_cos_sq x
  simp only [sq] at this
  exact this

/-- The exact square root of 0 is 0. -/
theorem CMath.Exact.sqrt_zero {α : Type} [LinearOrderedField α] {M : CMath α} (hM : M.Exact) :
    M.sqrt 0 = 0 := by
  obtain ⟨-, h1⟩ := hM.1 0 le_rfl
  exact mul_self_eq_zero.1 h1

/-- The zero quaternion has squared norm 0. -/
theorem quatNormSq_Zero {α : Type} [Field α] : quatNormSq (Quat.Zero : Quat α) = 0 := by
  simp [quatNormSq, Quat.Zero]

/-- From a unit orientation, `integrate` stores a unit orientation, in either mode. -/
theorem integrate_orientation_norm {α μ : Type} [LinearOrderedField α] [DecidableEq α]
    (E : Collaborators α μ) (sim sim1 : DynamicsSimulator α μ) (dt : α)
    (hM : E.cmath.Exact) (hU : MutatesVelocityOnly E)
    (hunit : quatNorm E.cmath sim._state.bodyOrientation = 1)
    (h : DynamicsSimulator.integrate E sim dt = some sim1) :
    quatNorm E.cmath sim1._state.bodyOrientation = 1 := by
  cases hf : sim._useSpringDamper
  · obtain ⟨qd1, q1, -, -, -, -, -, hst⟩ := integrate_impulse_some E sim sim1 dt hf h
    obtain ⟨ho, -, -, -⟩ := hU sim._contact_constr.kind (sim._contact_constr.data, sim._model)
      { sim._state with
        qd := qd1
        bodyVelocity := sim._state.bodyVelocity + vscale sim._dstate.dBodyVelocity dt }
    rw [hst]
    apply integrateQuat_norm hM
    simp only [DynamicsSimulator.afterImpulse]
    rw [ho]
    exact hunit
  · obtain ⟨qd1, q1, -, -, rfl⟩ := integrate_springDamper_some E sim sim1 dt hf h
    exact integrateQuat_norm hM _ _ _ hunit

/-- `step` leaves in `_state` what `integrate` has put there, and commits it to the model
before the two resets. -/
theorem step_some {α μ : Type} [Field α] [DecidableEq α] (E : Collaborators α μ)
    (sim sim1 : DynamicsSimulator α μ) (dt : α) (tau : DVec α) (kp kd : α)
    (h : DynamicsSimulator.step E sim dt tau kp kd = some sim1) :
    ∃ sim4, DynamicsSimulator.integrate E (sim.beforeIntegrate E dt tau kp kd) dt = some sim4 ∧
      sim1._state = sim4._state ∧
      sim1._useSpringDamper = sim4._useSpringDamper ∧
      sim1._contact_constr = sim4._contact_constr ∧
      sim1._model =
        E.resetCalculationFlags (E.resetExternalForces (sim4._model.setState sim4._state)) := by
  rw [step_eq, Option.map_eq_some'] at h
  obtain ⟨sim4, h4, rfl⟩ := h
  exact ⟨sim4, h4, rfl, rfl, rfl, rfl⟩

/-- `integrate` changes neither the flag nor the class of the resolver. -/
theorem integrate_keeps_strategy {α μ : Type} [Field α] [DecidableEq α] (E : Collaborators α μ)
    (sim sim1 : DynamicsSimulator α μ) (dt : α)
    (h : DynamicsSimulator.integrate E sim dt = some sim1) :
    sim1._useSpringDamper = sim._useSpringDamper ∧
    sim1._contact_constr.kind = sim._contact_constr.kind := by
  cases hf : sim._useSpringDamper
  · obtain ⟨qd1, q1, -, -, h1, h2, -, -⟩ := integrate_impulse_some E sim sim1 dt hf h
    exact ⟨by rw [h1, hf], h2⟩
  · obtain ⟨qd1, q1, -, -, rfl⟩ := integrate_springDamper_some E sim sim1 dt hf h
    exact ⟨hf, rfl⟩

/-- `step` changes neither the flag nor the class of the resolver. -/
theorem step_keeps_strategy {α μ : Type} [Field α] [DecidableEq α] (E : Collaborators α μ)
    (sim sim1 : DynamicsSimulator α μ) (dt : α) (tau : DVec α) (kp kd : α)
    (h : DynamicsSimulator.step E sim dt tau kp kd = some sim1) :
    sim1._useSpringDamper = sim._useSpringDamper ∧
    sim1._contact_constr.kind = sim._contact_constr.kind := by
  obtain ⟨sim4, h4, -, hf, hc, -⟩ := step_some E sim sim1 dt tau kp kd h
  obtain ⟨h1, h2⟩ := integrate_keeps_strategy E _ sim4 dt h4
  exact ⟨by rw [hf, h1]; rfl, by rw [hc, h2]; rfl⟩

/-- A run changes neither the flag nor the class of the resolver. -/
theorem steps_keeps_strategy {α μ : Type} [Field α] [DecidableEq α] (E : Collaborators α μ)
    (inputs : List (α × DVec α × α × α)) (sim sim1 : DynamicsSimulator α μ)
    (h : DynamicsSimulator.steps E sim inputs = some sim1) :
    sim1._useSpringDamper = sim._useSpringDamper ∧
    sim1._contact_constr.kind = sim._contact_constr.kind := by
  induction inputs generalizing sim with
  | nil =>
    simp only [DynamicsSimulator.steps, Option.some.injEq] at h
    subst h
    exact ⟨rfl, rfl⟩
  | cons i rest ih =>
    obtain ⟨dt, tau, kp, kd⟩ := i
    simp only [DynamicsSimulator.steps, Option.bind_eq_some] at h
    obtain ⟨sim2, h2, h3⟩ := h
    obtain ⟨a1, a2⟩ := step_keeps_strategy E sim sim2 dt tau kp kd h2
    obtain ⟨b1, b2⟩ := ih sim2 h3
    exact ⟨by rw [b1, a1], by rw [b2, a2]⟩

/-- `size_t` arithmetic: `(6 + n) - 6` is `n` when `6 + n` is a `size_t` value. -/
theorem size_t_sub_six (n : Nat) (h : 6 + n < 2 ^ 64) : size_t_sub (6 + n) 6 = n := by
  unfold size_t_sub
  norm_num at h ⊢
  omega

/-- C2: for every model and every state `s`, after `setState(s)` the stored state is `s`
and the flags `_kinematicsUpToDate`, `_biasAccelerationsUpToDate` and
`_compositeInertiasUpToDate` are all false, whatever the model held before. -/
theorem setState_stores_state_and_invalidates {α : Type} (m : FloatingBaseModel α)
    (s : FBModelState α) :
    (m.setState s)._state = s ∧
    (m.setState s)._kinematicsUpToDate = false ∧
    (m.setState s)._biasAccelerationsUpToDate = false ∧
    (m.setState s)._compositeInertiasUpToDate = false :=
  ⟨rfl, rfl, rfl, rfl⟩

/-- C6 (amended): a newly constructed simulator holds the zero quaternion as base
orientation, whose norm is 0 and not 1; from a held orientation of norm 1 on (a state with
a unit orientation has been injected), every step that returns leaves an orientation of
norm 1. -/
theorem orientation_norm_of_simulator_state {α μ : Type} [LinearOrderedField α] [DecidableEq α]
    (E : Collaborators α μ) (hM : E.cmath.Exact) (hU : MutatesVelocityOnly E) :
    (∀ (model : FloatingBaseModel α) (useSpringDamper : Bool) (dmem : FBModelStateDerivative α),
      (DynamicsSimulator.new E model useSpringDamper dmem)._state.bodyOrientation = Quat.Zero ∧
      quatNorm E.cmath
        (DynamicsSimulator.new E model useSpringDamper dmem)._state.bodyOrientation = 0) ∧
    (∀ (sim sim1 : DynamicsSimulator α μ) (dt : α) (tau : DVec α) (kp kd : α),
      quatNorm E.cmath sim._state.bodyOrientation = 1 →
      DynamicsSimulator.step E sim dt tau kp kd = some sim1 →
      quatNorm E.cmath sim1._state.bodyOrientation = 1) := by
  refine ⟨fun model b dmem => ⟨rfl, ?_⟩, fun sim sim1 dt tau kp kd hunit h => ?_⟩
  · show E.cmath.sqrt (quatNormSq (Quat.Zero : Quat α)) = 0
    rw [quatNormSq_Zero, hM.sqrt_zero]
  · obtain ⟨sim4, h4, hst, -, -, -⟩ := step_some E sim sim1 dt tau kp kd h
    rw [hst]
    exact integrate_orientation_norm E (sim.beforeIntegrate E dt tau kp kd) sim4 dt hM hU
      hunit h4

/-- C6, witness: a newly constructed free-flying simulator over the reals. -/
theorem orientation_norm_of_simulator_state_witness :
    CMath.Exact (CMath.mk Real.sqrt Real.sin Real.cos) ∧
    MutatesVelocityOnly (freeFlight (CMath.mk Real.sqrt Real.sin Real.cos)) ∧
    quatNorm (CMath.mk Real.sqrt Real.sin Real.cos)
      (DynamicsSimulator.new (freeFlight (CMath.mk Real.sqrt Real.sin Real.cos))
        (modelWith 6 (restState [] [])) true (restDerivative []))._state.bodyOrientation = 0 :=
  ⟨real_exact, freeFlight_mutatesVelocityOnly _,
    ((orientation_norm_of_simulator_state (freeFlight (CMath.mk Real.sqrt Real.sin Real.cos))
      real_exact (freeFlight_mutatesVelocityOnly _)).1
      (modelWith 6 (restState [] [])) true (restDerivative [])).2⟩

/-- C6, counterexample: immediately after construction over a base-only model the base
orientation is the zero quaternion, and its norm is not 1. -/
theorem constructed_orientation_not_unit :
    (DynamicsSimulator.new (freeFlight (CMath.mk Real.sqrt Real.sin Real.cos))
      (modelWith 6 (restState [] [])) true (restDerivative []))._state.bodyOrientation
        = ![0, 0, 0, 0] ∧
    quatNorm (CMath.mk Real.sqrt Real.sin Real.cos)
      (DynamicsSimulator.new (freeFlight (CMath.mk Real.sqrt Real.sin Real.cos))
        (modelWith 6 (restState [] [])) true (restDerivative []))._state.bodyOrientation ≠ 1 := by
  constructor
  · funext i
    fin_cases i <;> rfl
  · show Real.sqrt (quatNormSq (Quat.Zero : Quat ℝ)) ≠ 1
    rw [quatNormSq_Zero, Real.sqrt_zero]
    norm_num

/-- C7: for every simulator state whose orientation is a unit quaternion, every base
velocity, every state derivative and every timestep, the orientation stored by `integrate`
has norm 1 again, in compliant and in impulse mode; and `integrate` does store one whenever
the joint vectors have one common size. -/
theorem integrate_preserves_unit_orientation {α μ : Type} [LinearOrderedField α]
    [DecidableEq α] (E : Collaborators α μ) (sim : DynamicsSimulator α μ) (dt : α)
    (hM : E.cmath.Exact) (hU : MutatesVelocityOnly E)
    (hunit : quatNorm E.cmath sim._state.bodyOrientation = 1) :
    (∀ sim1, DynamicsSimulator.integrate E sim dt = some sim1 →
      quatNorm E.cmath sim1._state.bodyOrientation = 1) ∧
    (JointSizesAgree sim → ∃ sim1, DynamicsSimulator.integrate E sim dt = some sim1 ∧
      quatNorm E.cmath sim1._state.bodyOrientation = 1) := by
  refine ⟨fun sim1 h => integrate_orientation_norm E sim sim1 dt hM hU hunit h, fun hs => ?_⟩
  obtain ⟨sim1, h⟩ := integrate_isSome E sim dt hs hU
  exact ⟨sim1, h, integrate_orientation_norm E sim sim1 dt hM hU hunit h⟩

/-- C7, witness: the spinning free-flying simulator over the reals, in compliant mode. -/
theorem integrate_preserves_unit_orientation_witness :
    CMath.Exact (CMath.mk Real.sqrt Real.sin Real.cos) ∧
    MutatesVelocityOnly (freeFlight (CMath.mk Real.sqrt Real.sin Real.cos)) ∧
    quatNorm (CMath.mk Real.sqrt Real.sin Real.cos)
      (spinningSim (CMath.mk Real.sqrt Real.sin Real.cos) true)._state.bodyOrientation = 1 ∧
    ∃ sim1, DynamicsSimulator.integrate (freeFlight (CMath.mk Real.sqrt Real.sin Real.cos))
        (spinningSim (CMath.mk Real.sqrt Real.sin Real.cos) true) (1 / 1000) = some sim1 ∧
      quatNorm (CMath.mk Real.sqrt Real.sin Real.cos) sim1._state.bodyOrientation = 1 := by
  have hunit : quatNorm (CMath.mk Real.sqrt Real.sin Real.cos)
      (spinningSim (CMath.mk Real.sqrt Real.sin Real.cos) true)._state.bodyOrientation = 1 := by
    show Real.sqrt (quatNormSq ![1, 0, 0, 0]) = 1
    simp [quatNormSq]
  exact ⟨real_exact, freeFlight_mutatesVelocityOnly _, hunit,
    (integrate_preserves_unit_orientation (freeFlight (CMath.mk Real.sqrt Real.sin Real.cos))
      (spinningSim (CMath.mk Real.sqrt Real.sin Real.cos) true) (1 / 1000)
      real_exact (freeFlight_mutatesVelocityOnly _) hunit).2 ⟨rfl, rfl⟩⟩

/-- When the joint vectors have one common size, `integrate` returns and keeps that size;
the compliant branch needs no assumption on the resolver. -/
theorem integrate_keeps_sizes {α μ : Type} [Field α] [DecidableEq α]
    (E : Collaborators α μ) (sim : DynamicsSimulator α μ) (dt : α)
    (hmode : sim._useSpringDamper = true ∨ MutatesVelocityOnly E) (hs : JointSizesAgree sim) :
    ∃ sim1, DynamicsSimulator.integrate E sim dt = some sim1 ∧
      sim1._state.q.length = sim._state.q.length ∧
      sim1._state.qd.length = sim._state.qd.length := by
  obtain ⟨h1, h2⟩ := hs
  have e1 := DVec.addAssign_of_length sim._state.qd (DVec.scale sim._dstate.qdd dt)
    (by rw [DVec.scale_length]; exact h1)
  cases hf : sim._useSpringDamper
  · have hU : MutatesVelocityOnly E := by
      rcases hmode with h | h
      · rw [hf] at h; cases h
      · exact h
    obtain ⟨-, -, hq, hqd⟩ := hU sim._contact_constr.kind (sim._contact_constr.data, sim._model)
      { sim._state with
        qd := List.zipWith (fun x y => x + y) sim._state.qd (DVec.scale sim._dstate.qdd dt)
        bodyVelocity := sim._state.bodyVelocity + vscale sim._dstate.dBodyVelocity dt }
    have hqd1 : (List.zipWith (fun x y => x + y) sim._state.qd
        (DVec.scale sim._dstate.qdd dt)).length = sim._state.qd.length := by
      simp [DVec.scale_length, h1]
    unfold DynamicsSimulator.integrate
    rw [if_neg (by simp [hf]), e1]
    simp only [Option.some_bind]
    rw [DVec.addAssign_of_length _ _ (by rw [DVec.scale_length, hq, hqd, hqd1]; exact h2)]
    refine ⟨_, rfl, ?_, ?_⟩
    · simp [DVec.scale_length, hq, hqd, hqd1, h2]
    · simp only [hqd, hqd1]
  · unfold DynamicsSimulator.integrate
    rw [if_pos hf, e1]
    simp only [Option.some_bind]
    rw [DVec.addAssign_of_length _ _ (by simp [DVec.scale_length, h2, h1])]
    refine ⟨_, rfl, ?_, ?_⟩
    · simp [DVec.scale_length, h2, h1]
    · simp [DVec.scale_length, h1]

/-- The joint vectors the constructor creates. -/
theorem new_joint_vectors {α μ : Type} [Field α] (E : Collaborators α μ)
    (model : FloatingBaseModel α) (b : Bool) (dmem : FBModelStateDerivative α) :
    (DynamicsSimulator.new E model b dmem)._state.q = DVec.Zero (size_t_sub model._nDof 6) ∧
    (DynamicsSimulator.new E model b dmem)._state.qd = DVec.Zero (size_t_sub model._nDof 6) := by
  constructor <;> simp only [DynamicsSimulator.new]

/-- C8: for every model with `_nDof = 6 + n` (a `size_t` value), a newly constructed
simulator holds joint-position and joint-velocity vectors that consist of exactly `n` zeros;
and whenever joint positions, joint velocities and joint accelerations have length `n`,
`integrate` returns with joint positions and joint velocities of length `n`, in compliant
mode and (the resolver's `UpdateQdot` keeping sizes) in impulse mode. -/
theorem joint_vector_sizes {α μ : Type} [Field α] [DecidableEq α] (E : Collaborators α μ)
    (model : FloatingBaseModel α) (n : Nat)
    (h : model._nDof = 6 + n) (hsz : model._nDof < 2 ^ 64) :
    (∀ (useSpringDamper : Bool) (dmem : FBModelStateDerivative α),
      (DynamicsSimulator.new E model useSpringDamper dmem)._state.q = List.replicate n 0 ∧
      (DynamicsSimulator.new E model useSpringDamper dmem)._state.qd = List.replicate n 0 ∧
      (DynamicsSimulator.new E model useSpringDamper dmem)._state.q.length = n ∧
      (DynamicsSimulator.new E model useSpringDamper dmem)._state.qd.length = n) ∧
    (∀ (sim : DynamicsSimulator α μ) (dt : α),
      sim._useSpringDamper = true ∨ MutatesVelocityOnly E →
      sim._state.q.length = n → sim._state.qd.length = n → sim._dstate.qdd.length = n →
      ∃ sim1, DynamicsSimulator.integrate E sim dt = some sim1 ∧
        sim1._state.q.length = n ∧ sim1._state.qd.length = n) := by
  have hn : size_t_sub model._nDof 6 = n := by
    rw [h]; exact size_t_sub_six n (h ▸ hsz)
  refine ⟨fun b dmem => ?_, fun sim dt hmode hq hqd hqdd => ?_⟩
  · have e : (DynamicsSimulator.new E model b dmem)._state.q = List.replicate n 0 := by
      rw [(new_joint_vectors E model b dmem).1, hn, DVec.Zero]
    have e2 : (DynamicsSimulator.new E model b dmem)._state.qd = List.replicate n 0 := by
      rw [(new_joint_vectors E model b dmem).2, hn, DVec.Zero]
    exact ⟨e, e2, by rw [e]; simp, by rw [e2]; simp⟩
  · obtain ⟨sim1, h1, h2, h3⟩ := integrate_keeps_sizes E sim dt hmode
      ⟨by rw [hqd, hqdd], by rw [hq, hqd]⟩
    exact ⟨sim1, h1, by rw [h2, hq], by rw [h3, hqd]⟩

/-- C8, witness: a model with seven degrees of freedom gives joint vectors of length 1. -/
theorem joint_vector_sizes_witness :
    (modelWith 7 (restState [0] [1]) : FloatingBaseModel ℝ)._nDof = 6 + 1 ∧
    (modelWith 7 (restState [0] [1]) : FloatingBaseModel ℝ)._nDof < 2 ^ 64 ∧
    (DynamicsSimulator.new (freeFlight (CMath.mk Real.sqrt Real.sin Real.cos))
      (modelWith 7 (restState [0] [1])) false (restDerivative []))._state.q = [0] ∧
    ∃ sim1, DynamicsSimulator.integrate (freeFlight (CMath.mk Real.sqrt Real.sin Real.cos))
        (spinningSim (CMath.mk Real.sqrt Real.sin Real.cos) false) (1 / 1000) = some sim1 ∧
      sim1._state.q.length = 1 ∧ sim1._state.qd.length = 1 := by
  have hsz : (modelWith 7 (restState [0] [1]) : FloatingBaseModel ℝ)._nDof < 2 ^ 64 := by
    show 7 < 2 ^ 64
    norm_num
  have key := joint_vector_sizes (freeFlight (CMath.mk Real.sqrt Real.sin Real.cos))
    (modelWith 7 (restState [0] [1])) 1 rfl hsz
  exact ⟨rfl, hsz, (key.1 false (restDerivative [])).1,
    key.2 (spinningSim (CMath.mk Real.sqrt Real.sin Real.cos) false) (1 / 1000)
      (Or.inr (freeFlight_mutatesVelocityOnly _)) rfl rfl rfl⟩

/-- C9: the constructor stores the flag `useSpringDamper` and creates the spring-damper
resolver exactly when the flag is true, the impulse resolver exactly when it is false; no
step changes the flag or the class of the resolver; hence after any run of steps from the
constructed simulator the flag is the constructor's, the condition on which `integrate`
branches is true exactly when the resolver is the spring-damper one and false exactly when
it is the impulse one, and `integrate` is the branch selected by the resolver's class. -/
theorem contact_strategy_fixed {α μ : Type} [Field α] [DecidableEq α] (E : Collaborators α μ)
    (model : FloatingBaseModel α) (useSpringDamper : Bool) (dmem : FBModelStateDerivative α) :
    (DynamicsSimulator.new E model useSpringDamper dmem)._useSpringDamper = useSpringDamper ∧
    ((DynamicsSimulator.new E model useSpringDamper dmem)._contact_constr.kind =
      ContactKind.ContactSpringDamper ↔ useSpringDamper = true) ∧
    ((DynamicsSimulator.new E model useSpringDamper dmem)._contact_constr.kind =
      ContactKind.ContactImpulse ↔ useSpringDamper = false) ∧
    (∀ (sim sim1 : DynamicsSimulator α μ) (dt : α) (tau : DVec α) (kp kd : α),
      DynamicsSimulator.step E sim dt tau kp kd = some sim1 →
      sim1._useSpringDamper = sim._useSpringDamper ∧
      sim1._contact_constr.kind = sim._contact_constr.kind) ∧
    (∀ (inputs : List (α × DVec α × α × α)) (sim1 : DynamicsSimulator α μ),
      DynamicsSimulator.steps E (DynamicsSimulator.new E model useSpringDamper dmem) inputs =
        some sim1 →
      sim1._useSpringDamper = useSpringDamper ∧
      (sim1._useSpringDamper = true ↔
        sim1._contact_constr.kind = ContactKind.ContactSpringDamper) ∧
      (sim1._useSpringDamper = false ↔
        sim1._contact_constr.kind = ContactKind.ContactImpulse) ∧
      ∀ dt, DynamicsSimulator.integrate E sim1 dt =
        DynamicsSimulator.integrate E
          { sim1 with
            _useSpringDamper :=
              decide (sim1._contact_constr.kind = ContactKind.ContactSpringDamper) } dt) := by
  have hk1 : (DynamicsSimulator.new E model useSpringDamper dmem)._contact_constr.kind =
      ContactKind.ContactSpringDamper ↔ useSpringDamper = true := by
    cases useSpringDamper <;> simp [DynamicsSimulator.new]
  have hk2 : (DynamicsSimulator.new E model useSpringDamper dmem)._contact_constr.kind =
      ContactKind.ContactImpulse ↔ useSpringDamper = false := by
    cases useSpringDamper <;> simp [DynamicsSimulator.new]
  refine ⟨rfl, hk1, hk2, fun sim sim1 dt tau kp kd h =>
    step_keeps_strategy E sim sim1 dt tau kp kd h, fun inputs sim1 h => ?_⟩
  obtain ⟨h1, h2⟩ := steps_keeps_strategy E inputs _ sim1 h
  have hf : sim1._useSpringDamper = useSpringDamper := h1
  have e1 : sim1._useSpringDamper = true ↔
      sim1._contact_constr.kind = ContactKind.ContactSpringDamper := by
    rw [h2, hf]; exact hk1.symm
  have e2 : sim1._useSpringDamper = false ↔
      sim1._contact_constr.kind = ContactKind.ContactImpulse := by
    rw [h2, hf]; exact hk2.symm
  refine ⟨hf, e1, e2, fun dt => ?_⟩
  have e3 : decide (sim1._contact_constr.kind = ContactKind.ContactSpringDamper) =
      sim1._useSpringDamper := by
    cases hb : sim1._useSpringDamper
    · have := e2.1 hb
      simp [this]
    · have := e1.1 hb
      simp [this]
  rw [e3]

/-- `addBody` succeeds exactly when the parent is one of the bodies added so far, and then
appends the body and returns its index. -/
theorem addBody_eq_some_iff {α : Type} (m m1 : FloatingBaseModel α)
    (inertia rotorInertia : SpatialInertia α) (gearRatio : α) (parent : Int)
    (jointType : JointType) (jointAxis : CoordinateAxis) (Xtree Xrot : Mat6 α) (id : Int) :
    m.addBody inertia rotorInertia gearRatio parent jointType jointAxis Xtree Xrot
        = some (m1, id) ↔
      (0 ≤ parent ∧ parent < (m._nDof : Int)) ∧ id = (m._nDof : Int) ∧
      m1 = { m with
        _nDof := m._nDof + 1
        _parents := m._parents ++ [parent]
        _gearRatios := m._gearRatios ++ [gearRatio]
        _jointTypes := m._jointTypes ++ [jointType]
        _jointAxes := m._jointAxes ++ [jointAxis]
        _Xtree := m._Xtree ++ [Xtree]
        _Xrot := m._Xrot ++ [Xrot]
        _Ibody := m._Ibody ++ [inertia]
        _Irot := m._Irot ++ [rotorInertia]
        _bodyNames := m._bodyNames ++ [""] } := by
  unfold FloatingBaseModel.addBody
  split
  · rename_i h
    simp only [Option.some.injEq, Prod.mk.injEq]
    constructor
    · rintro ⟨rfl, rfl⟩
      exact ⟨h, rfl, rfl⟩
    · rintro ⟨-, rfl, rfl⟩
      exact ⟨rfl, rfl⟩
  · rename_i h
    simp [h]

/-- A built model has a floating base, one parent entry for each body, and every body on a
joint has its parent below itself. -/
theorem built_parents {α : Type} [Field α] (m : FloatingBaseModel α) (hb : Built m) :
    6 ≤ m._nDof ∧ m._parents.length = m._nDof ∧ ParentsBelow m := by
  induction hb with
  | base mem inertia m h =>
    unfold FloatingBaseModel.addBase at h
    rw [if_pos (show (FloatingBaseModel.new mem)._nDof = 0 from rfl)] at h
    simp only [Option.some.injEq] at h
    subst h
    refine ⟨le_rfl, rfl, ?_⟩
    intro i h1 h2
    have : i < 6 := h2
    omega
  | body m m1 inertia rotorInertia gearRatio parent jointType jointAxis Xtree Xrot id _ h ih =>
    obtain ⟨h6, hlen, hpar⟩ := ih
    obtain ⟨hp, -, rfl⟩ := (addBody_eq_some_iff _ _ _ _ _ _ _ _ _ _ _).1 h
    refine ⟨Nat.le_succ_of_le h6, by simp [hlen], ?_⟩
    intro i h1 h2
    have h2 : i < m._nDof + 1 := h2
    show 0 ≤ (m._parents ++ [parent]).getD i 0 ∧ (m._parents ++ [parent]).getD i 0 < (i : Int)
    by_cases hi : i < m._nDof
    · rw [List.getD_append _ _ _ _ (by omega)]
      exact hpar i h1 hi
    · have hi2 : i = m._parents.length := by omega
      rw [hi2, List.getD_append_right _ _ _ _ le_rfl]
      simp only [Nat.sub_self, List.getD_cons_zero]
      rw [hlen]
      exact hp

/-- C11: in every model built through `addBase` and `addBody`, the parent index of each
body hanging on a joint is strictly smaller than the body's own index. On such a model
`addBody` fails when the parent is none of the bodies added so far; otherwise it returns the
index of the new body, which is the next free index and lies above the parent's, appends the
body with that parent, and the model stays one built through `addBase` and `addBody`. -/
theorem addBody_keeps_parents_below {α : Type} [Field α] (m : FloatingBaseModel α)
    (hb : Built m) :
    ParentsBelow m ∧
    ∀ (inertia rotorInertia : SpatialInertia α) (gearRatio : α) (parent : Int)
      (jointType : JointType) (jointAxis : CoordinateAxis) (Xtree Xrot : Mat6 α),
      (¬ (0 ≤ parent ∧ parent < (m._nDof : Int)) →
        m.addBody inertia rotorInertia gearRatio parent jointType jointAxis Xtree Xrot = none) ∧
      (0 ≤ parent ∧ parent < (m._nDof : Int) →
        ∃ m1, m.addBody inertia rotorInertia gearRatio parent jointType jointAxis Xtree Xrot
            = some (m1, (m._nDof : Int)) ∧
          m1._nDof = m._nDof + 1 ∧
          m1._parents = m._parents ++ [parent] ∧
          m1._parents.getD m._nDof 0 = parent ∧
          parent < (m._nDof : Int) ∧
          Built m1 ∧ ParentsBelow m1) := by
  obtain ⟨-, hlen, hpar⟩ := built_parents m hb
  refine ⟨hpar, fun inertia rotorInertia gearRatio parent jointType jointAxis Xtree Xrot =>
    ⟨fun h => ?_, fun h => ?_⟩⟩
  · unfold FloatingBaseModel.addBody
    rw [if_neg h]
  · have e : m.addBody inertia rotorInertia gearRatio parent jointType jointAxis Xtree Xrot =
        some (_, (m._nDof : Int)) :=
      (addBody_eq_some_iff _ _ _ _ _ _ _ _ _ _ _).2 ⟨h, rfl, rfl⟩
    have hb1 := Built.body _ _ _ _ _ _ _ _ _ _ _ hb e
    refine ⟨_, e, rfl, rfl, ?_, h.2, hb1, (built_parents _ hb1).2.2⟩
    show (m._parents ++ [parent]).getD m._nDof 0 = parent
    rw [← hlen, List.getD_append_right _ _ _ _ le_rfl]
    simp

/-- C11, witness: the base alone is a built model, and a body hung on the base (body 5) gets
index 6. -/
theorem addBody_keeps_parents_below_witness :
    ∃ m : FloatingBaseModel ℚ, exampleBase = some m ∧ Built m ∧ ParentsBelow m ∧
      ∃ m1, m.addBody ⟨1⟩ ⟨0⟩ 1 5 0 0 1 1 = some (m1, 6) ∧ m1._parents.getD 6 0 = 5 ∧
        ParentsBelow m1 := by
  have e : ∃ m : FloatingBaseModel ℚ, exampleBase = some m := ⟨_, rfl⟩
  obtain ⟨m, hm⟩ := e
  have hb : Built m := Built.base _ _ _ hm
  have h6 : m._nDof = 6 := by
    unfold exampleBase FloatingBaseModel.addBase at hm
    rw [if_pos (show (FloatingBaseModel.new (restState ([] : List ℚ) []))._nDof = 0 from rfl)]
      at hm
    simp only [Option.some.injEq] at hm
    subst hm
    rfl
  obtain ⟨m1, h1, -, -, h2, -, -, h3⟩ :=
    (addBody_keeps_parents_below m hb).2 ⟨1⟩ ⟨0⟩ 1 5 0 0 1 1 |>.2 (by rw [h6]; decide)
  rw [h6] at h1 h2
  exact ⟨m, hm, hb, (addBody_keeps_parents_below m hb).1, m1, h1, h2, h3⟩

/-- C19: a default-constructed model has the gravity vector (0, 0, -9.81), no bodies (no
degree of freedom and every per-body array empty), no contact points and the three
up-to-date flags false; `setGravity(g)` makes `g` the gravity vector and leaves every other
member of the model as it was. -/
theorem default_model_and_setGravity {α : Type} [Field α] (mem : FBModelState α)
    (m : FloatingBaseModel α) (g : Vec3 α) :
    (FloatingBaseModel.new mem)._gravity = ![0, 0, -(981 / 100)] ∧
    ((FloatingBaseModel.new mem)._nDof = 0 ∧
      (FloatingBaseModel.new mem)._parents = [] ∧
      (FloatingBaseModel.new mem)._gearRatios = [] ∧
      (FloatingBaseModel.new mem)._jointTypes = [] ∧
      (FloatingBaseModel.new mem)._jointAxes = [] ∧
      (FloatingBaseModel.new mem)._Xtree = [] ∧
      (FloatingBaseModel.new mem)._Xrot = [] ∧
      (FloatingBaseModel.new mem)._Ibody = [] ∧
      (FloatingBaseModel.new mem)._Irot = [] ∧
      (FloatingBaseModel.new mem)._bodyNames = []) ∧
    ((FloatingBaseModel.new mem)._nGroundContact = 0 ∧
      (FloatingBaseModel.new mem)._gcParent = [] ∧
      (FloatingBaseModel.new mem)._gcLocation = [] ∧
      (FloatingBaseModel.new mem)._footIndicesGC = [] ∧
      (FloatingBaseModel.new mem)._pGC = [] ∧
      (FloatingBaseModel.new mem)._vGC = [] ∧
      (FloatingBaseModel.new mem)._compute_contact_info = []) ∧
    ((FloatingBaseModel.new mem)._kinematicsUpToDate = false ∧
      (FloatingBaseModel.new mem)._biasAccelerationsUpToDate = false ∧
      (FloatingBaseModel.new mem)._compositeInertiasUpToDate = false) ∧
    (m.setGravity g)._gravity = g ∧
    { m.setGravity g with _gravity := m._gravity } = m :=
  ⟨rfl, ⟨rfl, rfl, rfl, rfl, rfl, rfl, rfl, rfl, rfl, rfl⟩, ⟨rfl, rfl, rfl, rfl, rfl, rfl, rfl⟩,
    ⟨rfl, rfl, rfl⟩, rfl, rfl⟩

/-- Adding an increment entry by entry and subtracting the old vector gives the increment
back. -/
theorem zipWith_sub_zipWith_add {α : Type} [Field α] (a b : List α) (h : a.length = b.length) :
    List.zipWith (fun x y => x - y) (List.zipWith (fun x y => x + y) a b) a = b := by
  induction a generalizing b with
  | nil =>
    cases b with
    | nil => rfl
    | cons y ys => simp at h
  | cons x xs ih =>
    cases b with
    | nil => simp at h
    | cons y ys =>
      simp only [List.length_cons, Nat.add_right_cancel_iff] at h
      simp only [List.zipWith_cons_cons, ih ys h, add_sub_cancel_left]

/-- C20: when `integrate` runs in compliant mode it is a semi-implicit Euler step: the joint
velocity advances by `qdd * dt`, the joint position by the already advanced joint velocity
times `dt`, the base velocity by `dBodyVelocity * dt` and the base position by
`dBodyPosition * dt`, with the derivatives held in `_dstate`; the contact resolver is not
called, and the model, the resolver and `_dstate` are left as they were. In both modes the
new joint position is the old one plus the stored joint velocity times `dt`, so that their
difference is that velocity times `dt`. -/
theorem integrate_semi_implicit_euler {α μ : Type} [Field α] [DecidableEq α]
    (E : Collaborators α μ) (sim : DynamicsSimulator α μ) (dt : α)
    (hmode : sim._useSpringDamper = true ∨ MutatesVelocityOnly E) (hs : JointSizesAgree sim) :
    ∃ sim1, DynamicsSimulator.integrate E sim dt = some sim1 ∧
      (sim._useSpringDamper = true →
        sim1._state.qd =
          List.zipWith (fun x y => x + y) sim._state.qd (DVec.scale sim._dstate.qdd dt) ∧
        sim1._state.q =
          List.zipWith (fun x y => x + y) sim._state.q (DVec.scale sim1._state.qd dt) ∧
        sim1._state.bodyVelocity =
          sim._state.bodyVelocity + vscale sim._dstate.dBodyVelocity dt ∧
        sim1._state.bodyPosition =
          sim._state.bodyPosition + vscale sim._dstate.dBodyPosition dt ∧
        sim1._dstate = sim._dstate ∧ sim1._model = sim._model ∧
        sim1._contact_constr = sim._contact_constr) ∧
      sim1._state.q =
        List.zipWith (fun x y => x + y) sim._state.q (DVec.scale sim1._state.qd dt) ∧
      List.zipWith (fun x y => x - y) sim1._state.q sim._state.q =
        DVec.scale sim1._state.qd dt := by
  obtain ⟨sim1, h, hq, hqd⟩ := integrate_keeps_sizes E sim dt hmode hs
  have hlen : sim._state.q.length = (DVec.scale sim1._state.qd dt).length := by
    rw [DVec.scale_length, hqd]; exact hs.2
  have key : sim1._state.q =
      List.zipWith (fun x y => x + y) sim._state.q (DVec.scale sim1._state.qd dt) := by
    cases hf : sim._useSpringDamper
    · have hU : MutatesVelocityOnly E := by
        rcases hmode with h1 | h1
        · rw [hf] at h1; cases h1
        · exact h1
      obtain ⟨qd1, q1, -, h2, -, -, -, hst⟩ := integrate_impulse_some E sim sim1 dt hf h
      obtain ⟨-, rfl⟩ := (DVec.addAssign_eq_some_iff _ _ _).1 h2
      obtain ⟨-, -, hq0, -⟩ := hU sim._contact_constr.kind (sim._contact_constr.data, sim._model)
        { sim._state with
          qd := qd1
          bodyVelocity := sim._state.bodyVelocity + vscale sim._dstate.dBodyVelocity dt }
      rw [hst]
      show List.zipWith _ (sim.afterImpulse E dt qd1).q _ = List.zipWith _ sim._state.q _
      simp only [DynamicsSimulator.afterImpulse]
      rw [hq0]
    · obtain ⟨qd1, q1, -, h2, rfl⟩ := integrate_springDamper_some E sim sim1 dt hf h
      obtain ⟨-, rfl⟩ := (DVec.addAssign_eq_some_iff _ _ _).1 h2
      rfl
  refine ⟨sim1, h, fun hf => ?_, key, ?_⟩
  · obtain ⟨qd1, q1, h1, -, rfl⟩ := integrate_springDamper_some E sim sim1 dt hf h
    obtain ⟨-, rfl⟩ := (DVec.addAssign_eq_some_iff _ _ _).1 h1
    exact ⟨rfl, key, rfl, rfl, rfl, rfl, rfl⟩
  · rw [key]
    exact zipWith_sub_zipWith_add _ _ hlen

/-- C20, witness: the spinning free-flying simulator in compliant mode; the joint velocity
goes from 1 to `1 + 2 * dt` and the joint position from 0 to `(1 + 2 * dt) * dt`. -/
theorem integrate_semi_implicit_euler_witness :
    JointSizesAgree (spinningSim (CMath.mk Real.sqrt Real.sin Real.cos) true) ∧
    ∃ sim1, DynamicsSimulator.integrate (freeFlight (CMath.mk Real.sqrt Real.sin Real.cos))
        (spinningSim (CMath.mk Real.sqrt Real.sin Real.cos) true) (1 / 1000) = some sim1 ∧
      sim1._state.qd = [1 + 2 * (1 / 1000)] ∧
      sim1._state.q = [0 + (1 + 2 * (1 / 1000)) * (1 / 1000)] := by
  refine ⟨⟨rfl, rfl⟩, ?_⟩
  obtain ⟨sim1, h, h1, -, -⟩ := integrate_semi_implicit_euler
    (freeFlight (CMath.mk Real.sqrt Real.sin Real.cos))
    (spinningSim (CMath.mk Real.sqrt Real.sin Real.cos) true) (1 / 1000)
    (Or.inl rfl) ⟨rfl, rfl⟩
  obtain ⟨hqd, hq, -⟩ := h1 rfl
  refine ⟨sim1, h, hqd, ?_⟩
  rw [hq, hqd]
  rfl

/-! ## Control parameter requests over shared memory -/

theorem u64_sub_succ (r : Nat) (h : r + 1 < 2 ^ 64) : u64_sub (r + 1) r = 1 := by
  unfold u64_sub
  omega

theorem lookup_assign_same {P : Type} (name : String) (p q : P) :
    ∀ l : List (String × P), List.lookup name l = some p →
      List.lookup name (l.map fun e => if e.1 = name then (e.1, q) else e) = some q := by
  intro l
  induction l with
  | nil => intro h; simp [List.lookup] at h
  | cons e rest ih =>
    obtain ⟨k, v⟩ := e
    intro h
    by_cases hk : k = name
    · subst hk
      rw [List.map_cons, if_pos rfl, List.lookup_cons, beq_self_eq_true]
    · have hne : (name == k) = false := by
        simp only [beq_eq_false_iff_ne]
        exact fun h' => hk h'.symm
      rw [List.lookup_cons, hne] at h
      rw [List.map_cons, if_neg hk, List.lookup_cons, hne]
      exact ih h

theorem lookup_assign_other {P : Type} (name other : String) (q : P) (hne : other ≠ name) :
    ∀ l : List (String × P),
      List.lookup other (l.map fun e => if e.1 = name then (e.1, q) else e) =
        List.lookup other l := by
  intro l
  induction l with
  | nil => rfl
  | cons e rest ih =>
    obtain ⟨k, v⟩ := e
    by_cases hk : k = name
    · subst hk
      have hne2 : (other == k) = false := by
        simp only [beq_eq_false_iff_ne]
        exact hne
      rw [List.map_cons, if_pos rfl, List.lookup_cons, hne2, List.lookup_cons, hne2]
      exact ih
    · rw [List.map_cons, if_neg hk, List.lookup_cons, List.lookup_cons, ih]

theorem handleControlParameters_stale {P V : Type} (ops : ControlParameterOps P V)
    (b : SimulationBridge P V) (h : b.request.requestNumber ≤ b.response.requestNumber) :
    SimulationBridge.handleControlParameters ops b = (b, Outcome.returned) := by
  unfold SimulationBridge.handleControlParameters
  simp only [h, if_true]

theorem handleControlParameters_set_eq {P V : Type} (ops : ControlParameterOps P V)
    (b : SimulationBridge P V) (param : P)
    (hnum : b.request.requestNumber = b.response.requestNumber + 1)
    (hu64 : b.request.requestNumber < 2 ^ 64)
    (hset : b.request.requestKind = ControlParameterRequestKind.SET_PARAM_BY_NAME)
    (hreg : b._robotParams.collection.lookup b.request.name = some param)
    (hkind : ops._kind param = b.request.parameterKind) :
    SimulationBridge.handleControlParameters ops b =
      (((b.withResponse
          { b.response with nParameters := b._robotParams.collection._map.length }).withParameter
          b.request.name (ops.set param b.request.value b.request.parameterKind)).withResponse
          { name := b.request.name
            requestNumber := b.request.requestNumber
            nParameters := b._robotParams.collection._map.length
            value := b.request.value
            parameterKind := b.request.parameterKind
            requestKind := b.request.requestKind }, Outcome.returned) := by
  have hnot : ¬ b.request.requestNumber ≤ b.response.requestNumber := by omega
  have hone : u64_sub b.request.requestNumber b.response.requestNumber = 1 := by
    rw [hnum]
    exact u64_sub_succ _ (hnum ▸ hu64)
  unfold SimulationBridge.handleControlParameters
  simp only [hnot, if_false, hone, ne_eq, not_true_eq_false, hset, hreg, hkind]

theorem handleControlParameters_mismatch_eq {P V : Type} (ops : ControlParameterOps P V)
    (b : SimulationBridge P V) (param : P)
    (hnum : b.request.requestNumber = b.response.requestNumber + 1)
    (hu64 : b.request.requestNumber < 2 ^ 64)
    (hreg : b._robotParams.collection.lookup b.request.name = some param)
    (hkind : ops._kind param ≠ b.request.parameterKind) :
    SimulationBridge.handleControlParameters ops b =
      (b.withResponse
        { b.response with nParameters := b._robotParams.collection._map.length },
        Outcome.type_mismatch) := by
  have hnot : ¬ b.request.requestNumber ≤ b.response.requestNumber := by omega
  have hone : u64_sub b.request.requestNumber b.response.requestNumber = 1 := by
    rw [hnum]
    exact u64_sub_succ _ (hnum ▸ hu64)
  unfold SimulationBridge.handleControlParameters
  simp only [hnot, if_false, hone, ne_eq, not_true_eq_false, hreg, hkind, not_false_eq_true,
    if_true]
  cases b.request.requestKind <;> rfl

/-- C12: for a SET_PARAM_BY_NAME request whose number is exactly one more than the number of
the last response, whose name is a registered parameter and whose kind is the registered kind,
`handleControlParameters` returns normally, the named parameter has become the result of
`set(request.value, request.parameterKind)` on it while every other parameter and the request
are as before, and the response is filled so that `response.isResponseTo(request)` holds (same
request number, request kind and name) with `response.value` equal to the requested value. -/
theorem handleControlParameters_set_acknowledges {P V : Type} (ops : ControlParameterOps P V)
    (b : SimulationBridge P V) (param : P)
    (hnum : b.request.requestNumber = b.response.requestNumber + 1)
    (hu64 : b.request.requestNumber < 2 ^ 64)
    (hset : b.request.requestKind = ControlParameterRequestKind.SET_PARAM_BY_NAME)
    (hreg : b._robotParams.collection.lookup b.request.name = some param)
    (hkind : ops._kind param = b.request.parameterKind) :
    (SimulationBridge.handleControlParameters ops b).2 = Outcome.returned ∧
    (SimulationBridge.handleControlParameters ops b).1._robotParams.collection.lookup
        b.request.name = some (ops.set param b.request.value b.request.parameterKind) ∧
    (∀ other, other ≠ b.request.name →
      (SimulationBridge.handleControlParameters ops b).1._robotParams.collection.lookup other =
        b._robotParams.collection.lookup other) ∧
    (SimulationBridge.handleControlParameters ops b).1.request = b.request ∧
    (SimulationBridge.handleControlParameters ops b).1.response.isResponseTo b.request = true ∧
    (SimulationBridge.handleControlParameters ops b).1.response.requestNumber =
      b.request.requestNumber ∧
    (SimulationBridge.handleControlParameters ops b).1.response.requestKind =
      b.request.requestKind ∧
    (SimulationBridge.handleControlParameters ops b).1.response.name = b.request.name ∧
    (SimulationBridge.handleControlParameters ops b).1.response.value = b.request.value := by
  rw [handleControlParameters_set_eq ops b param hnum hu64 hset hreg hkind]
  refine ⟨rfl, ?_, ?_, rfl, ?_, rfl, rfl, rfl, rfl⟩
  · exact lookup_assign_same _ _ _ _ hreg
  · intro other hne
    exact lookup_assign_other _ _ _ hne _
  · simp [ControlParameterResponse.isResponseTo, SimulationBridge.response,
      SimulationBridge.withResponse]

/-- Witness for C12: request 6 sets `kp`, of kind 0, to 42 after request 5 was acknowledged. -/
theorem handleControlParameters_set_acknowledges_witness :
    (SimulationBridge.handleControlParameters plainParameter
        (bridgeWith (setRequest "kp" 6 0 42) 5)).2 = Outcome.returned ∧
    (SimulationBridge.handleControlParameters plainParameter
        (bridgeWith (setRequest "kp" 6 0 42) 5)).1._robotParams.collection.lookup "kp" =
      some (0, 42) ∧
    (SimulationBridge.handleControlParameters plainParameter
        (bridgeWith (setRequest "kp" 6 0 42) 5)).1.response.isResponseTo
      (setRequest "kp" 6 0 42) = true ∧
    (SimulationBridge.handleControlParameters plainParameter
        (bridgeWith (setRequest "kp" 6 0 42) 5)).1.response.value = 42 :=
  have h := handleControlParameters_set_acknowledges plainParameter
    (bridgeWith (setRequest "kp" 6 0 42) 5) (0, 10) rfl (by decide) rfl rfl rfl
  ⟨h.1, h.2.1, h.2.2.2.2.1, h.2.2.2.2.2.2.2.2⟩

/-- Counterexample for C13: request 5 for `kp` carries kind 1 while `kp` is registered with
kind 0, and request 5 has been acknowledged already: the call returns without an error. -/
theorem stale_mismatch_returns :
    (bridgeWith (setRequest "kp" 5 1 42) 5)._robotParams.collection.lookup "kp" =
      some (0, 10) ∧
    plainParameter._kind (0, 10) ≠ (setRequest "kp" 5 1 42).parameterKind ∧
    (SimulationBridge.handleControlParameters plainParameter
        (bridgeWith (setRequest "kp" 5 1 42) 5)).2 = Outcome.returned := by
  refine ⟨rfl, by decide, rfl⟩

/-- C13 (amended): when the request number is exactly one more than the number of the last
response and the kind carried by a SET or GET request differs from the registered kind of the
named parameter, `handleControlParameters` throws the type mismatch error, every parameter
keeps its value, the request is as before, and of the response only `nParameters` is written:
its request number is not advanced. -/
theorem handleControlParameters_type_mismatch {P V : Type} (ops : ControlParameterOps P V)
    (b : SimulationBridge P V) (param : P)
    (hnum : b.request.requestNumber = b.response.requestNumber + 1)
    (hu64 : b.request.requestNumber < 2 ^ 64)
    (hreg : b._robotParams.collection.lookup b.request.name = some param)
    (hkind : ops._kind param ≠ b.request.parameterKind) :
    (SimulationBridge.handleControlParameters ops b).2 = Outcome.type_mismatch ∧
    (SimulationBridge.handleControlParameters ops b).1._robotParams = b._robotParams ∧
    (SimulationBridge.handleControlParameters ops b).1.request = b.request ∧
    (SimulationBridge.handleControlParameters ops b).1.response =
      { b.response with nParameters := b._robotParams.collection._map.length } ∧
    (SimulationBridge.handleControlParameters ops b).1.response.requestNumber =
      b.response.requestNumber ∧
    ¬ (SimulationBridge.handleControlParameters ops b).1.response.isResponseTo b.request
        = true := by
  rw [handleControlParameters_mismatch_eq ops b param hnum hu64 hreg hkind]
  refine ⟨rfl, rfl, rfl, rfl, rfl, ?_⟩
  have hne : b.response.requestNumber ≠ b.request.requestNumber := by omega
  simp [ControlParameterResponse.isResponseTo, SimulationBridge.response,
    SimulationBridge.withResponse] at hne ⊢
  intro h
  exact absurd h hne

/-- Witness for C13: request 6 for `kp` carries kind 1 while `kp` is registered with kind 0,
and request 5 was the last one acknowledged. -/
theorem handleControlParameters_type_mismatch_witness :
    (SimulationBridge.handleControlParameters plainParameter
        (bridgeWith (setRequest "kp" 6 1 42) 5)).2 = Outcome.type_mismatch ∧
    (SimulationBridge.handleControlParameters plainParameter
        (bridgeWith (setRequest "kp" 6 1 42) 5)).1._robotParams.collection.lookup "kp" =
      some (0, 10) ∧
    (SimulationBridge.handleControlParameters plainParameter
        (bridgeWith (setRequest "kp" 6 1 42) 5)).1.response.requestNumber = 5 :=
  have h := handleControlParameters_type_mismatch plainParameter
    (bridgeWith (setRequest "kp" 6 1 42) 5) (0, 10) rfl (by decide) rfl (by decide)
  ⟨h.1, by rw [h.2.1]; rfl, h.2.2.2.2.1⟩

theorem handleControlParameters_returned_stale {P V : Type} (ops : ControlParameterOps P V)
    (b : SimulationBridge P V)
    (h : (SimulationBridge.handleControlParameters ops b).2 = Outcome.returned) :
    (SimulationBridge.handleControlParameters ops b).1.request.requestNumber ≤
      (SimulationBridge.handleControlParameters ops b).1.response.requestNumber := by
  unfold SimulationBridge.handleControlParameters at h ⊢
  by_cases hs : b.request.requestNumber ≤ b.response.requestNumber
  · simp only [hs, if_true]
  · by_cases hone : u64_sub b.request.requestNumber b.response.requestNumber = 1
    · simp only [hs, if_false, hone, ne_eq, not_true_eq_false] at h ⊢
      cases hk : b.request.requestKind <;> simp only [hk] at h ⊢ <;>
        cases hl : b._robotParams.collection.lookup b.request.name <;>
        simp only [hl] at h ⊢
      all_goals first
        | exact absurd h (by decide)
        | skip
      all_goals
        rename_i param
        by_cases hkind : ops._kind param = b.request.parameterKind
        · simp only [hkind, not_true_eq_false, if_false]
          exact le_refl _
        · simp only [hkind, not_false_eq_true, if_true] at h
          exact absurd h (by decide)
    · simp only [hs, if_false, ne_eq, hone, not_false_eq_true, if_true] at h
      exact absurd h (by decide)

/-- C14: when `request.requestNumber <= response.requestNumber`, `handleControlParameters`
returns with the bridge as it was: no parameter and no field of the response changes. So when
a call has handled a request and returned, a second call on the resulting bridge returns with
that bridge unchanged. -/
theorem handleControlParameters_idempotent {P V : Type} (ops : ControlParameterOps P V)
    (b : SimulationBridge P V) :
    (b.request.requestNumber ≤ b.response.requestNumber →
      SimulationBridge.handleControlParameters ops b = (b, Outcome.returned)) ∧
    ((SimulationBridge.handleControlParameters ops b).2 = Outcome.returned →
      SimulationBridge.handleControlParameters ops
          (SimulationBridge.handleControlParameters ops b).1 =
        ((SimulationBridge.handleControlParameters ops b).1, Outcome.returned)) :=
  ⟨handleControlParameters_stale ops b, fun h =>
    handleControlParameters_stale ops _ (handleControlParameters_returned_stale ops b h)⟩

/-- Witness for C14: request 6 sets `kp` to 42 after request 5; handling it again changes
nothing, and `kp` stays 42. -/
theorem handleControlParameters_idempotent_witness :
    (SimulationBridge.handleControlParameters plainParameter
        (bridgeWith (setRequest "kp" 6 0 42) 5)).2 = Outcome.returned ∧
    SimulationBridge.handleControlParameters plainParameter
        (SimulationBridge.handleControlParameters plainParameter
          (bridgeWith (setRequest "kp" 6 0 42) 5)).1 =
      ((SimulationBridge.handleControlParameters plainParameter
          (bridgeWith (setRequest "kp" 6 0 42) 5)).1, Outcome.returned) ∧
    (SimulationBridge.handleControlParameters plainParameter
        (SimulationBridge.handleControlParameters plainParameter
          (bridgeWith (setRequest "kp" 6 0 42) 5)).1).1._robotParams.collection.lookup "kp" =
      some (0, 42) :=
  ⟨rfl, (handleControlParameters_idempotent plainParameter
    (bridgeWith (setRequest "kp" 6 0 42) 5)).2 rfl, rfl⟩

/-- C18: at the request `SET_PARAM_BY_NAME kp := 42` with request number 3, received after
request 5 was acknowledged, `HardwareBridge::handleControlParameter` returns normally, has set
`kp` from 10 to 42 and has replaced the acknowledged request number 5 by 3. -/
theorem hardware_stale_request_is_applied :
    (setRequestLcm "kp" 3 0 42).requestNumber ≤
      (hardwareWith 5)._parameter_response_lcmt.requestNumber ∧
    (hardwareWith 5)._robotParams.collection.lookup "kp" = some (0, 10) ∧
    (HardwareBridge.handleControlParameter plainParameter id (hardwareWith 5)
      (setRequestLcm "kp" 3 0 42)).2 = Outcome.returned ∧
    (HardwareBridge.handleControlParameter plainParameter id (hardwareWith 5)
      (setRequestLcm "kp" 3 0 42)).1._robotParams.collection.lookup "kp" = some (0, 42) ∧
    (HardwareBridge.handleControlParameter plainParameter id (hardwareWith 5)
      (setRequestLcm "kp" 3 0 42)).1._parameter_response_lcmt.requestNumber = 3 := by
  refine ⟨by decide, rfl, rfl, rfl, rfl⟩

/-! ## The command line of the robot program -/

/-- C16: `main` prints the usage text and returns `EXIT_FAILURE`, without starting a driver,
exactly when the argument count is not 3, or the robot id starts with neither `3` nor `m`, or
the sim-or-robot argument starts with neither `s` nor `r`. Otherwise it prints no usage text,
`3` selects Cheetah 3 and `m` Mini Cheetah, and `s` selects simulated and `r` real. -/
theorem main_usage_exactly_on_bad_arguments (gMasterConfig : MasterConfig)
    (argv : List String) :
    ((main gMasterConfig argv).usagePrinted = 1 ↔ BadArguments argv) ∧
    ((main gMasterConfig argv).ending = MainEnd.returns EXIT_FAILURE ↔ BadArguments argv) ∧
    (¬ BadArguments argv →
      (main gMasterConfig argv).usagePrinted = 0 ∧
      ((main gMasterConfig argv).gMasterConfig._robot = RobotType.CHEETAH_3 ↔
        firstChar argv 1 = '3') ∧
      ((main gMasterConfig argv).gMasterConfig._robot = RobotType.MINI_CHEETAH ↔
        firstChar argv 1 = 'm') ∧
      ((main gMasterConfig argv).gMasterConfig.simulated = true ↔ firstChar argv 2 = 's') ∧
      ((main gMasterConfig argv).gMasterConfig.simulated = false ↔
        firstChar argv 2 = 'r')) := by
  unfold main BadArguments
  by_cases hlen : argv.length = 3
  · by_cases h3 : firstChar argv 1 = '3' <;> by_cases hm : firstChar argv 1 = 'm' <;>
      by_cases hs : firstChar argv 2 = 's' <;> by_cases hr : firstChar argv 2 = 'r' <;>
      simp_all
  · simp [hlen]

/-! ## The turn-taking of the robot and the simulator -/

theorem start_inTurn {V : Type} (m : SimulatorSyncronizedMessage V) :
    (Handshake.start m).InTurn := by
  refine ⟨List.chain'_singleton _, Or.inl ⟨rfl, rfl, rfl, rfl, rfl⟩⟩

theorem step_inTurn {V : Type} (h h1 : Handshake V) (who : Side) (hin : h.InTurn)
    (hstep : h.step who = some h1) : h1.InTurn := by
  obtain ⟨hchain, hcase⟩ := hin
  obtain ⟨message, robot, simulator, accesses⟩ := h
  obtain ⟨toMessage, r2s, s2r⟩ := message
  obtain ⟨r2s⟩ := r2s
  obtain ⟨s2r⟩ := s2r
  simp only at hchain hcase
  rcases hcase with ⟨hr, hs, h1c, h2c, hhead⟩ | ⟨hr, hs, h1c, h2c, hhead⟩ |
      ⟨hr, hs, h1c, h2c, hhead⟩ | ⟨hr, hs, h1c, h2c, hhead⟩ <;>
    subst hr hs h1c h2c <;> cases who <;>
    simp [Handshake.step, SimulatorSyncronizedMessage.waitForSimulator,
      SimulatorSyncronizedMessage.waitForRobot, SimulatorSyncronizedMessage.robotIsDone,
      SimulatorSyncronizedMessage.simulatorIsDone, SharedMemorySemaphore.decrement,
      SharedMemorySemaphore.increment] at hstep <;>
    subst hstep
  all_goals first
    | exact ⟨hchain, by simp [hhead]⟩
    | exact ⟨hchain.cons' (by rw [hhead]; intro y hy; cases hy; decide), by simp⟩

theorem run_inTurn {V : Type} (schedule : List Side) :
    ∀ h h1 : Handshake V, h.InTurn → h.run schedule = some h1 → h1.InTurn := by
  induction schedule with
  | nil =>
    intro h h1 hin hrun
    simp only [Handshake.run, Option.some.injEq] at hrun
    exact hrun ▸ hin
  | cons who rest ih =>
    intro h h1 hin hrun
    simp only [Handshake.run] at hrun
    cases hstep : h.step who with
    | none => rw [hstep] at hrun; simp at hrun
    | some h2 =>
      rw [hstep] at hrun
      exact ih h2 h1 (step_inTurn h h2 who hin hstep) hrun

theorem inTurn_exclusive {V : Type} (h : Handshake V) (hin : h.InTurn) :
    ¬ (h.hasAccess Side.robot = true ∧ h.hasAccess Side.simulator = true) := by
  obtain ⟨_, hcase⟩ := hin
  rcases hcase with ⟨hr, hs, _⟩ | ⟨hr, hs, _⟩ | ⟨hr, hs, _⟩ | ⟨hr, hs, _⟩ <;>
    simp [Handshake.hasAccess, hr, hs]

theorem inTurn_progress {V : Type} (h : Handshake V) (hin : h.InTurn) :
    ∃ who, (h.step who).isSome = true := by
  obtain ⟨_, hcase⟩ := hin
  rcases hcase with ⟨hr, hs, h1c, h2c, _⟩ | ⟨hr, hs, h1c, h2c, _⟩ | ⟨hr, hs, h1c, h2c, _⟩ |
      ⟨hr, hs, h1c, h2c, _⟩
  · exact ⟨Side.simulator, by simp [Handshake.step, hs]⟩
  · exact ⟨Side.robot, by
      simp [Handshake.step, hr, SimulatorSyncronizedMessage.waitForSimulator,
        SharedMemorySemaphore.decrement, h2c]⟩
  · exact ⟨Side.robot, by simp [Handshake.step, hr]⟩
  · exact ⟨Side.simulator, by
      simp [Handshake.step, hs, SimulatorSyncronizedMessage.waitForRobot,
        SharedMemorySemaphore.decrement, h1c]⟩

/-- C15: start with both semaphores initialised by `init()`, the robot looping through
`waitForSimulator()`, the controller and `robotIsDone()`, the simulator through simulating,
`simulatorIsDone()` and `waitForRobot()`, interleaved in any order. In every situation that
can be reached the robot and the simulator do not both have access to the message, the
accesses granted so far alternate between the two sides, and one of the sides can go on.
`waitForSimulator()` takes from `simToRobotSemaphore` exactly what `simulatorIsDone()` adds to
it, `waitForRobot()` takes from `robotToSimSemaphore` exactly what `robotIsDone()` adds to it,
and each of the four leaves the other semaphore as it is. -/
theorem handshake_exclusive_and_alternating {V : Type} (m0 : SimulatorSyncronizedMessage V)
    (schedule : List Side) (h : Handshake V)
    (hrun : (Handshake.start m0).run schedule = some h) :
    ¬ (h.hasAccess Side.robot = true ∧ h.hasAccess Side.simulator = true) ∧
    List.Chain' (fun a b => a ≠ b) h.accesses ∧
    (∃ who, (h.step who).isSome = true) ∧
    (∀ m : SimulatorSyncronizedMessage V,
      m.simulatorIsDone.waitForSimulator = some m ∧
      m.robotIsDone.waitForRobot = some m ∧
      m.simulatorIsDone.simToRobotSemaphore.count = m.simToRobotSemaphore.count + 1 ∧
      m.simulatorIsDone.robotToSimSemaphore = m.robotToSimSemaphore ∧
      m.robotIsDone.robotToSimSemaphore.count = m.robotToSimSemaphore.count + 1 ∧
      m.robotIsDone.simToRobotSemaphore = m.simToRobotSemaphore ∧
      (∀ m1, m.waitForSimulator = some m1 →
        m1.simToRobotSemaphore.count + 1 = m.simToRobotSemaphore.count ∧
        m1.robotToSimSemaphore = m.robotToSimSemaphore) ∧
      (∀ m1, m.waitForRobot = some m1 →
        m1.robotToSimSemaphore.count + 1 = m.robotToSimSemaphore.count ∧
        m1.simToRobotSemaphore = m.simToRobotSemaphore)) := by
  have hin : h.InTurn := run_inTurn schedule _ h (start_inTurn m0) hrun
  refine ⟨inTurn_exclusive h hin, hin.1, inTurn_progress h hin, ?_⟩
  intro m
  obtain ⟨toMessage, ⟨r2s⟩, ⟨s2r⟩⟩ := m
  refine ⟨?_, ?_, rfl, rfl, rfl, rfl, ?_, ?_⟩
  · simp [SimulatorSyncronizedMessage.waitForSimulator,
      SimulatorSyncronizedMessage.simulatorIsDone, SharedMemorySemaphore.decrement,
      SharedMemorySemaphore.increment]
  · simp [SimulatorSyncronizedMessage.waitForRobot,
      SimulatorSyncronizedMessage.robotIsDone, SharedMemorySemaphore.decrement,
      SharedMemorySemaphore.increment]
  · intro m1 hm1
    simp only [SimulatorSyncronizedMessage.waitForSimulator, SharedMemorySemaphore.decrement,
      Option.map_eq_some'] at hm1
    obtain ⟨sem, hsem, rfl⟩ := hm1
    split_ifs at hsem with hpos
    simp only [Option.some.injEq] at hsem
    subst hsem
    exact ⟨by simp only; omega, rfl⟩
  · intro m1 hm1
    simp only [SimulatorSyncronizedMessage.waitForRobot, SharedMemorySemaphore.decrement,
      Option.map_eq_some'] at hm1
    obtain ⟨sem, hsem, rfl⟩ := hm1
    split_ifs at hsem with hpos
    simp only [Option.some.injEq] at hsem
    subst hsem
    exact ⟨by simp only; omega, rfl⟩

/-- Witness for C15: from a message with stale counts, the simulator finishes its step and
the robot is woken: the robot alone has access, after the simulator. -/
theorem handshake_exclusive_and_alternating_witness :
    ∃ h, (Handshake.start staleMessage).run [Side.simulator, Side.robot] = some h ∧
      h.hasAccess Side.robot = true ∧ h.hasAccess Side.simulator = false ∧
      h.accesses = [Side.robot, Side.simulator] ∧
      List.Chain' (fun a b => a ≠ b) h.accesses :=
  ⟨_, rfl, rfl, rfl, rfl,
    (handshake_exclusive_and_alternating staleMessage [Side.simulator, Side.robot] _ rfl).2.1⟩

/-! ## The trot test (`WBICTrotTest.cpp`) -/

theorem nextPhase_eq_some {α F : Type} [Field α] (c : WBICTrotPhase) (l : LinkID)
    (t : WBICTrotTest α F) (phase : Int) (h : phase < INT_MAX) :
    ∃ t1, t._NextPhase c l phase =
      some (t1, if phase + 1 = c.NUM_TROT_PHASE then c.full_contact_1 else phase + 1) := by
  unfold WBICTrotTest._NextPhase
  rw [if_neg (not_le.mpr h)]
  exact ⟨_, rfl⟩

theorem advance_phase {α F : Type} [Field α] (c : WBICTrotPhase) (l : LinkID)
    (hfull : c.full_contact_1 = 1) (hint : c.NUM_TROT_PHASE ≤ INT_MAX) :
    ∀ (k : Nat) (t : WBICTrotTest α F) (q : Int), 1 ≤ q → q < c.NUM_TROT_PHASE →
      ∃ tk, WBICTrotTest.advance c l k (t, q) =
        some (tk, 1 + (q - 1 + (k : Int)) % (c.NUM_TROT_PHASE - 1)) := by
  intro k
  induction k with
  | zero =>
    intro t q h1 h2
    refine ⟨t, ?_⟩
    have e : (q - 1 + ((0 : Nat) : Int)) % (c.NUM_TROT_PHASE - 1) = q - 1 := by
      rw [Nat.cast_zero, add_zero]
      exact Int.emod_eq_of_lt (by omega) (by omega)
    rw [e]
    simp [WBICTrotTest.advance]
  | succ k ih =>
    intro t q h1 h2
    obtain ⟨t1, ht1⟩ := nextPhase_eq_some c l t q (by omega)
    by_cases hq : q + 1 = c.NUM_TROT_PHASE
    · rw [if_pos hq, hfull] at ht1
      obtain ⟨tk, htk⟩ := ih t1 1 le_rfl (by omega)
      refine ⟨tk, ?_⟩
      simp only [WBICTrotTest.advance, ht1, Option.some_bind, htk]
      have e : q - 1 + ((k + 1 : Nat) : Int) = (1 - 1 + (k : Int)) + (c.NUM_TROT_PHASE - 1) := by
        push_cast
        omega
      rw [e, Int.add_emod_self]
    · rw [if_neg hq] at ht1
      obtain ⟨tk, htk⟩ := ih t1 (q + 1) (by omega) (by omega)
      refine ⟨tk, ?_⟩
      simp only [WBICTrotTest.advance, ht1, Option.some_bind, htk]
      have e : q - 1 + ((k + 1 : Nat) : Int) = q + 1 - 1 + (k : Int) := by
        push_cast
        omega
      rw [e]

/-- C24: with `lift_up` = 0 and `full_contact_1` = 1, for every phase `p` with
`0 <= p < NUM_TROT_PHASE` the call `_NextPhase(p)` returns `p + 1` when
`p + 1 < NUM_TROT_PHASE` and `full_contact_1` otherwise. The returned phase is a phase below
`NUM_TROT_PHASE` and is not `lift_up`, and after `k` further calls the phase is
`1 + (next - 1 + k) mod (NUM_TROT_PHASE - 1)`: the calls cycle for ever through the phases
after `lift_up`. -/
theorem nextPhase_cycles_after_lift_up {α F : Type} [Field α] (c : WBICTrotPhase) (l : LinkID)
    (t : WBICTrotTest α F) (p : Int)
    (hlift : c.lift_up = 0) (hfull : c.full_contact_1 = 1)
    (hnum : 1 < c.NUM_TROT_PHASE) (hint : c.NUM_TROT_PHASE ≤ INT_MAX)
    (h0 : 0 ≤ p) (hp : p < c.NUM_TROT_PHASE) :
    ∃ t1 next, t._NextPhase c l p = some (t1, next) ∧
      next = (if p + 1 < c.NUM_TROT_PHASE then p + 1 else c.full_contact_1) ∧
      0 ≤ next ∧ next < c.NUM_TROT_PHASE ∧ next ≠ c.lift_up ∧
      ∀ k : Nat, ∃ tk, WBICTrotTest.advance c l k (t1, next) =
        some (tk, 1 + (next - 1 + (k : Int)) % (c.NUM_TROT_PHASE - 1)) ∧
        1 ≤ 1 + (next - 1 + (k : Int)) % (c.NUM_TROT_PHASE - 1) ∧
        1 + (next - 1 + (k : Int)) % (c.NUM_TROT_PHASE - 1) < c.NUM_TROT_PHASE := by
  obtain ⟨t1, ht1⟩ := nextPhase_eq_some c l t p (by omega)
  have hnext : (if p + 1 = c.NUM_TROT_PHASE then c.full_contact_1 else p + 1) =
      (if p + 1 < c.NUM_TROT_PHASE then p + 1 else c.full_contact_1) := by
    by_cases hq : p + 1 = c.NUM_TROT_PHASE
    · rw [if_pos hq, if_neg (by omega)]
    · rw [if_neg hq, if_pos (by omega)]
  have h1 : 1 ≤ (if p + 1 < c.NUM_TROT_PHASE then p + 1 else c.full_contact_1) := by
    split_ifs <;> omega
  have h2 : (if p + 1 < c.NUM_TROT_PHASE then p + 1 else c.full_contact_1) <
      c.NUM_TROT_PHASE := by
    split_ifs <;> omega
  rw [hnext] at ht1
  refine ⟨t1, _, ht1, rfl, by omega, h2, by omega, fun k => ?_⟩
  obtain ⟨tk, htk⟩ := advance_phase c l hfull hint k t1 _ h1 h2
  refine ⟨tk, htk, ?_, ?_⟩
  · have := Int.emod_nonneg ((if p + 1 < c.NUM_TROT_PHASE then p + 1 else c.full_contact_1)
        - 1 + (k : Int)) (show c.NUM_TROT_PHASE - 1 ≠ 0 by omega)
    omega
  · have := Int.emod_lt_of_pos ((if p + 1 < c.NUM_TROT_PHASE then p + 1 else c.full_contact_1)
        - 1 + (k : Int)) (show 0 < c.NUM_TROT_PHASE - 1 by omega)
    omega

/-- Witness for C24: from the last phase, 8, the next phase is `full_contact_1`, and eight
further calls lead back to it. -/
theorem nextPhase_cycles_after_lift_up_witness :
    ∃ t1, trotTest._NextPhase trotPhases footLinks 8 = some (t1, 1) ∧
      ∃ t8, WBICTrotTest.advance trotPhases footLinks 8 (t1, 1) = some (t8, 1) := by
  obtain ⟨t1, next, h, hn, -, -, -, hk⟩ :=
    nextPhase_cycles_after_lift_up trotPhases footLinks trotTest 8 rfl rfl (by decide)
      (by decide) (by decide) (by decide)
  have e : next = 1 := by rw [hn]; decide
  subst e
  obtain ⟨t8, h8, -⟩ := hk 8
  exact ⟨t1, h, t8, h8⟩

theorem update_zero_two {α : Type} [Field α] (h : α) :
    Function.update (Vec3.Zero : Vec3 α) 2 h = ![0, 0, h] := by
  funext i
  fin_cases i <;> simp [Function.update, Vec3.Zero]

/-- C25: with distinct constants for the two swing-start phases, a call of `_NextPhase` that
does not overflow returns, and when it returns `flhr_swing_start_trans` the contact points of
the state provider are (FR, HL) with `_num_contact` = 2, when it returns
`frhl_swing_start_trans` they are (FL, HR) with `_num_contact` = 2; in both cases the
commanded body position is (0, 0, target body height), the local-frame global position is
zero and the contact entries from the third on are as before. For every other returned phase
the whole test, state provider included, is unchanged. -/
theorem nextPhase_sets_stance_pair {α F : Type} [Field α] (c : WBICTrotPhase) (l : LinkID)
    (t : WBICTrotTest α F) (phase : Int)
    (hne : c.flhr_swing_start_trans ≠ c.frhl_swing_start_trans)
    (hphase : phase < INT_MAX) :
    ∃ t1 next, t._NextPhase c l phase = some (t1, next) ∧
      (next = c.flhr_swing_start_trans →
        t1._sp._contact_pt 0 = l.FR ∧ t1._sp._contact_pt 1 = l.HL ∧
        t1._sp._num_contact = 2 ∧
        t1._body_pos = ![0, 0, t._target_body_height] ∧
        t1._sp._local_frame_global_pos = ![0, 0, 0] ∧
        ∀ i, 2 ≤ i → t1._sp._contact_pt i = t._sp._contact_pt i) ∧
      (next = c.frhl_swing_start_trans →
        t1._sp._contact_pt 0 = l.FL ∧ t1._sp._contact_pt 1 = l.HR ∧
        t1._sp._num_contact = 2 ∧
        t1._body_pos = ![0, 0, t._target_body_height] ∧
        t1._sp._local_frame_global_pos = ![0, 0, 0] ∧
        ∀ i, 2 ≤ i → t1._sp._contact_pt i = t._sp._contact_pt i) ∧
      (next ≠ c.flhr_swing_start_trans → next ≠ c.frhl_swing_start_trans → t1 = t) := by
  have hz : (Vec3.Zero : Vec3 α) = ![0, 0, 0] := by
    funext i
    fin_cases i <;> rfl
  have hupd : ∀ (f : Nat → Nat) (a b i : Nat), 2 ≤ i →
      Function.update (Function.update f 0 a) 1 b i = f i := by
    intro f a b i hi
    rw [Function.update_noteq (by omega), Function.update_noteq (by omega)]
  unfold WBICTrotTest._NextPhase
  rw [if_neg (not_le.mpr hphase)]
  generalize (if phase + 1 = c.NUM_TROT_PHASE then c.full_contact_1 else phase + 1) = n
  refine ⟨_, n, rfl, ?_, ?_, ?_⟩
  · intro h
    subst h
    rw [if_pos (rfl : c.flhr_swing_start_trans = c.flhr_swing_start_trans), if_neg hne]
    refine ⟨by simp, by simp, rfl, update_zero_two _, hz, fun i hi => hupd _ _ _ i hi⟩
  · intro h
    subst h
    rw [if_neg hne.symm, if_pos (rfl : c.frhl_swing_start_trans = c.frhl_swing_start_trans)]
    refine ⟨by simp, by simp, rfl, update_zero_two _, hz, fun i hi => hupd _ _ _ i hi⟩
  · intro h1 h2
    simp only [h1, h2, if_false]

/-- Witness for C25: from `full_contact_2` the next phase is `flhr_swing_start_trans`, and
the stance pair becomes (FR, HL). -/
theorem nextPhase_sets_stance_pair_witness :
    ∃ t1, trotTest._NextPhase trotPhases footLinks 5 = some (t1, 6) ∧
      t1._sp._contact_pt 0 = 9 ∧ t1._sp._contact_pt 1 = 15 ∧ t1._sp._num_contact = 2 ∧
      t1._body_pos = ![0, 0, 3 / 10] := by
  obtain ⟨t1, next, h, hflhr, -, -⟩ :=
    nextPhase_sets_stance_pair trotPhases footLinks trotTest 5 (by decide) (by decide)
  have e : next = 6 := by
    have h5 := h
    unfold WBICTrotTest._NextPhase at h5
    rw [if_neg (by decide)] at h5
    simp only [Option.some.injEq, Prod.mk.injEq] at h5
    rw [← h5.2]
    decide
  subst e
  obtain ⟨a, b, n, bp, -, -⟩ := hflhr rfl
  exact ⟨t1, h, a, b, n, bp⟩

theorem truncate_same {α ι : Type} [LinearOrderedField α] [DecidableEq ι] (v : ι → α) (i : ι) :
    (if |v i| < 1 / 10 then Function.update v i 0 else v) i =
      if |v i| < 1 / 10 then 0 else v i := by
  split_ifs <;> simp

theorem truncate_other {α ι : Type} [LinearOrderedField α] [DecidableEq ι] (v : ι → α)
    (i j : ι) (h : j ≠ i) :
    (if |v i| < 1 / 10 then Function.update v i 0 else v) j = v j := by
  split_ifs
  · exact Function.update_noteq h _ _
  · rfl

theorem truncated_zero_or_large {α : Type} [LinearOrderedField α] (x : α) :
    ((if |x| < 1 / 10 then 0 else x) = 0 ∨ 1 / 10 ≤ |if |x| < 1 / 10 then 0 else x|) ∧
    (1 / 10 ≤ |x| → (if |x| < 1 / 10 then 0 else x) = x) ∧
    (|x| < 1 / 10 → (if |x| < 1 / 10 then 0 else x) = 0) := by
  by_cases h : |x| < 1 / 10
  · rw [if_pos h]
    exact ⟨Or.inl rfl, fun h2 => absurd h (not_lt.mpr h2), fun _ => rfl⟩
  · rw [if_neg h]
    exact ⟨Or.inr (not_lt.mp h), fun _ => rfl, fun h2 => absurd h2 h⟩

/-- C23: when the test holds its two input filters, `_UpdateTestOneStep` returns, and
afterwards the commanded yaw rate `_body_ang_vel[2]` and the direction commands
`_dir_command[0]` and `_dir_command[1]` are each 0 or of magnitude at least 0.1. A yaw command
`_ori_command[2]` or direction command of magnitude at least 0.1 is passed through unchanged,
and one of smaller magnitude becomes 0. -/
theorem updateTestOneStep_truncates_commands {α F : Type} [LinearOrderedField α]
    (E : TrotCollaborators α F) (t : WBICTrotTest α F)
    (hf : 2 ≤ t._filtered_input_vel.length) :
    ∃ t1, t._UpdateTestOneStep E = some t1 ∧
      (t1._body_ang_vel 2 = 0 ∨ 1 / 10 ≤ |t1._body_ang_vel 2|) ∧
      (t1._sp._dir_command 0 = 0 ∨ 1 / 10 ≤ |t1._sp._dir_command 0|) ∧
      (t1._sp._dir_command 1 = 0 ∨ 1 / 10 ≤ |t1._sp._dir_command 1|) ∧
      (1 / 10 ≤ |t._sp._ori_command 2| → t1._body_ang_vel 2 = t._sp._ori_command 2) ∧
      (1 / 10 ≤ |t._sp._dir_command 0| → t1._sp._dir_command 0 = t._sp._dir_command 0) ∧
      (1 / 10 ≤ |t._sp._dir_command 1| → t1._sp._dir_command 1 = t._sp._dir_command 1) ∧
      (|t._sp._ori_command 2| < 1 / 10 → t1._body_ang_vel 2 = 0) ∧
      (|t._sp._dir_command 0| < 1 / 10 → t1._sp._dir_command 0 = 0) ∧
      (|t._sp._dir_command 1| < 1 / 10 → t1._sp._dir_command 1 = 0) := by
  obtain ⟨f0, f1, rest, hfl⟩ : ∃ f0 f1 rest, t._filtered_input_vel = f0 :: f1 :: rest := by
    match hm : t._filtered_input_vel, hf with
    | f0 :: f1 :: rest, _ => exact ⟨f0, f1, rest, rfl⟩
    | [_], h => simp at h
    | [], h => simp at h
  have hang : (if |Function.update t._body_ang_vel 2 (t._sp._ori_command 2) 2| < 1 / 10 then
        Function.update (Function.update t._body_ang_vel 2 (t._sp._ori_command 2)) 2 0
      else Function.update t._body_ang_vel 2 (t._sp._ori_command 2)) 2 =
      if |t._sp._ori_command 2| < 1 / 10 then 0 else t._sp._ori_command 2 := by
    rw [truncate_same, Function.update_same]
  have hd0 : (if |(if |t._sp._dir_command 0| < 1 / 10 then
          Function.update t._sp._dir_command 0 0 else t._sp._dir_command) 1| < 1 / 10 then
        Function.update (if |t._sp._dir_command 0| < 1 / 10 then
          Function.update t._sp._dir_command 0 0 else t._sp._dir_command) 1 0
      else (if |t._sp._dir_command 0| < 1 / 10 then
          Function.update t._sp._dir_command 0 0 else t._sp._dir_command)) 0 =
      if |t._sp._dir_command 0| < 1 / 10 then 0 else t._sp._dir_command 0 := by
    rw [truncate_other _ 1 0 (by decide), truncate_same]
  have hd1 : (if |(if |t._sp._dir_command 0| < 1 / 10 then
          Function.update t._sp._dir_command 0 0 else t._sp._dir_command) 1| < 1 / 10 then
        Function.update (if |t._sp._dir_command 0| < 1 / 10 then
          Function.update t._sp._dir_command 0 0 else t._sp._dir_command) 1 0
      else (if |t._sp._dir_command 0| < 1 / 10 then
          Function.update t._sp._dir_command 0 0 else t._sp._dir_command)) 1 =
      if |t._sp._dir_command 1| < 1 / 10 then 0 else t._sp._dir_command 1 := by
    rw [truncate_same, truncate_other _ 0 1 (by decide)]
  unfold WBICTrotTest._UpdateTestOneStep
  simp only [hfl]
  refine ⟨_, rfl, ?_⟩
  simp only [hang, hd0, hd1]
  have ha := truncated_zero_or_large (t._sp._ori_command 2)
  have h0 := truncated_zero_or_large (t._sp._dir_command 0)
  have h1 := truncated_zero_or_large (t._sp._dir_command 1)
  exact ⟨ha.1, h0.1, h1.1, ha.2.1, h0.2.1, h1.2.1, ha.2.2, h0.2.2, h1.2.2⟩

/-- Witness for C23: the yaw command 1/20 and the direction command -1/50 become 0, the
direction command 1/2 is passed through. -/
theorem updateTestOneStep_truncates_commands_witness :
    ∃ t1, trotTest._UpdateTestOneStep passThrough = some t1 ∧
      t1._body_ang_vel 2 = 0 ∧ t1._sp._dir_command 0 = 1 / 2 ∧ t1._sp._dir_command 1 = 0 := by
  obtain ⟨t1, h1, -, -, -, -, hd0, -, ha, -, hd1⟩ :=
    updateTestOneStep_truncates_commands passThrough trotTest (le_refl 2)
  refine ⟨t1, h1, ha ?_, hd0 ?_, hd1 ?_⟩
  · show |(1 / 20 : ℚ)| < 1 / 10
    rw [abs_of_pos (by norm_num)]
    norm_num
  · show (1 / 10 : ℚ) ≤ |(1 / 2 : ℚ)|
    rw [abs_of_pos (by norm_num)]
    norm_num
  · show |(-(1 / 50) : ℚ)| < 1 / 10
    rw [abs_neg, abs_of_pos (by norm_num)]
    norm_num

/-- C27: the constructor puts `body_ctrl_` into the controller list twice, at the positions
of `full_contact_1` and `full_contact_2`; the destructor releases the first five entries and
then deletes `body_ctrl_` a second time. -/
theorem destructor_deletes_body_ctrl_twice :
    trotTest._state_list = [0, 1, 2, 3, 4, 1, 5, 6, 7] ∧
    trotTest.body_ctrl_ = 1 ∧
    trotTest._state_list.count trotTest.body_ctrl_ = 2 ∧
    ¬ trotTest._state_list.Nodup ∧
    trotHeap.live = [7, 6, 5, 4, 3, 2, 1, 0] ∧
    deleteAll (trotTest._state_list.take 5) trotHeap = some { live := [7, 6, 5], next := 8 } ∧
    trotTest.destroy trotHeap = none := by
  refine ⟨rfl, rfl, by decide, by decide, rfl, by decide, by decide⟩

/-! ## The contact transition (`WBLC_TwoContactTransCtrl.cpp`) -/

theorem length_four {C : Type} (xs : List C) (h : xs.length = 4) :
    ∃ c0 c1 c2 c3, xs = [c0, c1, c2, c3] := by
  match xs, h with
  | [c0, c1, c2, c3], _ => exact ⟨c0, c1, c2, c3, rfl⟩

theorem setAt_some {α : Type} (v : DVec α) (i : Nat) (x : α) (h : i < v.length) :
    v.setAt i x = some (v.set i x) := by
  unfold DVec.setAt
  rw [if_pos h]

theorem setContact_some {α C : Type} (ops : ContactOps α C)
    (ctrl : WBLC_TwoContactTransCtrl α C) (k : Nat) (contact : C)
    (upper_lim rf_weight rf_weight_z foot_weight : α)
    (hc : ctrl._contact_list[k]? = some contact)
    (hrf : 3 * k + 2 < ctrl.wblc_data_.W_rf_.length)
    (hxd : 3 * k + 2 < ctrl.wblc_data_.W_xddot_.length) :
    ctrl._SetContact ops k upper_lim rf_weight rf_weight_z foot_weight =
      some
        { ctrl with
          _contact_list := ctrl._contact_list.set k (ops.setMaxFz contact upper_lim)
          wblc_data_ :=
            { ctrl.wblc_data_ with
              W_rf_ := (((ctrl.wblc_data_.W_rf_.set (3 * k) rf_weight).set (3 * k + 1)
                rf_weight).set (3 * k + 2) rf_weight).set (3 * k + 2) rf_weight_z
              W_xddot_ := ((ctrl.wblc_data_.W_xddot_.set (3 * k) foot_weight).set (3 * k + 1)
                foot_weight).set (3 * k + 2) foot_weight } } := by
  unfold WBLC_TwoContactTransCtrl._SetContact
  simp only [hc]
  have e0 : 0 + 3 * k = 3 * k := by omega
  have e1 : 1 + 3 * k = 3 * k + 1 := by omega
  have e2 : 2 + 3 * k = 3 * k + 2 := by omega
  rw [e0, e1, e2]
  rw [setAt_some _ _ _ (by omega), Option.some_bind]
  rw [setAt_some _ _ _ (by omega), Option.some_bind]
  rw [setAt_some _ _ _ (by rw [List.length_set]; omega), Option.some_bind]
  rw [setAt_some _ _ _ (by rw [List.length_set]; omega), Option.some_bind]
  rw [setAt_some _ _ _ (by rw [List.length_set, List.length_set]; omega), Option.some_bind]
  rw [setAt_some _ _ _ (by rw [List.length_set, List.length_set]; omega), Option.some_bind]
  rw [setAt_some _ _ _ (by rw [List.length_set, List.length_set, List.length_set]; omega),
    Option.some_bind]

theorem limits_lifting {α C : Type} [Field α] (ctrl : WBLC_TwoContactTransCtrl α C) (a : α)
    (h : 0 < ctrl._transit_dir) :
    ctrl.limits a =
      ((1 - a) * ctrl.max_rf_z_ + a * ctrl.min_rf_z_,
       (1 - a) * Weight.tan_small + a * Weight.tan_big,
       (1 - a) * Weight.nor_small + a * Weight.nor_big,
       (1 - a) * Weight.foot_big + a * Weight.foot_small) := by
  unfold WBLC_TwoContactTransCtrl.limits
  rw [if_pos (by exact h)]
  congr 1
  ring

theorem limits_landing {α C : Type} [Field α] (ctrl : WBLC_TwoContactTransCtrl α C) (a : α)
    (h : ctrl._transit_dir ≤ 0) :
    ctrl.limits a =
      ((1 - a) * ctrl.min_rf_z_ + a * ctrl.max_rf_z_,
       (1 - a) * Weight.tan_big + a * Weight.tan_small,
       (1 - a) * Weight.nor_big + a * Weight.nor_small,
       (1 - a) * Weight.foot_small + a * Weight.foot_big) := by
  unfold WBLC_TwoContactTransCtrl.limits
  rw [if_neg (by exact not_lt.mpr h)]
  congr 1
  ring

theorem setContact_if_spec {α C : Type} (ops : ContactOps α C)
    (ctrl : WBLC_TwoContactTransCtrl α C) (k : Nat) (sel : Prop) [Decidable sel]
    (u rw rz fw : α) (hk : k < 4)
    (hc : ctrl._contact_list.length = 4)
    (hrf : ctrl.wblc_data_.W_rf_.length = 12)
    (hxd : ctrl.wblc_data_.W_xddot_.length = 12) :
    ∃ ctrl1, (if sel then ctrl._SetContact ops k u rw rz fw else some ctrl) = some ctrl1 ∧
      ctrl1._contact_list.length = 4 ∧
      ctrl1.wblc_data_.W_rf_.length = 12 ∧
      ctrl1.wblc_data_.W_xddot_.length = 12 ∧
      (∀ j, ctrl1._contact_list[j]? =
        if sel ∧ j = k then (ctrl._contact_list[j]?).map (fun c => ops.setMaxFz c u)
        else ctrl._contact_list[j]?) ∧
      (∀ j i, i < 3 → ctrl1.wblc_data_.W_rf_[3 * j + i]? =
        if sel ∧ j = k then some (if i = 2 then rz else rw)
        else ctrl.wblc_data_.W_rf_[3 * j + i]?) ∧
      (∀ j i, i < 3 → ctrl1.wblc_data_.W_xddot_[3 * j + i]? =
        if sel ∧ j = k then some fw else ctrl.wblc_data_.W_xddot_[3 * j + i]?) := by
  by_cases hsel : sel
  · have hck : ctrl._contact_list[k]? = some (ctrl._contact_list[k]) :=
      List.getElem?_eq_getElem (by omega)
    rw [if_pos hsel, setContact_some ops ctrl k _ u rw rz fw hck (by omega) (by omega)]
    refine ⟨_, rfl, ?_, ?_, ?_, ?_, ?_, ?_⟩
    · simp only [List.length_set]
      exact hc
    · simp only [List.length_set]
      exact hrf
    · simp only [List.length_set]
      exact hxd
    · intro j
      by_cases hj : j = k
      · subst hj
        simp only [hsel, and_self, if_true]
        rw [List.getElem?_set_self (by omega), hck]
        rfl
      · simp only [hj, and_false, if_false]
        exact List.getElem?_set_ne (fun h => hj h.symm)
    · intro j i hi
      by_cases hj : j = k
      · subst hj
        simp only [hsel, and_self, if_true]
        interval_cases i
        · rw [List.getElem?_set_ne (by omega), List.getElem?_set_ne (by omega),
            List.getElem?_set_ne (by omega), add_zero, List.getElem?_set_self (by omega)]
          rfl
        · rw [List.getElem?_set_ne (by omega), List.getElem?_set_ne (by omega),
            List.getElem?_set_self (by rw [List.length_set]; omega)]
          rfl
        · rw [List.getElem?_set_self
            (by rw [List.length_set, List.length_set, List.length_set]; omega)]
          rfl
      · simp only [hj, and_false, if_false]
        rw [List.getElem?_set_ne (by omega), List.getElem?_set_ne (by omega),
          List.getElem?_set_ne (by omega), List.getElem?_set_ne (by omega)]
    · intro j i hi
      by_cases hj : j = k
      · subst hj
        simp only [hsel, and_self, if_true]
        interval_cases i
        · rw [List.getElem?_set_ne (by omega), List.getElem?_set_ne (by omega), add_zero,
            List.getElem?_set_self (by omega)]
        · rw [List.getElem?_set_ne (by omega),
            List.getElem?_set_self (by rw [List.length_set]; omega)]
        · rw [List.getElem?_set_self (by rw [List.length_set, List.length_set]; omega)]
      · simp only [hj, and_false, if_false]
        rw [List.getElem?_set_ne (by omega), List.getElem?_set_ne (by omega),
          List.getElem?_set_ne (by omega)]
  · rw [if_neg hsel]
    refine ⟨ctrl, rfl, hc, hrf, hxd, fun j => ?_, fun j i _ => ?_, fun j i _ => ?_⟩ <;>
      simp only [hsel, false_and, if_false]

theorem contact_setup_some {α C : Type} [Field α] (M : CMath α) (M_PI : α)
    (ops : ContactOps α C) (l : LinkID) (ctrl : WBLC_TwoContactTransCtrl α C)
    (hc : ctrl._contact_list.length = 4)
    (hrf : ctrl.wblc_data_.W_rf_.length = 12)
    (hxd : ctrl.wblc_data_.W_xddot_.length = 12) :
    ∃ ctrl1, ctrl._contact_setup M M_PI ops l = some ctrl1 ∧
      ∀ k, k < 4 →
        ctrl1._contact_list[k]? =
          (ctrl._contact_list[k]?).map (fun c =>
            ops.UpdateContactSpec
              (if ctrl._cp1 = l.feet.getD k 0 ∨ ctrl._cp2 = l.feet.getD k 0 then
                ops.setMaxFz c (ctrl.limits (ctrl.alpha M M_PI)).1
              else c)) ∧
        ∀ i, i < 3 →
          ctrl1.wblc_data_.W_rf_[3 * k + i]? =
            (if ctrl._cp1 = l.feet.getD k 0 ∨ ctrl._cp2 = l.feet.getD k 0 then
              some (if i = 2 then (ctrl.limits (ctrl.alpha M M_PI)).2.2.1
                else (ctrl.limits (ctrl.alpha M M_PI)).2.1)
            else ctrl.wblc_data_.W_rf_[3 * k + i]?) ∧
          ctrl1.wblc_data_.W_xddot_[3 * k + i]? =
            (if ctrl._cp1 = l.feet.getD k 0 ∨ ctrl._cp2 = l.feet.getD k 0 then
              some (ctrl.limits (ctrl.alpha M M_PI)).2.2.2
            else ctrl.wblc_data_.W_xddot_[3 * k + i]?) := by
  unfold WBLC_TwoContactTransCtrl._contact_setup
  simp only [LinkID.feet]
  generalize ctrl.limits (ctrl.alpha M M_PI) = lim
  obtain ⟨u, rw, rz, fw⟩ := lim
  simp only
  obtain ⟨cA, hA, hcA, hrfA, hxdA, gA, rA, xA⟩ :=
    setContact_if_spec ops ctrl 0 (ctrl._cp1 = l.FR ∨ ctrl._cp2 = l.FR) u rw rz fw
      (by omega) hc hrf hxd
  rw [hA, Option.some_bind]
  obtain ⟨cB, hB, hcB, hrfB, hxdB, gB, rB, xB⟩ :=
    setContact_if_spec ops cA 1 (ctrl._cp1 = l.FL ∨ ctrl._cp2 = l.FL) u rw rz fw
      (by omega) hcA hrfA hxdA
  rw [hB, Option.some_bind]
  obtain ⟨cD, hD, hcD, hrfD, hxdD, gD, rD, xD⟩ :=
    setContact_if_spec ops cB 2 (ctrl._cp1 = l.HR ∨ ctrl._cp2 = l.HR) u rw rz fw
      (by omega) hcB hrfB hxdB
  rw [hD, Option.some_bind]
  obtain ⟨cE, hE, hcE, hrfE, hxdE, gE, rE, xE⟩ :=
    setContact_if_spec ops cD 3 (ctrl._cp1 = l.HL ∨ ctrl._cp2 = l.HL) u rw rz fw
      (by omega) hcD hrfD hxdD
  rw [hE, Option.some_bind]
  refine ⟨_, rfl, fun k hk => ⟨?_, fun i hi => ⟨?_, ?_⟩⟩⟩
  · show (cE._contact_list.map ops.UpdateContactSpec)[k]? = _
    rw [List.getElem?_map, gE, gD, gB, gA]
    interval_cases k
    · by_cases h : ctrl._cp1 = l.FR ∨ ctrl._cp2 = l.FR
      · simp [h]
        rfl
      · simp [h]
    · by_cases h : ctrl._cp1 = l.FL ∨ ctrl._cp2 = l.FL
      · simp [h]
        rfl
      · simp [h]
    · by_cases h : ctrl._cp1 = l.HR ∨ ctrl._cp2 = l.HR
      · simp [h]
        rfl
      · simp [h]
    · by_cases h : ctrl._cp1 = l.HL ∨ ctrl._cp2 = l.HL
      · simp [h]
        rfl
      · simp [h]
  · show cE.wblc_data_.W_rf_[3 * k + i]? = _
    rw [rE k i hi, rD k i hi, rB k i hi, rA k i hi]
    interval_cases k
    · by_cases h : ctrl._cp1 = l.FR ∨ ctrl._cp2 = l.FR <;> simp [h]
    · by_cases h : ctrl._cp1 = l.FL ∨ ctrl._cp2 = l.FL <;> simp [h]
    · by_cases h : ctrl._cp1 = l.HR ∨ ctrl._cp2 = l.HR <;> simp [h]
    · by_cases h : ctrl._cp1 = l.HL ∨ ctrl._cp2 = l.HL <;> simp [h]
  · show cE.wblc_data_.W_xddot_[3 * k + i]? = _
    rw [xE k i hi, xD k i hi, xB k i hi, xA k i hi]
    interval_cases k
    · by_cases h : ctrl._cp1 = l.FR ∨ ctrl._cp2 = l.FR <;> simp [h]
    · by_cases h : ctrl._cp1 = l.FL ∨ ctrl._cp2 = l.FL <;> simp [h]
    · by_cases h : ctrl._cp1 = l.HR ∨ ctrl._cp2 = l.HR <;> simp [h]
    · by_cases h : ctrl._cp1 = l.HL ∨ ctrl._cp2 = l.HL <;> simp [h]

/-- C26: in `_contact_setup` the blend factor lies between 0 and 1 (for a cosine with values
between -1 and 1). The force upper limit and the three weights computed for a lifting
transition (`_transit_dir > 0`) at the blend factor `a` are those computed for a landing
transition (`_transit_dir <= 0`) at `1 - a`; each is `(1 - a)` times one end value plus `a`
times the other, so a lifting transition has (max_rf_z_, tan_small, nor_small, foot_big) at
`a` = 0 and (min_rf_z_, tan_big, nor_big, foot_small) at `a` = 1. On a controller with four
contacts and weight vectors of size 12 the call returns, and the limit and the weights are set
for exactly the contacts whose foot is `_cp1` or `_cp2`: every contact is updated, but the
force limit and the weight entries of the other contacts stay as they were. -/
theorem contact_setup_blends {α C : Type} [LinearOrderedField α] (M : CMath α) (M_PI : α)
    (ops : ContactOps α C) (l : LinkID) (ctrl : WBLC_TwoContactTransCtrl α C)
    (hcos : ∀ x, -1 ≤ M.cos x ∧ M.cos x ≤ 1)
    (hc : ctrl._contact_list.length = 4)
    (hrf : ctrl.wblc_data_.W_rf_.length = 12)
    (hxd : ctrl.wblc_data_.W_xddot_.length = 12) :
    (0 ≤ ctrl.alpha M M_PI ∧ ctrl.alpha M M_PI ≤ 1) ∧
    (∀ (a : α) (up down : Int), 0 < up → down ≤ 0 →
      WBLC_TwoContactTransCtrl.limits { ctrl with _transit_dir := up } a =
        WBLC_TwoContactTransCtrl.limits { ctrl with _transit_dir := down } (1 - a)) ∧
    (∀ a : α, 0 < ctrl._transit_dir →
      ctrl.limits a =
        ((1 - a) * ctrl.max_rf_z_ + a * ctrl.min_rf_z_,
         (1 - a) * Weight.tan_small + a * Weight.tan_big,
         (1 - a) * Weight.nor_small + a * Weight.nor_big,
         (1 - a) * Weight.foot_big + a * Weight.foot_small)) ∧
    (∀ a : α, ctrl._transit_dir ≤ 0 →
      ctrl.limits a =
        ((1 - a) * ctrl.min_rf_z_ + a * ctrl.max_rf_z_,
         (1 - a) * Weight.tan_big + a * Weight.tan_small,
         (1 - a) * Weight.nor_big + a * Weight.nor_small,
         (1 - a) * Weight.foot_small + a * Weight.foot_big)) ∧
    (0 < ctrl._transit_dir →
      ctrl.limits 0 =
        (ctrl.max_rf_z_, Weight.tan_small, Weight.nor_small, Weight.foot_big) ∧
      ctrl.limits 1 =
        (ctrl.min_rf_z_, Weight.tan_big, Weight.nor_big, Weight.foot_small)) ∧
    ∃ ctrl1, ctrl._contact_setup M M_PI ops l = some ctrl1 ∧
      ∀ k, k < 4 →
        ctrl1._contact_list[k]? =
          (ctrl._contact_list[k]?).map (fun c =>
            ops.UpdateContactSpec
              (if ctrl._cp1 = l.feet.getD k 0 ∨ ctrl._cp2 = l.feet.getD k 0 then
                ops.setMaxFz c (ctrl.limits (ctrl.alpha M M_PI)).1
              else c)) ∧
        ∀ i, i < 3 →
          ctrl1.wblc_data_.W_rf_[3 * k + i]? =
            (if ctrl._cp1 = l.feet.getD k 0 ∨ ctrl._cp2 = l.feet.getD k 0 then
              some (if i = 2 then (ctrl.limits (ctrl.alpha M M_PI)).2.2.1
                else (ctrl.limits (ctrl.alpha M M_PI)).2.1)
            else ctrl.wblc_data_.W_rf_[3 * k + i]?) ∧
          ctrl1.wblc_data_.W_xddot_[3 * k + i]? =
            (if ctrl._cp1 = l.feet.getD k 0 ∨ ctrl._cp2 = l.feet.getD k 0 then
              some (ctrl.limits (ctrl.alpha M M_PI)).2.2.2
            else ctrl.wblc_data_.W_xddot_[3 * k + i]?) := by
  refine ⟨?_, ?_, fun a h => limits_lifting ctrl a h, fun a h => limits_landing ctrl a h, ?_,
    contact_setup_some M M_PI ops l ctrl hc hrf hxd⟩
  · have h := hcos (M_PI * ctrl._state_machine_time / ctrl.end_time_)
    unfold WBLC_TwoContactTransCtrl.alpha
    constructor
    · nlinarith [h.1, h.2]
    · nlinarith [h.1, h.2]
  · intro a up down hup hdown
    rw [limits_lifting _ a (by exact hup), limits_landing _ (1 - a) (by exact hdown)]
    simp only [sub_sub_cancel]
    refine Prod.ext ?_ (Prod.ext ?_ (Prod.ext ?_ ?_)) <;> simp only <;> ring
  · intro h
    rw [limits_lifting ctrl 0 h, limits_lifting ctrl 1 h]
    simp

/-- Witness for C26: the lifting controller for FR and HL, with the real cosine. -/
theorem contact_setup_blends_witness :
    (0 ≤ (transitionCtrl 1).alpha (CMath.mk Real.sqrt Real.sin Real.cos) Real.pi ∧
      (transitionCtrl 1).alpha (CMath.mk Real.sqrt Real.sin Real.cos) Real.pi ≤ 1) ∧
    (transitionCtrl 1 : WBLC_TwoContactTransCtrl ℝ (ℝ × Nat)).limits 0 =
      (200, Weight.tan_small, Weight.nor_small, Weight.foot_big) ∧
    ∃ ctrl1, (transitionCtrl 1)._contact_setup (CMath.mk Real.sqrt Real.sin Real.cos) Real.pi
      plainContact footLinks = some ctrl1 :=
  have h := contact_setup_blends (CMath.mk Real.sqrt Real.sin Real.cos) Real.pi plainContact
    footLinks (transitionCtrl 1) (fun x => ⟨Real.neg_one_le_cos x, Real.cos_le_one x⟩)
    rfl rfl rfl
  ⟨h.1, (h.2.2.2.2.1 (by decide)).1, h.2.2.2.2.2.elim fun c hc => ⟨c, hc.1⟩⟩

/-! ## The loop of the simulation bridge (`run`, `runRobotControl`) -/

theorem ofFn_flags_one : List.ofFn (fun _ : Fin 4 => (1 : Int)) = [1, 1, 1, 1] := by
  rfl

theorem runRobotControl_not_initialized {P V S : Type} (E : BridgeCollaborators P V S)
    (r : RunningBridge P V S) (hfirst : r.bridge._firstControllerRun = true)
    (hinit : E.isFullyInitialized r.bridge._robotParams = false) :
    SimulationBridge.runRobotControl E r = (r, some Thrown.not_initialized) := by
  unfold SimulationBridge.runRobotControl
  simp [hfirst, hinit]

theorem runRobotControl_first {P V S : Type} (E : BridgeCollaborators P V S)
    (r : RunningBridge P V S) (hfirst : r.bridge._firstControllerRun = true)
    (hinit : E.isFullyInitialized r.bridge._robotParams = true) :
    (SimulationBridge.runRobotControl E r).2 = none ∧
    (SimulationBridge.runRobotControl E r).1.calls =
      r.calls ++ [BridgeCall.newRobotController, BridgeCall.initializeController,
        BridgeCall.step [1, 1, 1, 1]] ∧
    (SimulationBridge.runRobotControl E r).1.bridge._firstControllerRun = false ∧
    (SimulationBridge.runRobotControl E r).1.bridge._simMode = SimulatorMode.RUN_CONTROLLER ∧
    (SimulationBridge.runRobotControl E r).1.bridge._robotParams = r.bridge._robotParams ∧
    ∃ c, (SimulationBridge.runRobotControl E r).1._robotController = some c ∧
      c.robotType =
        (E.step (E.initializeController { robotType := r.bridge._robot, state := E.newController }
          r.bridge._sharedMemory.toSimulatorMessage r.bridge._robotParams)
          { r.bridge._sharedMemory.toSimulatorMessage with
            robotToSim :=
              { r.bridge._sharedMemory.robotToSim with spiCommand := { flags := fun _ => 1 } } }
          r.bridge._robotParams).1.robotType := by
  unfold SimulationBridge.runRobotControl
  simp [hfirst, hinit, RunningBridge.call, ofFn_flags_one]

theorem runRobotControl_later {P V S : Type} (E : BridgeCollaborators P V S)
    (r : RunningBridge P V S) (c : RobotController S)
    (hfirst : r.bridge._firstControllerRun = false) (hc : r._robotController = some c) :
    (SimulationBridge.runRobotControl E r).2 = none ∧
    (SimulationBridge.runRobotControl E r).1.calls = r.calls ++ [BridgeCall.step [1, 1, 1, 1]] ∧
    (SimulationBridge.runRobotControl E r).1.bridge._firstControllerRun = false ∧
    (SimulationBridge.runRobotControl E r).1.bridge._robotParams = r.bridge._robotParams ∧
    ∃ c1, (SimulationBridge.runRobotControl E r).1._robotController = some c1 := by
  unfold SimulationBridge.runRobotControl
  simp [hfirst, hc, RunningBridge.call, ofFn_flags_one]

theorem runRobotControl_calls {P V S : Type} (E : BridgeCollaborators P V S)
    (r : RunningBridge P V S) :
    (∃ mid, (SimulationBridge.runRobotControl E r).1.calls = r.calls ++ mid ∧
      BridgeCall.waitForSimulator ∉ mid ∧ BridgeCall.robotIsDone ∉ mid) ∧
    (SimulationBridge.runRobotControl E r).2 ≠ some Thrown.robot_mismatch := by
  by_cases hfirst : r.bridge._firstControllerRun = true
  · by_cases hinit : E.isFullyInitialized r.bridge._robotParams = true
    · obtain ⟨h1, h2, -⟩ := runRobotControl_first E r hfirst hinit
      rw [h1, h2]
      exact ⟨⟨_, rfl, by simp, by simp⟩, by simp⟩
    · rw [runRobotControl_not_initialized E r hfirst (by simpa using hinit)]
      exact ⟨⟨[], by simp, by simp, by simp⟩, by simp⟩
  · have hfirst : r.bridge._firstControllerRun = false := by simpa using hfirst
    cases hc : r._robotController with
    | none =>
      have e : SimulationBridge.runRobotControl E r = (r, some Thrown.null_controller) := by
        unfold SimulationBridge.runRobotControl
        simp [hfirst, hc]
      rw [e]
      exact ⟨⟨[], by simp, by simp, by simp⟩, by simp⟩
    | some c =>
      obtain ⟨h1, h2, -⟩ := runRobotControl_later E r c hfirst hc
      rw [h1, h2]
      exact ⟨⟨_, rfl, by simp, by simp⟩, by simp⟩

theorem iteration_waits {P V S : Type} (E : BridgeCollaborators P V S)
    (ops : ControlParameterOps P V) (firstRun : Bool) (r : RunningBridge P V S)
    (hwait : r.bridge._sharedMemory.waitForSimulator = none) :
    SimulationBridge.iteration E ops firstRun r = (r, some RunEnd.waits) := by
  unfold SimulationBridge.iteration
  simp only [hwait]

theorem iteration_mismatch {P V S : Type} (E : BridgeCollaborators P V S)
    (ops : ControlParameterOps P V) (r : RunningBridge P V S)
    (memory : SimulatorSyncronizedMessage V)
    (hwait : r.bridge._sharedMemory.waitForSimulator = some memory)
    (hne : r.bridge._robot ≠ memory.simToRobot.robotType) :
    SimulationBridge.iteration E ops true r =
      ({ r with bridge := { r.bridge with _sharedMemory := memory } }.call
        BridgeCall.waitForSimulator, some (RunEnd.threw Thrown.robot_mismatch)) := by
  unfold SimulationBridge.iteration
  simp only [hwait]
  rw [if_pos ⟨trivial, hne⟩]

theorem iteration_exit {P V S : Type} (E : BridgeCollaborators P V S)
    (ops : ControlParameterOps P V) (firstRun : Bool) (r : RunningBridge P V S)
    (memory : SimulatorSyncronizedMessage V)
    (hwait : r.bridge._sharedMemory.waitForSimulator = some memory)
    (hcheck : ¬ (firstRun = true ∧ r.bridge._robot ≠ memory.simToRobot.robotType))
    (hmode : memory.simToRobot.mode = SimulatorMode.EXIT) :
    SimulationBridge.iteration E ops firstRun r =
      ({ r with
          bridge :=
            { r.bridge with _sharedMemory := memory, _simMode := SimulatorMode.EXIT } }.call
        BridgeCall.waitForSimulator, some RunEnd.returned) := by
  unfold SimulationBridge.iteration
  simp only [hwait]
  rw [if_neg (by exact hcheck)]
  simp only [RunningBridge.call, hmode]

theorem iteration_shape {P V S : Type} (E : BridgeCollaborators P V S)
    (ops : ControlParameterOps P V) (firstRun : Bool) (r : RunningBridge P V S)
    (memory : SimulatorSyncronizedMessage V)
    (hwait : r.bridge._sharedMemory.waitForSimulator = some memory) :
    ∃ mid, BridgeCall.waitForSimulator ∉ mid ∧ BridgeCall.robotIsDone ∉ mid ∧
      ((SimulationBridge.iteration E ops firstRun r).2 = none →
        (SimulationBridge.iteration E ops firstRun r).1.calls =
          r.calls ++ BridgeCall.waitForSimulator :: mid ++ [BridgeCall.robotIsDone] ∧
        memory.simToRobot.mode ≠ SimulatorMode.EXIT) ∧
      (∀ e, (SimulationBridge.iteration E ops firstRun r).2 = some e →
        (SimulationBridge.iteration E ops firstRun r).1.calls =
          r.calls ++ BridgeCall.waitForSimulator :: mid ∧ e ≠ RunEnd.waits) ∧
      ((SimulationBridge.iteration E ops firstRun r).2 =
          some (RunEnd.threw Thrown.robot_mismatch) →
        firstRun = true ∧ r.bridge._robot ≠ memory.simToRobot.robotType ∧ mid = []) := by
  by_cases hcheck : firstRun = true ∧ r.bridge._robot ≠ memory.simToRobot.robotType
  · obtain ⟨hf, hne⟩ := hcheck
    subst hf
    rw [iteration_mismatch E ops r memory hwait hne]
    exact ⟨[], by simp, by simp, by simp, by simp [RunningBridge.call], by simp [hne]⟩
  · unfold SimulationBridge.iteration
    simp only [hwait]
    rw [if_neg (by exact hcheck)]
    simp only [RunningBridge.call]
    cases hmode : memory.simToRobot.mode with
    | RUN_CONTROL_PARAMETERS =>
      simp only
      generalize SimulationBridge.handleControlParameters ops _ = res
      obtain ⟨b, o⟩ := res
      refine ⟨[BridgeCall.handleControlParameters], by simp, by simp, ?_⟩
      cases o <;> simp
    | RUN_CONTROLLER =>
      simp only
      generalize hr3 : ({
        bridge :=
          { r.bridge with
            _sharedMemory := memory
            _simMode := SimulatorMode.RUN_CONTROLLER
            _iterations := r.bridge._iterations + 1 }
        _robotController := r._robotController
        calls := r.calls ++ [BridgeCall.waitForSimulator] ++ [BridgeCall.runRobotControl] } :
          RunningBridge P V S) = r3
      obtain ⟨⟨mid, hmid, hw, hd⟩, hnm⟩ := runRobotControl_calls E r3
      have hcalls : r3.calls =
          r.calls ++ [BridgeCall.waitForSimulator] ++ [BridgeCall.runRobotControl] := by
        rw [← hr3]
      generalize SimulationBridge.runRobotControl E r3 = res at hmid hnm
      obtain ⟨r4, t⟩ := res
      simp only at hmid hnm
      refine ⟨BridgeCall.runRobotControl :: mid, by simp [hw], by simp [hd], ?_⟩
      cases t with
      | none => simp [hmid, hcalls]
      | some t =>
        simp only [hmid, hcalls]
        refine ⟨by simp, by simp, ?_⟩
        intro h
        simp only [Option.some.injEq, RunEnd.threw.injEq] at h
        exact absurd (congrArg some h) hnm
    | DO_NOTHING =>
      exact ⟨[], by simp, by simp, by simp, by simp, by simp⟩
    | EXIT =>
      exact ⟨[], by simp, by simp, by simp, by simp, by simp⟩

theorem loop_cons_none {P V S : Type} (E : BridgeCollaborators P V S)
    (ops : ControlParameterOps P V) (message : SimulatorToRobotMessage V)
    (rest : List (SimulatorToRobotMessage V)) (firstRun : Bool) (r r2 : RunningBridge P V S)
    (h : SimulationBridge.iteration E ops firstRun (r.afterSimulator message) = (r2, none)) :
    SimulationBridge.loop E ops (message :: rest) firstRun r =
      SimulationBridge.loop E ops rest false r2 := by
  rw [SimulationBridge.loop, h]

theorem loop_cons_some {P V S : Type} (E : BridgeCollaborators P V S)
    (ops : ControlParameterOps P V) (message : SimulatorToRobotMessage V)
    (rest : List (SimulatorToRobotMessage V)) (firstRun : Bool) (r r2 : RunningBridge P V S)
    (e : RunEnd)
    (h : SimulationBridge.iteration E ops firstRun (r.afterSimulator message) = (r2, some e)) :
    SimulationBridge.loop E ops (message :: rest) firstRun r = (r2, e) := by
  rw [SimulationBridge.loop, h]

theorem loop_counts {P V S : Type} (E : BridgeCollaborators P V S)
    (ops : ControlParameterOps P V) (messages : List (SimulatorToRobotMessage V)) :
    ∀ (firstRun : Bool) (r : RunningBridge P V S),
      ∃ new, (SimulationBridge.loop E ops messages firstRun r).1.calls = r.calls ++ new ∧
        new.count BridgeCall.waitForSimulator =
          new.count BridgeCall.robotIsDone +
            (if (SimulationBridge.loop E ops messages firstRun r).2 = RunEnd.waits then 0
              else 1) := by
  induction messages with
  | nil =>
    intro firstRun r
    exact ⟨[], by simp [SimulationBridge.loop], by simp [SimulationBridge.loop]⟩
  | cons message rest ih =>
    intro firstRun r
    have hcalls : (r.afterSimulator message).calls = r.calls := rfl
    cases hw : (r.afterSimulator message).bridge._sharedMemory.waitForSimulator with
    | none =>
      rw [loop_cons_some E ops message rest firstRun r _ _
        (iteration_waits E ops firstRun _ hw)]
      exact ⟨[], by simp [hcalls], by simp⟩
    | some memory =>
      obtain ⟨mid, hmw, hmd, hnone, hsome, -⟩ :=
        iteration_shape E ops firstRun (r.afterSimulator message) memory hw
      cases hit : SimulationBridge.iteration E ops firstRun (r.afterSimulator message) with
      | mk r2 e =>
        rw [hit] at hnone hsome
        cases e with
        | none =>
          rw [loop_cons_none E ops message rest firstRun r r2 hit]
          obtain ⟨new, hnew, hcount⟩ := ih false r2
          have h2 := (hnone rfl).1
          simp only at h2
          refine ⟨BridgeCall.waitForSimulator :: mid ++ [BridgeCall.robotIsDone] ++ new,
            ?_, ?_⟩
          · rw [hnew, h2, hcalls]
            simp
          · simp only [List.count_append, List.count_cons, List.count_nil,
              List.count_eq_zero_of_not_mem hmw, List.count_eq_zero_of_not_mem hmd, hcount]
            simp
            omega
        | some e =>
          rw [loop_cons_some E ops message rest firstRun r r2 e hit]
          obtain ⟨h2, hne⟩ := hsome e rfl
          simp only at h2
          refine ⟨BridgeCall.waitForSimulator :: mid, by rw [h2, hcalls], ?_⟩
          simp only [List.count_cons, List.count_eq_zero_of_not_mem hmw,
            List.count_eq_zero_of_not_mem hmd, hne, if_false]
          simp

theorem loop_no_mismatch {P V S : Type} (E : BridgeCollaborators P V S)
    (ops : ControlParameterOps P V) (messages : List (SimulatorToRobotMessage V)) :
    ∀ r : RunningBridge P V S,
      (SimulationBridge.loop E ops messages false r).2 ≠ RunEnd.threw Thrown.robot_mismatch := by
  induction messages with
  | nil =>
    intro r
    simp [SimulationBridge.loop]
  | cons message rest ih =>
    intro r
    cases hw : (r.afterSimulator message).bridge._sharedMemory.waitForSimulator with
    | none =>
      rw [loop_cons_some E ops message rest false r _ _ (iteration_waits E ops false _ hw)]
      simp
    | some memory =>
      obtain ⟨mid, -, -, -, -, hmis⟩ :=
        iteration_shape E ops false (r.afterSimulator message) memory hw
      cases hit : SimulationBridge.iteration E ops false (r.afterSimulator message) with
      | mk r2 e =>
        rw [hit] at hmis
        cases e with
        | none =>
          rw [loop_cons_none E ops message rest false r r2 hit]
          exact ih r2
        | some e =>
          rw [loop_cons_some E ops message rest false r r2 e hit]
          intro h
          simp only at h
          subst h
          exact absurd (hmis rfl).1 (by decide)

theorem run_mismatch_calls {P V S : Type} (E : BridgeCollaborators P V S)
    (ops : ControlParameterOps P V) (messages : List (SimulatorToRobotMessage V))
    (r : RunningBridge P V S)
    (h : (SimulationBridge.run E ops messages r).2 = RunEnd.threw Thrown.robot_mismatch) :
    (SimulationBridge.run E ops messages r).1.calls =
      r.calls ++ [BridgeCall.attach, BridgeCall.init, BridgeCall.waitForSimulator] := by
  unfold SimulationBridge.run at h ⊢
  simp only [RunningBridge.call] at h ⊢
  generalize hr0 : ({
      bridge := { r.bridge with _sharedMemory := r.bridge._sharedMemory.init }
      _robotController := r._robotController
      calls := r.calls ++ [BridgeCall.attach] ++ [BridgeCall.init] } :
        RunningBridge P V S) = r0 at h ⊢
  have hcalls : r0.calls = r.calls ++ [BridgeCall.attach] ++ [BridgeCall.init] := by
    rw [← hr0]
  cases messages with
  | nil => simp [SimulationBridge.loop] at h
  | cons message rest =>
    have hcalls1 : (r0.afterSimulator message).calls = r0.calls := rfl
    cases hw : (r0.afterSimulator message).bridge._sharedMemory.waitForSimulator with
    | none =>
      rw [loop_cons_some E ops message rest true r0 _ _ (iteration_waits E ops true _ hw)] at h
      simp at h
    | some memory =>
      obtain ⟨mid, -, -, -, hsome, hmis⟩ :=
        iteration_shape E ops true (r0.afterSimulator message) memory hw
      cases hit : SimulationBridge.iteration E ops true (r0.afterSimulator message) with
      | mk r2 e =>
        rw [hit] at hsome hmis
        cases e with
        | none =>
          rw [loop_cons_none E ops message rest true r0 r2 hit] at h
          exact absurd h (loop_no_mismatch E ops rest r2)
        | some e =>
          rw [loop_cons_some E ops message rest true r0 r2 e hit] at h ⊢
          simp only at h
          subst h
          obtain ⟨-, -, hmid⟩ := hmis rfl
          have h2 := (hsome _ rfl).1
          simp only at h2
          rw [h2, hcalls1, hcalls, hmid]
          simp

theorem runRobotControl_first_eq {P V S : Type} (E : BridgeCollaborators P V S)
    (r : RunningBridge P V S) (hfirst : r.bridge._firstControllerRun = true)
    (hinit : E.isFullyInitialized r.bridge._robotParams = true) :
    SimulationBridge.runRobotControl E r =
      ({ bridge :=
          { r.bridge with
            _simMode := SimulatorMode.RUN_CONTROLLER
            _firstControllerRun := false
            _sharedMemory :=
              { r.bridge._sharedMemory with
                robotToSim :=
                  { r.bridge._sharedMemory.robotToSim with
                    spiCommand :=
                      (E.step
                        (E.initializeController
                          { robotType := r.bridge._robot, state := E.newController }
                          r.bridge._sharedMemory.toSimulatorMessage r.bridge._robotParams)
                        { robotToSim :=
                            { r.bridge._sharedMemory.robotToSim with
                              spiCommand := { flags := fun _ => 1 } }
                          simToRobot := r.bridge._sharedMemory.simToRobot }
                        r.bridge._robotParams).2 } } }
         _robotController :=
          some
            (E.step
              (E.initializeController
                { robotType := r.bridge._robot, state := E.newController }
                r.bridge._sharedMemory.toSimulatorMessage r.bridge._robotParams)
              { robotToSim :=
                  { r.bridge._sharedMemory.robotToSim with
                    spiCommand := { flags := fun _ => 1 } }
                simToRobot := r.bridge._sharedMemory.simToRobot }
              r.bridge._robotParams).1
         calls :=
          r.calls ++ [BridgeCall.newRobotController, BridgeCall.initializeController,
            BridgeCall.step [1, 1, 1, 1]] }, none) := by
  unfold SimulationBridge.runRobotControl
  simp [hfirst, hinit, RunningBridge.call, ofFn_flags_one]

theorem runRobotControl_later_eq {P V S : Type} (E : BridgeCollaborators P V S)
    (r : RunningBridge P V S) (c : RobotController S)
    (hfirst : r.bridge._firstControllerRun = false) (hc : r._robotController = some c) :
    SimulationBridge.runRobotControl E r =
      ({ bridge :=
          { r.bridge with
            _sharedMemory :=
              { r.bridge._sharedMemory with
                robotToSim :=
                  { r.bridge._sharedMemory.robotToSim with
                    spiCommand :=
                      (E.step c
                        { robotToSim :=
                            { r.bridge._sharedMemory.robotToSim with
                              spiCommand := { flags := fun _ => 1 } }
                          simToRobot := r.bridge._sharedMemory.simToRobot }
                        r.bridge._robotParams).2 } } }
         _robotController :=
          some
            (E.step c
              { robotToSim :=
                  { r.bridge._sharedMemory.robotToSim with
                    spiCommand := { flags := fun _ => 1 } }
                simToRobot := r.bridge._sharedMemory.simToRobot }
              r.bridge._robotParams).1
         calls := r.calls ++ [BridgeCall.step [1, 1, 1, 1]] }, none) := by
  unfold SimulationBridge.runRobotControl
  simp [hfirst, hc, RunningBridge.call, ofFn_flags_one]

theorem iteration_doNothing {P V S : Type} (E : BridgeCollaborators P V S)
    (ops : ControlParameterOps P V) (firstRun : Bool) (r : RunningBridge P V S)
    (memory : SimulatorSyncronizedMessage V)
    (hwait : r.bridge._sharedMemory.waitForSimulator = some memory)
    (hcheck : ¬ (firstRun = true ∧ r.bridge._robot ≠ memory.simToRobot.robotType))
    (hmode : memory.simToRobot.mode = SimulatorMode.DO_NOTHING) :
    SimulationBridge.iteration E ops firstRun r =
      ({ bridge :=
          { r.bridge with
            _sharedMemory := memory.robotIsDone
            _simMode := SimulatorMode.DO_NOTHING }
         _robotController := r._robotController
         calls := r.calls ++ [BridgeCall.waitForSimulator, BridgeCall.robotIsDone] },
        none) := by
  unfold SimulationBridge.iteration
  simp only [hwait]
  rw [if_neg (by exact hcheck)]
  simp [RunningBridge.call, hmode]

theorem iteration_controlParameters {P V S : Type} (E : BridgeCollaborators P V S)
    (ops : ControlParameterOps P V) (firstRun : Bool) (r : RunningBridge P V S)
    (memory : SimulatorSyncronizedMessage V)
    (hwait : r.bridge._sharedMemory.waitForSimulator = some memory)
    (hcheck : ¬ (firstRun = true ∧ r.bridge._robot ≠ memory.simToRobot.robotType))
    (hmode : memory.simToRobot.mode = SimulatorMode.RUN_CONTROL_PARAMETERS) :
    ((SimulationBridge.handleControlParameters ops
        { r.bridge with
          _sharedMemory := memory
          _simMode := SimulatorMode.RUN_CONTROL_PARAMETERS }).2 = Outcome.returned →
      SimulationBridge.iteration E ops firstRun r =
        ({ bridge :=
            { (SimulationBridge.handleControlParameters ops
                { r.bridge with
                  _sharedMemory := memory
                  _simMode := SimulatorMode.RUN_CONTROL_PARAMETERS }).1 with
              _sharedMemory :=
                (SimulationBridge.handleControlParameters ops
                  { r.bridge with
                    _sharedMemory := memory
                    _simMode :=
                      SimulatorMode.RUN_CONTROL_PARAMETERS }).1._sharedMemory.robotIsDone }
           _robotController := r._robotController
           calls := r.calls ++ [BridgeCall.waitForSimulator,
             BridgeCall.handleControlParameters, BridgeCall.robotIsDone] }, none)) ∧
    ((SimulationBridge.handleControlParameters ops
        { r.bridge with
          _sharedMemory := memory
          _simMode := SimulatorMode.RUN_CONTROL_PARAMETERS }).2 ≠ Outcome.returned →
      SimulationBridge.iteration E ops firstRun r =
        ({ bridge :=
            (SimulationBridge.handleControlParameters ops
              { r.bridge with
                _sharedMemory := memory
                _simMode := SimulatorMode.RUN_CONTROL_PARAMETERS }).1
           _robotController := r._robotController
           calls := r.calls ++ [BridgeCall.waitForSimulator,
             BridgeCall.handleControlParameters] },
          some (RunEnd.threw (Thrown.control_parameters
            (SimulationBridge.handleControlParameters ops
              { r.bridge with
                _sharedMemory := memory
                _simMode := SimulatorMode.RUN_CONTROL_PARAMETERS }).2)))) := by
  unfold SimulationBridge.iteration
  simp only [hwait]
  rw [if_neg (by exact hcheck)]
  simp only [RunningBridge.call, hmode]
  generalize SimulationBridge.handleControlParameters ops _ = res
  obtain ⟨b, o⟩ := res
  cases o <;> simp

theorem iteration_runController {P V S : Type} (E : BridgeCollaborators P V S)
    (ops : ControlParameterOps P V) (firstRun : Bool) (r : RunningBridge P V S)
    (memory : SimulatorSyncronizedMessage V)
    (hwait : r.bridge._sharedMemory.waitForSimulator = some memory)
    (hcheck : ¬ (firstRun = true ∧ r.bridge._robot ≠ memory.simToRobot.robotType))
    (hmode : memory.simToRobot.mode = SimulatorMode.RUN_CONTROLLER) :
    ((SimulationBridge.runRobotControl E
        { bridge :=
            { r.bridge with
              _sharedMemory := memory
              _simMode := SimulatorMode.RUN_CONTROLLER
              _iterations := r.bridge._iterations + 1 }
          _robotController := r._robotController
          calls := r.calls ++ [BridgeCall.waitForSimulator,
            BridgeCall.runRobotControl] }).2 = none →
      SimulationBridge.iteration E ops firstRun r =
        ({ bridge :=
            { (SimulationBridge.runRobotControl E
                { bridge :=
                    { r.bridge with
                      _sharedMemory := memory
                      _simMode := SimulatorMode.RUN_CONTROLLER
                      _iterations := r.bridge._iterations + 1 }
                  _robotController := r._robotController
                  calls := r.calls ++ [BridgeCall.waitForSimulator,
                    BridgeCall.runRobotControl] }).1.bridge with
              _sharedMemory :=
                (SimulationBridge.runRobotControl E
                  { bridge :=
                      { r.bridge with
                        _sharedMemory := memory
                        _simMode := SimulatorMode.RUN_CONTROLLER
                        _iterations := r.bridge._iterations + 1 }
                    _robotController := r._robotController
                    calls := r.calls ++ [BridgeCall.waitForSimulator,
                      BridgeCall.runRobotControl] }).1.bridge._sharedMemory.robotIsDone }
           _robotController :=
            (SimulationBridge.runRobotControl E
              { bridge :=
                  { r.bridge with
                    _sharedMemory := memory
                    _simMode := SimulatorMode.RUN_CONTROLLER
                    _iterations := r.bridge._iterations + 1 }
                _robotController := r._robotController
                calls := r.calls ++ [BridgeCall.waitForSimulator,
                  BridgeCall.runRobotControl] }).1._robotController
           calls :=
            (SimulationBridge.runRobotControl E
              { bridge :=
                  { r.bridge with
                    _sharedMemory := memory
                    _simMode := SimulatorMode.RUN_CONTROLLER
                    _iterations := r.bridge._iterations + 1 }
                _robotController := r._robotController
                calls := r.calls ++ [BridgeCall.waitForSimulator,
                  BridgeCall.runRobotControl] }).1.calls ++ [BridgeCall.robotIsDone] },
          none)) ∧
    (∀ t,
      (SimulationBridge.runRobotControl E
        { bridge :=
            { r.bridge with
              _sharedMemory := memory
              _simMode := SimulatorMode.RUN_CONTROLLER
              _iterations := r.bridge._iterations + 1 }
          _robotController := r._robotController
          calls := r.calls ++ [BridgeCall.waitForSimulator,
            BridgeCall.runRobotControl] }).2 = some t →
      SimulationBridge.iteration E ops firstRun r =
        ((SimulationBridge.runRobotControl E
          { bridge :=
              { r.bridge with
                _sharedMemory := memory
                _simMode := SimulatorMode.RUN_CONTROLLER
                _iterations := r.bridge._iterations + 1 }
            _robotController := r._robotController
            calls := r.calls ++ [BridgeCall.waitForSimulator,
              BridgeCall.runRobotControl] }).1, some (RunEnd.threw t))) := by
  unfold SimulationBridge.iteration
  simp only [hwait]
  rw [if_neg (by exact hcheck)]
  simp only [RunningBridge.call, hmode, List.append_assoc, List.singleton_append]
  generalize SimulationBridge.runRobotControl E _ = res
  obtain ⟨r4, t⟩ := res
  cases t <;> simp

theorem handleControlParameters_keeps_memory {P V : Type} (ops : ControlParameterOps P V)
    (b : SimulationBridge P V) :
    (SimulationBridge.handleControlParameters ops b).1._sharedMemory.robotToSimSemaphore =
      b._sharedMemory.robotToSimSemaphore ∧
    (SimulationBridge.handleControlParameters ops b).1._sharedMemory.simToRobotSemaphore =
      b._sharedMemory.simToRobotSemaphore ∧
    (SimulationBridge.handleControlParameters ops b).1._sharedMemory.simToRobot =
      b._sharedMemory.simToRobot ∧
    (SimulationBridge.handleControlParameters ops b).1._simMode = b._simMode ∧
    (SimulationBridge.handleControlParameters ops b).1._iterations = b._iterations := by
  unfold SimulationBridge.handleControlParameters
  simp only []
  repeat' split
  all_goals exact ⟨rfl, rfl, rfl, rfl, rfl⟩

theorem runRobotControl_keeps_memory {P V S : Type} (E : BridgeCollaborators P V S)
    (r : RunningBridge P V S) :
    (SimulationBridge.runRobotControl E r).1.bridge._sharedMemory.robotToSimSemaphore =
      r.bridge._sharedMemory.robotToSimSemaphore ∧
    (SimulationBridge.runRobotControl E r).1.bridge._sharedMemory.simToRobotSemaphore =
      r.bridge._sharedMemory.simToRobotSemaphore ∧
    (SimulationBridge.runRobotControl E r).1.bridge._sharedMemory.simToRobot =
      r.bridge._sharedMemory.simToRobot ∧
    (SimulationBridge.runRobotControl E r).1.bridge._iterations = r.bridge._iterations ∧
    (SimulationBridge.runRobotControl E r).1.bridge._robotParams = r.bridge._robotParams := by
  by_cases hfirst : r.bridge._firstControllerRun = true
  · by_cases hinit : E.isFullyInitialized r.bridge._robotParams = true
    · rw [runRobotControl_first_eq E r hfirst hinit]
      exact ⟨rfl, rfl, rfl, rfl, rfl⟩
    · rw [runRobotControl_not_initialized E r hfirst (by simpa using hinit)]
      exact ⟨rfl, rfl, rfl, rfl, rfl⟩
  · have hfirst : r.bridge._firstControllerRun = false := by simpa using hfirst
    cases hc : r._robotController with
    | none =>
      have e : SimulationBridge.runRobotControl E r = (r, some Thrown.null_controller) := by
        unfold SimulationBridge.runRobotControl
        simp [hfirst, hc]
      rw [e]
      exact ⟨rfl, rfl, rfl, rfl, rfl⟩
    | some c =>
      rw [runRobotControl_later_eq E r c hfirst hc]
      exact ⟨rfl, rfl, rfl, rfl, rfl⟩

theorem runRobotControl_keeps_mode {P V S : Type} (E : BridgeCollaborators P V S)
    (r : RunningBridge P V S) (hmode : r.bridge._simMode = SimulatorMode.RUN_CONTROLLER) :
    (SimulationBridge.runRobotControl E r).1.bridge._simMode =
      SimulatorMode.RUN_CONTROLLER := by
  by_cases hfirst : r.bridge._firstControllerRun = true
  · by_cases hinit : E.isFullyInitialized r.bridge._robotParams = true
    · rw [runRobotControl_first_eq E r hfirst hinit]
    · rw [runRobotControl_not_initialized E r hfirst (by simpa using hinit)]
      exact hmode
  · have hfirst : r.bridge._firstControllerRun = false := by simpa using hfirst
    cases hc : r._robotController with
    | none =>
      have e : SimulationBridge.runRobotControl E r = (r, some Thrown.null_controller) := by
        unfold SimulationBridge.runRobotControl
        simp [hfirst, hc]
      rw [e]
      exact hmode
    | some c =>
      rw [runRobotControl_later_eq E r c hfirst hc]
      exact hmode

theorem waitForSimulator_some {V : Type} (m memory : SimulatorSyncronizedMessage V)
    (hwait : m.waitForSimulator = some memory) :
    memory.toSimulatorMessage = m.toSimulatorMessage ∧
    memory.robotToSimSemaphore = m.robotToSimSemaphore ∧
    memory.simToRobotSemaphore.count + 1 = m.simToRobotSemaphore.count := by
  simp only [SimulatorSyncronizedMessage.waitForSimulator, Option.map_eq_some'] at hwait
  obtain ⟨s, hs, rfl⟩ := hwait
  refine ⟨rfl, rfl, ?_⟩
  unfold SharedMemorySemaphore.decrement at hs
  split at hs
  · rename_i hpos
    cases hs
    show m.simToRobotSemaphore.count - 1 + 1 = m.simToRobotSemaphore.count
    omega
  · cases hs

theorem iteration_continues {P V S : Type} (E : BridgeCollaborators P V S)
    (ops : ControlParameterOps P V) (firstRun : Bool) (r : RunningBridge P V S)
    (memory : SimulatorSyncronizedMessage V)
    (hwait : r.bridge._sharedMemory.waitForSimulator = some memory)
    (hnone : (SimulationBridge.iteration E ops firstRun r).2 = none) :
    (SimulationBridge.iteration E ops firstRun r).1.bridge._sharedMemory.robotToSimSemaphore.count =
      memory.robotToSimSemaphore.count + 1 ∧
    (SimulationBridge.iteration E ops firstRun r).1.bridge._sharedMemory.simToRobotSemaphore =
      memory.simToRobotSemaphore ∧
    (SimulationBridge.iteration E ops firstRun r).1.bridge._sharedMemory.simToRobot =
      memory.simToRobot ∧
    (SimulationBridge.iteration E ops firstRun r).1.bridge._simMode = memory.simToRobot.mode := by
  by_cases hcheck : firstRun = true ∧ r.bridge._robot ≠ memory.simToRobot.robotType
  · obtain ⟨hf, hne⟩ := hcheck
    subst hf
    rw [iteration_mismatch E ops r memory hwait hne] at hnone
    cases hnone
  · cases hmode : memory.simToRobot.mode with
    | RUN_CONTROL_PARAMETERS =>
      have hk := handleControlParameters_keeps_memory ops
        { r.bridge with
          _sharedMemory := memory
          _simMode := SimulatorMode.RUN_CONTROL_PARAMETERS }
      by_cases hret : (SimulationBridge.handleControlParameters ops
          { r.bridge with
            _sharedMemory := memory
            _simMode := SimulatorMode.RUN_CONTROL_PARAMETERS }).2 = Outcome.returned
      · rw [(iteration_controlParameters E ops firstRun r memory hwait hcheck hmode).1 hret]
        refine ⟨?_, hk.2.1, hk.2.2.1, hk.2.2.2.1⟩
        show (SharedMemorySemaphore.increment _).count = _
        rw [hk.1]
        rfl
      · rw [(iteration_controlParameters E ops firstRun r memory hwait hcheck hmode).2 hret]
          at hnone
        cases hnone
    | RUN_CONTROLLER =>
      have hk := runRobotControl_keeps_memory E
        { bridge :=
            { r.bridge with
              _sharedMemory := memory
              _simMode := SimulatorMode.RUN_CONTROLLER
              _iterations := r.bridge._iterations + 1 }
          _robotController := r._robotController
          calls := r.calls ++ [BridgeCall.waitForSimulator, BridgeCall.runRobotControl] }
      have hm := runRobotControl_keeps_mode E
        { bridge :=
            { r.bridge with
              _sharedMemory := memory
              _simMode := SimulatorMode.RUN_CONTROLLER
              _iterations := r.bridge._iterations + 1 }
          _robotController := r._robotController
          calls := r.calls ++ [BridgeCall.waitForSimulator, BridgeCall.runRobotControl] } rfl
      cases hrr : (SimulationBridge.runRobotControl E
        { bridge :=
            { r.bridge with
              _sharedMemory := memory
              _simMode := SimulatorMode.RUN_CONTROLLER
              _iterations := r.bridge._iterations + 1 }
          _robotController := r._robotController
          calls := r.calls ++ [BridgeCall.waitForSimulator, BridgeCall.runRobotControl] }).2 with
      | none =>
        rw [(iteration_runController E ops firstRun r memory hwait hcheck hmode).1 hrr]
        refine ⟨?_, hk.2.1, hk.2.2.1, hm⟩
        show (SharedMemorySemaphore.increment _).count = _
        rw [hk.1]
        rfl
      | some t =>
        rw [(iteration_runController E ops firstRun r memory hwait hcheck hmode).2 t hrr]
          at hnone
        cases hnone
    | DO_NOTHING =>
      rw [iteration_doNothing E ops firstRun r memory hwait hcheck hmode]
      exact ⟨rfl, rfl, rfl, rfl⟩
    | EXIT =>
      rw [iteration_exit E ops firstRun r memory hwait hcheck hmode] at hnone
      cases hnone

theorem iteration_leaves {P V S : Type} (E : BridgeCollaborators P V S)
    (ops : ControlParameterOps P V) (firstRun : Bool) (r : RunningBridge P V S)
    (memory : SimulatorSyncronizedMessage V)
    (hwait : r.bridge._sharedMemory.waitForSimulator = some memory)
    (e : RunEnd) (hsome : (SimulationBridge.iteration E ops firstRun r).2 = some e) :
    (SimulationBridge.iteration E ops firstRun r).1.bridge._sharedMemory.robotToSimSemaphore =
      memory.robotToSimSemaphore := by
  by_cases hcheck : firstRun = true ∧ r.bridge._robot ≠ memory.simToRobot.robotType
  · obtain ⟨hf, hne⟩ := hcheck
    subst hf
    rw [iteration_mismatch E ops r memory hwait hne]
    rfl
  · cases hmode : memory.simToRobot.mode with
    | RUN_CONTROL_PARAMETERS =>
      have hk := handleControlParameters_keeps_memory ops
        { r.bridge with
          _sharedMemory := memory
          _simMode := SimulatorMode.RUN_CONTROL_PARAMETERS }
      by_cases hret : (SimulationBridge.handleControlParameters ops
          { r.bridge with
            _sharedMemory := memory
            _simMode := SimulatorMode.RUN_CONTROL_PARAMETERS }).2 = Outcome.returned
      · rw [(iteration_controlParameters E ops firstRun r memory hwait hcheck hmode).1 hret]
          at hsome
        cases hsome
      · rw [(iteration_controlParameters E ops firstRun r memory hwait hcheck hmode).2 hret]
        exact hk.1
    | RUN_CONTROLLER =>
      have hk := runRobotControl_keeps_memory E
        { bridge :=
            { r.bridge with
              _sharedMemory := memory
              _simMode := SimulatorMode.RUN_CONTROLLER
              _iterations := r.bridge._iterations + 1 }
          _robotController := r._robotController
          calls := r.calls ++ [BridgeCall.waitForSimulator, BridgeCall.runRobotControl] }
      cases hrr : (SimulationBridge.runRobotControl E
        { bridge :=
            { r.bridge with
              _sharedMemory := memory
              _simMode := SimulatorMode.RUN_CONTROLLER
              _iterations := r.bridge._iterations + 1 }
          _robotController := r._robotController
          calls := r.calls ++ [BridgeCall.waitForSimulator, BridgeCall.runRobotControl] }).2 with
      | none =>
        rw [(iteration_runController E ops firstRun r memory hwait hcheck hmode).1 hrr]
          at hsome
        cases hsome
      | some t =>
        rw [(iteration_runController E ops firstRun r memory hwait hcheck hmode).2 t hrr]
        exact hk.1
    | DO_NOTHING =>
      rw [iteration_doNothing E ops firstRun r memory hwait hcheck hmode] at hsome
      cases hsome
    | EXIT =>
      rw [iteration_exit E ops firstRun r memory hwait hcheck hmode]
      rfl

/-- C21: take a pass through the loop of `run` at which the simulator has signalled, so that
`waitForSimulator` has taken one from the simulator's semaphore and left the message and the
robot's semaphore as they were. When the pass ends without leaving the loop, it has made
exactly one call of `waitForSimulator`, then the calls that handle the mode, then exactly one
call of `robotIsDone`, and the mode was not `EXIT`; the robot's semaphore then counts one
more than before, the simulator's one less, and the mode stored is the simulator's. When the
pass leaves the loop there is no `robotIsDone` and the robot's semaphore is as before. Mode
by mode the pass is spelled out: on `DO_NOTHING` the mode is stored and the robot's semaphore
incremented; on `RUN_CONTROL_PARAMETERS` the bridge is the one `handleControlParameters`
leaves, with the robot's semaphore incremented afterwards when it returned, and thrown
without the increment otherwise; on `RUN_CONTROLLER` the iteration count is incremented,
`runRobotControl` runs on that bridge, and the robot's semaphore is incremented on what it
leaves unless it threw; on `EXIT` the loop is left by returning, after `waitForSimulator`
alone. With `firstRun` set and a robot type that differs from the simulator's the pass throws
right after `waitForSimulator`, before any mode is stored or handled; with `firstRun` cleared
it never throws the mismatch. For `run` as a whole: it attaches, initialises the shared
memory and enters the loop with `firstRun` set; a pass that does not leave is followed by the
rest of the loop with `firstRun` cleared; the calls are `attach`, `init` and then the passes,
with one more `waitForSimulator` than `robotIsDone` unless `run` is left waiting, and a
mismatch can only be thrown in the first pass. -/
theorem run_signals_once_per_iteration {P V S : Type} (E : BridgeCollaborators P V S)
    (ops : ControlParameterOps P V) (firstRun : Bool) (r : RunningBridge P V S)
    (memory : SimulatorSyncronizedMessage V) (messages : List (SimulatorToRobotMessage V))
    (hwait : r.bridge._sharedMemory.waitForSimulator = some memory) :
    (∃ mid, BridgeCall.waitForSimulator ∉ mid ∧ BridgeCall.robotIsDone ∉ mid ∧
      ((SimulationBridge.iteration E ops firstRun r).2 = none →
        (SimulationBridge.iteration E ops firstRun r).1.calls =
          r.calls ++ BridgeCall.waitForSimulator :: mid ++ [BridgeCall.robotIsDone] ∧
        memory.simToRobot.mode ≠ SimulatorMode.EXIT) ∧
      (∀ e, (SimulationBridge.iteration E ops firstRun r).2 = some e →
        (SimulationBridge.iteration E ops firstRun r).1.calls =
          r.calls ++ BridgeCall.waitForSimulator :: mid ∧ e ≠ RunEnd.waits)) ∧
    (¬ (firstRun = true ∧ r.bridge._robot ≠ memory.simToRobot.robotType) →
      memory.simToRobot.mode = SimulatorMode.EXIT →
      (SimulationBridge.iteration E ops firstRun r).2 = some RunEnd.returned ∧
      (SimulationBridge.iteration E ops firstRun r).1.calls =
        r.calls ++ [BridgeCall.waitForSimulator] ∧
      (SimulationBridge.iteration E ops firstRun r).1.bridge._sharedMemory.robotToSimSemaphore =
        r.bridge._sharedMemory.robotToSimSemaphore) ∧
    (r.bridge._robot ≠ memory.simToRobot.robotType →
      (SimulationBridge.iteration E ops true r).2 =
        some (RunEnd.threw Thrown.robot_mismatch) ∧
      (SimulationBridge.iteration E ops true r).1.calls =
        r.calls ++ [BridgeCall.waitForSimulator] ∧
      (SimulationBridge.iteration E ops true r).1.bridge._simMode = r.bridge._simMode) ∧
    (SimulationBridge.iteration E ops false r).2 ≠
      some (RunEnd.threw Thrown.robot_mismatch) ∧
    (∃ new, (SimulationBridge.run E ops messages r).1.calls =
        r.calls ++ BridgeCall.attach :: BridgeCall.init :: new ∧
      new.count BridgeCall.waitForSimulator =
        new.count BridgeCall.robotIsDone +
          (if (SimulationBridge.run E ops messages r).2 = RunEnd.waits then 0 else 1)) ∧
    ((SimulationBridge.run E ops messages r).2 = RunEnd.threw Thrown.robot_mismatch →
      (SimulationBridge.run E ops messages r).1.calls =
        r.calls ++ [BridgeCall.attach, BridgeCall.init, BridgeCall.waitForSimulator]) ∧
    (memory.toSimulatorMessage = r.bridge._sharedMemory.toSimulatorMessage ∧
      memory.robotToSimSemaphore = r.bridge._sharedMemory.robotToSimSemaphore ∧
      memory.simToRobotSemaphore.count + 1 =
        r.bridge._sharedMemory.simToRobotSemaphore.count) ∧
    ((SimulationBridge.iteration E ops firstRun r).2 = none →
      (SimulationBridge.iteration E ops firstRun
          r).1.bridge._sharedMemory.robotToSimSemaphore.count =
        r.bridge._sharedMemory.robotToSimSemaphore.count + 1 ∧
      (SimulationBridge.iteration E ops firstRun
          r).1.bridge._sharedMemory.simToRobotSemaphore.count + 1 =
        r.bridge._sharedMemory.simToRobotSemaphore.count ∧
      (SimulationBridge.iteration E ops firstRun r).1.bridge._sharedMemory.simToRobot =
        r.bridge._sharedMemory.simToRobot ∧
      (SimulationBridge.iteration E ops firstRun r).1.bridge._simMode =
        r.bridge._sharedMemory.simToRobot.mode) ∧
    (∀ e, (SimulationBridge.iteration E ops firstRun r).2 = some e →
      (SimulationBridge.iteration E ops firstRun r).1.bridge._sharedMemory.robotToSimSemaphore =
        r.bridge._sharedMemory.robotToSimSemaphore) ∧
    (¬ (firstRun = true ∧ r.bridge._robot ≠ memory.simToRobot.robotType) →
      memory.simToRobot.mode = SimulatorMode.DO_NOTHING →
      SimulationBridge.iteration E ops firstRun r =
        ({ bridge :=
            { r.bridge with
              _sharedMemory :=
                { memory with
                  robotToSimSemaphore := { count := memory.robotToSimSemaphore.count + 1 } }
              _simMode := SimulatorMode.DO_NOTHING }
           _robotController := r._robotController
           calls := r.calls ++ [BridgeCall.waitForSimulator, BridgeCall.robotIsDone] },
          none)) ∧
    (¬ (firstRun = true ∧ r.bridge._robot ≠ memory.simToRobot.robotType) →
      memory.simToRobot.mode = SimulatorMode.RUN_CONTROL_PARAMETERS →
      ∀ handled,
        handled = SimulationBridge.handleControlParameters ops
          { r.bridge with
            _sharedMemory := memory
            _simMode := SimulatorMode.RUN_CONTROL_PARAMETERS } →
        (handled.2 = Outcome.returned →
          SimulationBridge.iteration E ops firstRun r =
            ({ bridge :=
                { handled.1 with
                  _sharedMemory :=
                    { handled.1._sharedMemory with
                      robotToSimSemaphore :=
                        { count := memory.robotToSimSemaphore.count + 1 } } }
               _robotController := r._robotController
               calls := r.calls ++ [BridgeCall.waitForSimulator,
                 BridgeCall.handleControlParameters, BridgeCall.robotIsDone] }, none)) ∧
        (handled.2 ≠ Outcome.returned →
          SimulationBridge.iteration E ops firstRun r =
            ({ bridge := handled.1
               _robotController := r._robotController
               calls := r.calls ++ [BridgeCall.waitForSimulator,
                 BridgeCall.handleControlParameters] },
              some (RunEnd.threw (Thrown.control_parameters handled.2))))) ∧
    (¬ (firstRun = true ∧ r.bridge._robot ≠ memory.simToRobot.robotType) →
      memory.simToRobot.mode = SimulatorMode.RUN_CONTROLLER →
      ∀ controlled,
        controlled = SimulationBridge.runRobotControl E
          { bridge :=
              { r.bridge with
                _sharedMemory := memory
                _simMode := SimulatorMode.RUN_CONTROLLER
                _iterations := r.bridge._iterations + 1 }
            _robotController := r._robotController
            calls := r.calls ++ [BridgeCall.waitForSimulator, BridgeCall.runRobotControl] } →
        (controlled.2 = none →
          SimulationBridge.iteration E ops firstRun r =
            ({ bridge :=
                { controlled.1.bridge with
                  _sharedMemory :=
                    { controlled.1.bridge._sharedMemory with
                      robotToSimSemaphore :=
                        { count := memory.robotToSimSemaphore.count + 1 } } }
               _robotController := controlled.1._robotController
               calls := controlled.1.calls ++ [BridgeCall.robotIsDone] }, none)) ∧
        (∀ t, controlled.2 = some t →
          SimulationBridge.iteration E ops firstRun r =
            (controlled.1, some (RunEnd.threw t)))) ∧
    (¬ (firstRun = true ∧ r.bridge._robot ≠ memory.simToRobot.robotType) →
      memory.simToRobot.mode = SimulatorMode.EXIT →
      SimulationBridge.iteration E ops firstRun r =
        ({ bridge := { r.bridge with _sharedMemory := memory, _simMode := SimulatorMode.EXIT }
           _robotController := r._robotController
           calls := r.calls ++ [BridgeCall.waitForSimulator] }, some RunEnd.returned)) ∧
    (r.bridge._robot ≠ memory.simToRobot.robotType →
      SimulationBridge.iteration E ops true r =
        ({ bridge := { r.bridge with _sharedMemory := memory }
           _robotController := r._robotController
           calls := r.calls ++ [BridgeCall.waitForSimulator] },
          some (RunEnd.threw Thrown.robot_mismatch))) ∧
    SimulationBridge.run E ops messages r =
      SimulationBridge.loop E ops messages true
        { bridge := { r.bridge with _sharedMemory := r.bridge._sharedMemory.init }
          _robotController := r._robotController
          calls := r.calls ++ [BridgeCall.attach, BridgeCall.init] } ∧
    (∀ message rest first r1 r2,
      SimulationBridge.iteration E ops first (RunningBridge.afterSimulator r1 message) =
        (r2, none) →
      SimulationBridge.loop E ops (message :: rest) first r1 =
        SimulationBridge.loop E ops rest false r2) ∧
    (∀ message rest first r1 r2 e,
      SimulationBridge.iteration E ops first (RunningBridge.afterSimulator r1 message) =
        (r2, some e) →
      SimulationBridge.loop E ops (message :: rest) first r1 = (r2, e)) := by
  have hsem : memory.robotToSimSemaphore = r.bridge._sharedMemory.robotToSimSemaphore :=
    (waitForSimulator_some _ _ hwait).2.1
  have hmsg := (waitForSimulator_some _ _ hwait).1
  have hcount := (waitForSimulator_some _ _ hwait).2.2
  have hsim : memory.simToRobot = r.bridge._sharedMemory.simToRobot := by
    show memory.toSimulatorMessage.simToRobot = _
    rw [hmsg]
  refine ⟨?_, ?_, ?_, ?_, ?_, run_mismatch_calls E ops messages r,
    waitForSimulator_some _ _ hwait, ?_, ?_, ?_, ?_, ?_, ?_, ?_, ?_,
    fun message rest first r1 r2 h => loop_cons_none E ops message rest first r1 r2 h,
    fun message rest first r1 r2 e h => loop_cons_some E ops message rest first r1 r2 e h⟩
  · obtain ⟨mid, h1, h2, h3, h4, -⟩ := iteration_shape E ops firstRun r memory hwait
    exact ⟨mid, h1, h2, h3, h4⟩
  · intro hcheck hmode
    rw [iteration_exit E ops firstRun r memory hwait hcheck hmode]
    exact ⟨rfl, rfl, hsem⟩
  · intro hne
    rw [iteration_mismatch E ops r memory hwait hne]
    exact ⟨rfl, rfl, rfl⟩
  · intro h
    obtain ⟨mid, -, -, -, -, hmis⟩ := iteration_shape E ops false r memory hwait
    exact absurd (hmis h).1 (by decide)
  · obtain ⟨new, hnew, hcount⟩ := loop_counts E ops messages true
      ({ (r.call BridgeCall.attach) with
          bridge :=
            { (r.call BridgeCall.attach).bridge with
              _sharedMemory := (r.call BridgeCall.attach).bridge._sharedMemory.init } }.call
        BridgeCall.init)
    refine ⟨new, ?_, hcount⟩
    show (SimulationBridge.loop E ops messages true _).1.calls = _
    rw [hnew]
    simp [RunningBridge.call]
  · intro hnone
    obtain ⟨h1, h2, h3, h4⟩ := iteration_continues E ops firstRun r memory hwait hnone
    rw [h1, h2, h3, h4, hsem, hsim]
    exact ⟨rfl, hcount, rfl, rfl⟩
  · intro e he
    rw [iteration_leaves E ops firstRun r memory hwait e he, hsem]
  · intro hcheck hmode
    exact iteration_doNothing E ops firstRun r memory hwait hcheck hmode
  · intro hcheck hmode handled hhandled
    subst hhandled
    have hk := (handleControlParameters_keeps_memory ops
      { r.bridge with
        _sharedMemory := memory
        _simMode := SimulatorMode.RUN_CONTROL_PARAMETERS }).1
    refine ⟨fun hret => ?_, fun hret => ?_⟩
    · rw [(iteration_controlParameters E ops firstRun r memory hwait hcheck hmode).1 hret]
      simp only [SimulatorSyncronizedMessage.robotIsDone, SharedMemorySemaphore.increment, hk]
    · exact (iteration_controlParameters E ops firstRun r memory hwait hcheck hmode).2 hret
  · intro hcheck hmode controlled hcontrolled
    subst hcontrolled
    have hk := (runRobotControl_keeps_memory E
      { bridge :=
          { r.bridge with
            _sharedMemory := memory
            _simMode := SimulatorMode.RUN_CONTROLLER
            _iterations := r.bridge._iterations + 1 }
        _robotController := r._robotController
        calls := r.calls ++ [BridgeCall.waitForSimulator, BridgeCall.runRobotControl] }).1
    refine ⟨fun hrr => ?_, fun t hrr => ?_⟩
    · rw [(iteration_runController E ops firstRun r memory hwait hcheck hmode).1 hrr]
      simp only [SimulatorSyncronizedMessage.robotIsDone, SharedMemorySemaphore.increment, hk]
    · exact (iteration_runController E ops firstRun r memory hwait hcheck hmode).2 t hrr
  · intro hcheck hmode
    exact iteration_exit E ops firstRun r memory hwait hcheck hmode
  · intro hne
    exact iteration_mismatch E ops r memory hwait hne
  · simp [SimulationBridge.run, RunningBridge.call]

/-- Witness for C21: the simulator of a Mini Cheetah asks a bridge for the Mini Cheetah to set
`kp` to 42. The pass does not leave the loop: it waits, handles the request, so that `kp` is
42 and the response acknowledges request 1, and then signals once, so that the robot's
semaphore counts 1 and the simulator's 0. -/
theorem run_signals_once_per_iteration_witness :
    (SimulationBridge.iteration countingController plainParameter true
      (freshBridge.afterSimulator
        (simulatorSays RobotType.MINI_CHEETAH SimulatorMode.RUN_CONTROL_PARAMETERS 1))).2 =
      none ∧
    (SimulationBridge.iteration countingController plainParameter true
      (freshBridge.afterSimulator
        (simulatorSays RobotType.MINI_CHEETAH SimulatorMode.RUN_CONTROL_PARAMETERS 1))).1.calls =
      [BridgeCall.waitForSimulator, BridgeCall.handleControlParameters,
        BridgeCall.robotIsDone] ∧
    (SimulationBridge.iteration countingController plainParameter true
      (freshBridge.afterSimulator
        (simulatorSays RobotType.MINI_CHEETAH SimulatorMode.RUN_CONTROL_PARAMETERS
          1))).1.bridge._sharedMemory.robotToSimSemaphore.count = 1 ∧
    (SimulationBridge.iteration countingController plainParameter true
      (freshBridge.afterSimulator
        (simulatorSays RobotType.MINI_CHEETAH SimulatorMode.RUN_CONTROL_PARAMETERS
          1))).1.bridge._sharedMemory.simToRobotSemaphore.count = 0 ∧
    (SimulationBridge.iteration countingController plainParameter true
      (freshBridge.afterSimulator
        (simulatorSays RobotType.MINI_CHEETAH SimulatorMode.RUN_CONTROL_PARAMETERS
          1))).1.bridge._robotParams.collection.lookup "kp" = some (0, 42) ∧
    (SimulationBridge.iteration countingController plainParameter true
      (freshBridge.afterSimulator
        (simulatorSays RobotType.MINI_CHEETAH SimulatorMode.RUN_CONTROL_PARAMETERS
          1))).1.bridge.response.requestNumber = 1 := by
  have h := ((run_signals_once_per_iteration countingController plainParameter true
    (freshBridge.afterSimulator
      (simulatorSays RobotType.MINI_CHEETAH SimulatorMode.RUN_CONTROL_PARAMETERS 1))
    _ [] rfl).2.2.2.2.2.2.2.2.2.2.1 (by decide) rfl _ rfl).1 rfl
  rw [h]
  exact ⟨rfl, rfl, rfl, rfl, rfl, rfl⟩

/-- C22: on a first call of `runRobotControl` (`_firstControllerRun` set) with control
parameters that are not all initialised the call throws and leaves the bridge as it was: no
controller is created, initialised or stepped. With all parameters initialised the first call
stores the mode `RUN_CONTROLLER`, creates the controller with the bridge's robot type,
initialises it on the shared message and the parameters, clears `_firstControllerRun`, sets
the four `spiCommand` flags to 1 and then steps the initialised controller on the message that
carries these flags; the controller and the command that `step` returns are what the bridge
holds afterwards. The next call, and every call with `_firstControllerRun` cleared, creates
and initialises nothing: it sets the four flags to 1 and steps the controller it holds. -/
theorem runRobotControl_creates_controller_once {P V S : Type}
    (E : BridgeCollaborators P V S) (r : RunningBridge P V S) :
    (r.bridge._firstControllerRun = true →
      E.isFullyInitialized r.bridge._robotParams = false →
      SimulationBridge.runRobotControl E r = (r, some Thrown.not_initialized)) ∧
    (r.bridge._firstControllerRun = true →
      E.isFullyInitialized r.bridge._robotParams = true →
      (SimulationBridge.runRobotControl E r).2 = none ∧
      (SimulationBridge.runRobotControl E r).1.calls =
        r.calls ++ [BridgeCall.newRobotController, BridgeCall.initializeController,
          BridgeCall.step [1, 1, 1, 1]] ∧
      (SimulationBridge.runRobotControl E r).1.bridge._firstControllerRun = false ∧
      (SimulationBridge.runRobotControl E r).1._robotController.isSome = true ∧
      (SimulationBridge.runRobotControl E (SimulationBridge.runRobotControl E r).1).2 = none ∧
      (SimulationBridge.runRobotControl E (SimulationBridge.runRobotControl E r).1).1.calls =
        r.calls ++ [BridgeCall.newRobotController, BridgeCall.initializeController,
          BridgeCall.step [1, 1, 1, 1], BridgeCall.step [1, 1, 1, 1]]) ∧
    (∀ c, r.bridge._firstControllerRun = false → r._robotController = some c →
      (SimulationBridge.runRobotControl E r).2 = none ∧
      (SimulationBridge.runRobotControl E r).1.calls =
        r.calls ++ [BridgeCall.step [1, 1, 1, 1]] ∧
      (SimulationBridge.runRobotControl E r).1.bridge._firstControllerRun = false) ∧
    (∀ flags, BridgeCall.step flags ∈ (SimulationBridge.runRobotControl E r).1.calls →
      BridgeCall.step flags ∈ r.calls ∨ flags = [1, 1, 1, 1]) ∧
    (r.bridge._firstControllerRun = true →
      E.isFullyInitialized r.bridge._robotParams = true →
      SimulationBridge.runRobotControl E r =
        ({ bridge :=
            { r.bridge with
              _simMode := SimulatorMode.RUN_CONTROLLER
              _firstControllerRun := false
              _sharedMemory :=
                { r.bridge._sharedMemory with
                  robotToSim :=
                    { r.bridge._sharedMemory.robotToSim with
                      spiCommand :=
                        (E.step
                          (E.initializeController
                            { robotType := r.bridge._robot, state := E.newController }
                            r.bridge._sharedMemory.toSimulatorMessage r.bridge._robotParams)
                          { robotToSim :=
                              { r.bridge._sharedMemory.robotToSim with
                                spiCommand := { flags := fun _ => 1 } }
                            simToRobot := r.bridge._sharedMemory.simToRobot }
                          r.bridge._robotParams).2 } } }
           _robotController :=
            some
              (E.step
                (E.initializeController
                  { robotType := r.bridge._robot, state := E.newController }
                  r.bridge._sharedMemory.toSimulatorMessage r.bridge._robotParams)
                { robotToSim :=
                    { r.bridge._sharedMemory.robotToSim with
                      spiCommand := { flags := fun _ => 1 } }
                  simToRobot := r.bridge._sharedMemory.simToRobot }
                r.bridge._robotParams).1
           calls :=
            r.calls ++ [BridgeCall.newRobotController, BridgeCall.initializeController,
              BridgeCall.step [1, 1, 1, 1]] }, none)) ∧
    (∀ c, r.bridge._firstControllerRun = false → r._robotController = some c →
      SimulationBridge.runRobotControl E r =
        ({ bridge :=
            { r.bridge with
              _sharedMemory :=
                { r.bridge._sharedMemory with
                  robotToSim :=
                    { r.bridge._sharedMemory.robotToSim with
                      spiCommand :=
                        (E.step c
                          { robotToSim :=
                              { r.bridge._sharedMemory.robotToSim with
                                spiCommand := { flags := fun _ => 1 } }
                            simToRobot := r.bridge._sharedMemory.simToRobot }
                          r.bridge._robotParams).2 } } }
           _robotController :=
            some
              (E.step c
                { robotToSim :=
                    { r.bridge._sharedMemory.robotToSim with
                      spiCommand := { flags := fun _ => 1 } }
                  simToRobot := r.bridge._sharedMemory.simToRobot }
                r.bridge._robotParams).1
           calls := r.calls ++ [BridgeCall.step [1, 1, 1, 1]] }, none)) := by
  refine ⟨runRobotControl_not_initialized E r, ?_, ?_, ?_, runRobotControl_first_eq E r,
    runRobotControl_later_eq E r⟩
  · intro hfirst hinit
    obtain ⟨h1, h2, h3, -, -, c, hc, -⟩ := runRobotControl_first E r hfirst hinit
    obtain ⟨k1, k2, -⟩ := runRobotControl_later E _ c h3 hc
    refine ⟨h1, h2, h3, by rw [hc]; rfl, k1, ?_⟩
    rw [k2, h2]
    simp
  · intro c hfirst hc
    obtain ⟨h1, h2, h3, -⟩ := runRobotControl_later E r c hfirst hc
    exact ⟨h1, h2, h3⟩
  · intro flags hmem
    by_cases hfirst : r.bridge._firstControllerRun = true
    · by_cases hinit : E.isFullyInitialized r.bridge._robotParams = true
      · rw [(runRobotControl_first E r hfirst hinit).2.1] at hmem
        simp only [List.mem_append, List.mem_cons, BridgeCall.step.injEq, List.mem_singleton,
          reduceCtorEq, false_or, List.not_mem_nil, or_false] at hmem
        exact hmem
      · rw [runRobotControl_not_initialized E r hfirst (by simpa using hinit)] at hmem
        exact Or.inl hmem
    · have hfirst : r.bridge._firstControllerRun = false := by simpa using hfirst
      cases hc : r._robotController with
      | none =>
        have e : SimulationBridge.runRobotControl E r = (r, some Thrown.null_controller) := by
          unfold SimulationBridge.runRobotControl
          simp [hfirst, hc]
        rw [e] at hmem
        exact Or.inl hmem
      | some c =>
        rw [(runRobotControl_later E r c hfirst hc).2.1] at hmem
        simp only [List.mem_append, List.mem_singleton, BridgeCall.step.injEq] at hmem
        exact hmem

/-- Witness for C22: the first call on a fresh bridge creates the controller and steps it once
with the four flags at 1, which the counting controller leaves in `spiCommand`. -/
theorem runRobotControl_creates_controller_once_witness :
    ((SimulationBridge.runRobotControl countingController freshBridge).1._robotController.map
      fun c => (c.robotType, c.state)) = some (RobotType.MINI_CHEETAH, 1) ∧
    (∀ i, (SimulationBridge.runRobotControl countingController
      freshBridge).1.bridge._sharedMemory.robotToSim.spiCommand.flags i = 1) ∧
    (SimulationBridge.runRobotControl countingController freshBridge).1.calls =
      [BridgeCall.newRobotController, BridgeCall.initializeController,
        BridgeCall.step [1, 1, 1, 1]] ∧
    (SimulationBridge.runRobotControl countingController freshBridge).1.bridge._simMode =
      SimulatorMode.RUN_CONTROLLER := by
  have h := (runRobotControl_creates_controller_once countingController freshBridge).2.2.2.2.1
    rfl rfl
  rw [h]
  exact ⟨rfl, fun _ => rfl, rfl, rfl⟩

end Cheetah
